import Mathlib

/-!
# Granular contact-model coordinator (`GranularModel`)

A shallow embedding of `src/GRANULAR/granular_model.cpp`, of the twisting
submodels of `src/GRANULAR/gsm_twisting.cpp` and of the area heat law of
`src/GRANULAR/contact_heat_models.cpp`.

Conventions of the embedding

* `double` values are rational numbers (`ℚ`); `int` values are integers (`Int`),
  array lengths are natural numbers. The rational embedding states which formula the
  code evaluates, which fields it writes and which branch it takes in exact arithmetic;
  it has no rounding, no infinity and no NaN, and `x / 0` is 0 in it.
* Where rounding, a division by zero or a NaN decides a property, the statements
  concerned (`check_contact`, the kinematics and the net normal force of
  `calculate_forces`, `GSMTwistingSDS`, the validation of `init_classic_model`) are
  embedded a second time over `Dbl`, a model of IEEE 754 binary64 on `Nat` and `Int` with
  every operation rounded to nearest, ties to even; these definitions carry the prefix
  `Binary64.` and follow the source operation by operation, without fused
  multiply-add.
* `error->all` / `error->one` abort the run: a function that can reach one of them
  returns `Except String _`, the string being the message.
* The object pointed to by `sub_models[i]` is the same object as the one pointed to
  by the category pointer (`normal_model`, ...); the embedding keeps the six category
  pointers and reads `sub_models[i]` through `sub_models`.
* The classes `GSMNormal*`, `GSMDamping*`, `GSMTangential*`, `GSMRolling*`, `GSMHeat*`
  and the base class `GSM` are declared in files that are not part of the sources;
  what their constructors set and what their virtual hooks compute is taken as the
  parameter `Ext`.
* An argument list `char **arg` is a list of strings and token positions are natural
  numbers; the conversions `utils::numeric`, `utils::inumeric` and the constant
  `force->nktv2p`, which are not part of the sources, are the parameter `Utils`.
-/

namespace Granular

/-! ## Data model -/

/-- Modelled from the spec: the enumeration `SubmodelType` of `granular_model.h` is not
among the sources; the spec fixes the category order as Normal, Tangential, Damping,
Rolling, Twisting, Heat, and `NSUBMODELS` is 6. -/
inductive SubmodelType
  | NORMAL
  | TANGENTIAL
  | DAMPING
  | ROLLING
  | TWISTING
  | HEAT
  deriving DecidableEq

/-- Modelled from the spec: the categories in index order, `(SubmodelType) i` for
`i = 0 .. NSUBMODELS - 1`. -/
def submodelOrder : List SubmodelType :=
  [.NORMAL, .TANGENTIAL, .DAMPING, .ROLLING, .TWISTING, .HEAT]

/-- The integer value of a category, its position in `submodelOrder`. -/
def SubmodelType.toIndex : SubmodelType → Int
  | .NORMAL => 0
  | .TANGENTIAL => 1
  | .DAMPING => 2
  | .ROLLING => 3
  | .TWISTING => 4
  | .HEAT => 5

/-- The contact kinds of `contact_type`. -/
inductive ContactType
  | PAIR
  | WALL
  | WALLREGION
  deriving DecidableEq

/-- The concrete submodel classes that `construct_submodel` instantiates. -/
inductive Variant
  | GSMNormalNone
  | GSMNormalHooke
  | GSMNormalHertz
  | GSMNormalHertzMaterial
  | GSMNormalDMT
  | GSMNormalJKR
  | GSMTangentialNone
  | GSMTangentialLinearNoHistory
  | GSMTangentialLinearHistory
  | GSMTangentialLinearHistoryClassic
  | GSMTangentialMindlin
  | GSMTangentialMindlinForce
  | GSMTangentialMindlinRescale
  | GSMTangentialMindlinRescaleForce
  | GSMDampingNone
  | GSMDampingVelocity
  | GSMDampingMassVelocity
  | GSMDampingViscoelastic
  | GSMDampingTsuji
  | GSMRollingNone
  | GSMRollingSDS
  | GSMTwistingNone
  | GSMTwistingSDS
  | GSMTwistingMarshall
  | GSMHeatNone
  | GSMHeatArea
  deriving DecidableEq

/-- A three-component vector of doubles. -/
structure Vec3 where
  x : ℚ
  y : ℚ
  z : ℚ
  deriving DecidableEq

/-- The zero vector. -/
def Vec3.zero : Vec3 := ⟨0, 0, 0⟩

/-- The local fields `k`, `damp`, `mu` that `coeffs_to_local` derives from the
coefficient array. -/
structure Locals where
  k : ℚ
  damp : ℚ
  mu : ℚ
  deriving DecidableEq

/-- What a submodel constructor leaves in the fields of the base class `GSM`. -/
structure ClassInfo where
  num_coeffs : Nat
  size_history : Int
  allow_limit_damping : Int
  beyond_contact : Int
  nondefault_history_transfer : Int
  transfer_history_factor : List ℚ
  deriving DecidableEq

/-- A submodel object (class `GSM` and its subclasses). `cls` is its dynamic class. -/
structure GSM where
  cls : Variant
  name : String
  num_coeffs : Nat
  coeffs : List ℚ
  size_history : Int
  history_index : Nat
  allow_limit_damping : Int
  beyond_contact : Int
  nondefault_history_transfer : Int
  transfer_history_factor : List ℚ
  k : ℚ
  damp : ℚ
  mu : ℚ
  k_tang : ℚ
  mu_tang : ℚ
  Fncrit : ℚ
  deriving DecidableEq

/-- The coordinator (class `GranularModel`). -/
structure GranularModel where
  limit_damping : Int
  beyond_contact : Int
  nondefault_history_transfer : Int
  classic_model : Int
  contact_type : ContactType
  normal_model : Option GSM
  damping_model : Option GSM
  tangential_model : Option GSM
  rolling_model : Option GSM
  twisting_model : Option GSM
  heat_model : Option GSM
  rolling_defined : Int
  twisting_defined : Int
  heat_defined : Int
  size_history : Int
  transfer_history_factor : List ℚ
  history_update : Bool
  history : List ℚ
  dt : ℚ
  xi : Vec3
  xj : Vec3
  vi : Vec3
  vj : Vec3
  omegai : Vec3
  omegaj : Vec3
  radi : ℚ
  radj : ℚ
  Ti : ℚ
  Tj : ℚ
  touch : Bool
  dx : Vec3
  r : ℚ
  rsq : ℚ
  radsum : ℚ
  Reff : ℚ
  rinv : ℚ
  delta : ℚ
  dR : ℚ
  nx : Vec3
  vr : Vec3
  vnnr : ℚ
  vn : Vec3
  vt : Vec3
  wr : Vec3
  vtr : Vec3
  vrel : ℚ
  relrot : Vec3
  vrl : Vec3
  magtwist : ℚ
  area : ℚ
  Fntot : ℚ
  magtortwist : ℚ
  fs : Vec3
  fr : Vec3
  forces : Vec3
  torquesi : Vec3
  torquesj : Vec3
  dq : ℚ
  deriving DecidableEq

/-- The part of the program that is not among the sources: what the constructors of
the submodel classes set in the base class, and the virtual hooks of the classes
whose implementation file is absent. Each hook is a function of the values the call
reads. -/
structure Ext where
  /-- Fields left by the constructor of a class. -/
  ctor : Variant → ClassInfo
  /-- The hook `coeffs_to_local()` of a class: the local fields, or the error message. -/
  coeffs_to_local : Variant → List ℚ → Except String Locals
  /-- The hook `mix_coeffs(icoeffs, jcoeffs)` of a class: the mixed coefficient array and
  the local fields derived from it, or the error message. -/
  mix_coeffs : Variant → List ℚ → List ℚ → Except String (List ℚ × Locals)
  /-- The hook `init()` of a class whose implementation is absent: the local fields it
  leaves in its own object. -/
  init : Variant → GranularModel → Locals → Locals
  /-- The function `sqrt` of the C library. -/
  sqrt : ℚ → ℚ
  /-- The hook `normal_model->touch()`. -/
  touch : GranularModel → Bool
  /-- The hook `normal_model->calculate_area()`. -/
  calculate_area : GranularModel → ℚ
  /-- The hook `normal_model->calculate_forces()`, run after `set_knfac()`. -/
  normal_forces : GranularModel → ℚ
  /-- The hook `damping_model->calculate_forces()`. -/
  damping_forces : GranularModel → ℚ
  /-- The value `normal_model->set_fncrit()` stores in `Fncrit`. -/
  set_fncrit : GranularModel → ℚ
  /-- The hook `tangential_model->calculate_forces()`: the force `fs` and the history
  array it leaves. -/
  tangential_forces : GranularModel → Vec3 × List ℚ
  /-- The hook `rolling_model->calculate_forces()`: the force `fr` and the history array
  it leaves. -/
  rolling_forces : GranularModel → Vec3 × List ℚ
  /-- The hook `heat_model->calculate_heat()`. -/
  calculate_heat : GranularModel → ℚ

/-- The constructor `GranularModel::GranularModel`: no submodel, all flags 0, contact
type `PAIR`. Fields the constructor leaves uninitialised are taken as zero. -/
def GranularModel.new : GranularModel where
  limit_damping := 0
  beyond_contact := 0
  nondefault_history_transfer := 0
  classic_model := 0
  contact_type := .PAIR
  normal_model := none
  damping_model := none
  tangential_model := none
  rolling_model := none
  twisting_model := none
  heat_model := none
  rolling_defined := 0
  twisting_defined := 0
  heat_defined := 0
  size_history := 0
  transfer_history_factor := []
  history_update := false
  history := []
  dt := 0
  xi := Vec3.zero
  xj := Vec3.zero
  vi := Vec3.zero
  vj := Vec3.zero
  omegai := Vec3.zero
  omegaj := Vec3.zero
  radi := 0
  radj := 0
  Ti := 0
  Tj := 0
  touch := false
  dx := Vec3.zero
  r := 0
  rsq := 0
  radsum := 0
  Reff := 0
  rinv := 0
  delta := 0
  dR := 0
  nx := Vec3.zero
  vr := Vec3.zero
  vnnr := 0
  vn := Vec3.zero
  vt := Vec3.zero
  wr := Vec3.zero
  vtr := Vec3.zero
  vrel := 0
  relrot := Vec3.zero
  vrl := Vec3.zero
  magtwist := 0
  area := 0
  Fntot := 0
  magtortwist := 0
  fs := Vec3.zero
  fr := Vec3.zero
  forces := Vec3.zero
  torquesi := Vec3.zero
  torquesj := Vec3.zero
  dq := 0

/-- The entry `sub_models[model_type]`. -/
def sub_models (gm : GranularModel) : SubmodelType → Option GSM
  | .NORMAL => gm.normal_model
  | .TANGENTIAL => gm.tangential_model
  | .DAMPING => gm.damping_model
  | .ROLLING => gm.rolling_model
  | .TWISTING => gm.twisting_model
  | .HEAT => gm.heat_model

/-! ## Submodel construction -/

/-- The base-class fields after the constructor of class `v` has run. The constructors
`GSMTwistingMarshall` and `GSMTwistingSDS` are in `gsm_twisting.cpp`: they set
`num_coeffs` and `size_history` and leave the other fields as the base class made
them. -/
def classInfo (ext : Ext) : Variant → ClassInfo
  | .GSMTwistingMarshall =>
      { ext.ctor .GSMTwistingMarshall with num_coeffs := 0, size_history := 3 }
  | .GSMTwistingSDS =>
      { ext.ctor .GSMTwistingSDS with num_coeffs := 3, size_history := 3 }
  | v => ext.ctor v

/-- The expression `new V(this, lmp)`: a fresh object of class `v`. The coefficient
array has `num_coeffs` entries (taken as zero until they are assigned), the name is
still empty. -/
def GSM.create (ext : Ext) (v : Variant) : GSM where
  cls := v
  name := ""
  num_coeffs := (classInfo ext v).num_coeffs
  coeffs := List.replicate (classInfo ext v).num_coeffs 0
  size_history := (classInfo ext v).size_history
  history_index := 0
  allow_limit_damping := (classInfo ext v).allow_limit_damping
  beyond_contact := (classInfo ext v).beyond_contact
  nondefault_history_transfer := (classInfo ext v).nondefault_history_transfer
  transfer_history_factor := (classInfo ext v).transfer_history_factor
  k := 0
  damp := 0
  mu := 0
  k_tang := 0
  mu_tang := 0
  Fncrit := 0

/-- The object `new V(this, lmp)` once `name.assign(model_name)` has run. -/
def GSM.named (ext : Ext) (v : Variant) (model_name : String) : GSM :=
  { GSM.create ext v with name := model_name }

/-- The object `m` with its coefficient array filled with the given values. -/
def GSM.set_coeffs (m : GSM) (coeffs : List ℚ) : GSM :=
  { m with coeffs := coeffs }

/-- The class chosen by the `NORMAL` branch of `construct_submodel`. -/
def normal_class (model_name : String) : Except String Variant :=
  if model_name = "none" then .ok .GSMNormalNone
  else if model_name = "hooke" then .ok .GSMNormalHooke
  else if model_name = "hertz" then .ok .GSMNormalHertz
  else if model_name = "hertz/material" then .ok .GSMNormalHertzMaterial
  else if model_name = "dmt" then .ok .GSMNormalDMT
  else if model_name = "jkr" then .ok .GSMNormalJKR
  else .error ("Normal model name " ++ model_name ++ " not recognized")

/-- The class chosen by the `TANGENTIAL` branch of `construct_submodel`. -/
def tangential_class (model_name : String) : Except String Variant :=
  if model_name = "none" then .ok .GSMTangentialNone
  else if model_name = "linear_nohistory" then .ok .GSMTangentialLinearNoHistory
  else if model_name = "linear_history" then .ok .GSMTangentialLinearHistory
  else if model_name = "linear_history_classic" then .ok .GSMTangentialLinearHistoryClassic
  else if model_name = "mindlin" then .ok .GSMTangentialMindlin
  else if model_name = "mindlin/force" then .ok .GSMTangentialMindlinForce
  else if model_name = "mindlin_rescale" then .ok .GSMTangentialMindlinRescale
  else if model_name = "mindlin_rescale/force" then .ok .GSMTangentialMindlinRescaleForce
  else .error ("Tangential model name " ++ model_name ++ " not recognized")

/-- The class chosen by the `DAMPING` branch of `construct_submodel`. -/
def damping_class (model_name : String) : Except String Variant :=
  if model_name = "none" then .ok .GSMDampingNone
  else if model_name = "velocity" then .ok .GSMDampingVelocity
  else if model_name = "mass_velocity" then .ok .GSMDampingMassVelocity
  else if model_name = "viscoelastic" then .ok .GSMDampingViscoelastic
  else if model_name = "tsuji" then .ok .GSMDampingTsuji
  else .error ("Damping model name " ++ model_name ++ " not recognized")

/-- The class chosen by the `ROLLING` branch of `construct_submodel`. -/
def rolling_class (model_name : String) : Except String Variant :=
  if model_name = "none" then .ok .GSMRollingNone
  else if model_name = "sds" then .ok .GSMRollingSDS
  else .error ("Rolling model name " ++ model_name ++ " not recognized")

/-- The class chosen by the `TWISTING` branch of `construct_submodel`. -/
def twisting_class (model_name : String) : Except String Variant :=
  if model_name = "none" then .ok .GSMTwistingNone
  else if model_name = "sds" then .ok .GSMTwistingSDS
  else if model_name = "marshall" then .ok .GSMTwistingMarshall
  else .error ("Twisting model name " ++ model_name ++ " not recognized")

/-- The class chosen by the `HEAT` branch of `construct_submodel`. -/
def heat_class (model_name : String) : Except String Variant :=
  if model_name = "none" then .ok .GSMHeatNone
  else if model_name = "area" then .ok .GSMHeatArea
  else .error ("Heat model name not " ++ model_name ++ " recognized")

/-- The class `construct_submodel` instantiates for a name in a category. -/
def select_class (model_name : String) : SubmodelType → Except String Variant
  | .NORMAL => normal_class model_name
  | .TANGENTIAL => tangential_class model_name
  | .DAMPING => damping_class model_name
  | .ROLLING => rolling_class model_name
  | .TWISTING => twisting_class model_name
  | .HEAT => heat_class model_name

/-- The value `*_defined` gets in the `ROLLING`, `TWISTING` and `HEAT` branches: 1,
reset to 0 when the name is `none`. -/
def defined_flag (model_name : String) : Int :=
  if model_name = "none" then 0 else 1

/-- The assignment of the category pointer, which is also `sub_models[model_type]`. -/
def set_sub_model (gm : GranularModel) (model_type : SubmodelType) (m : GSM) : GranularModel :=
  match model_type with
  | .NORMAL => { gm with normal_model := some m }
  | .TANGENTIAL => { gm with tangential_model := some m }
  | .DAMPING => { gm with damping_model := some m }
  | .ROLLING => { gm with rolling_model := some m }
  | .TWISTING => { gm with twisting_model := some m }
  | .HEAT => { gm with heat_model := some m }

/-- The assignments to `rolling_defined`, `twisting_defined`, `heat_defined` in the three
optional branches of `construct_submodel`; the other branches have none. -/
def set_defined (gm : GranularModel) (model_type : SubmodelType) (model_name : String) :
    GranularModel :=
  match model_type with
  | .ROLLING => { gm with rolling_defined := defined_flag model_name }
  | .TWISTING => { gm with twisting_defined := defined_flag model_name }
  | .HEAT => { gm with heat_defined := defined_flag model_name }
  | _ => gm

/-- The method `GranularModel::construct_submodel`: replaces the submodel of category
`model_type` by a fresh object of the class registered for `model_name`, and assigns
it the name; an unknown name is an error. The final `else` of the source (illegal
model type) cannot be reached with the six values of the enumeration. -/
def construct_submodel (ext : Ext) (model_name : String) (model_type : SubmodelType)
    (gm : GranularModel) : Except String GranularModel :=
  match select_class model_name model_type with
  | .error e => .error e
  | .ok v =>
      .ok (set_sub_model (set_defined gm model_type model_name) model_type
        (GSM.named ext v model_name))

/-- The names the claim lists as registered, per category. -/
def registered : SubmodelType → List String
  | .NORMAL => ["none", "hooke", "hertz", "hertz/material", "dmt", "jkr"]
  | .TANGENTIAL => ["none", "linear_nohistory", "linear_history", "linear_history_classic",
      "mindlin", "mindlin/force", "mindlin_rescale", "mindlin_rescale/force"]
  | .DAMPING => ["none", "velocity", "mass_velocity", "viscoelastic", "tsuji"]
  | .ROLLING => ["none", "sds"]
  | .TWISTING => ["none", "sds", "marshall"]
  | .HEAT => ["none", "area"]

/-! ## Initialisation -/

/-- The first loop of `init()`: every category whose entry of `sub_models` is still
null gets the `none` submodel. -/
def default_none (ext : Ext) : List SubmodelType → GranularModel → Except String GranularModel
  | [], gm => .ok gm
  | t :: ts, gm =>
      match sub_models gm t with
      | some _ => default_none ext ts gm
      | none =>
          match construct_submodel ext "none" t gm with
          | .error e => .error e
          | .ok gm1 => default_none ext ts gm1

/-- One pass of the body of the second loop of `init()` up to the update of
`size_history`: raises `nondefault_history_transfer` and `beyond_contact` when the
submodel has them, and adds its `size_history`. -/
def init_accumulate (gm : GranularModel) (m : GSM) : GranularModel :=
  let gm1 := if m.nondefault_history_transfer ≠ 0
    then { gm with nondefault_history_transfer := 1 } else gm
  let gm2 := if m.beyond_contact ≠ 0 then { gm1 with beyond_contact := 1 } else gm1
  { gm2 with size_history := gm2.size_history + m.size_history }

/-- The second loop of `init()`: accumulates the flags and `size_history`, and rejects a
submodel that does not allow limited damping when `limit_damping` is set. A null entry
of `sub_models` (excluded by the first loop) ends the run. -/
def init_loop : List SubmodelType → GranularModel → Except String GranularModel
  | [], gm => .ok gm
  | t :: ts, gm =>
      match sub_models gm t with
      | none => .error "null submodel"
      | some m =>
          if (init_accumulate gm m).limit_damping ≠ 0 ∧ m.allow_limit_damping = 0 then
            .error ("Cannot limit damping with " ++ m.name ++ " model")
          else init_loop ts (init_accumulate gm m)

/-- The inner loop over `j` of `init()`: the submodel that owns history slot `i` and the
cumulative size before it, or nothing when the loop runs to `NSUBMODELS`. -/
def history_owner (i : Int) : List GSM → Int → Option (GSM × Int)
  | [], _ => none
  | m :: ms, size_cumulative =>
      if size_cumulative + m.size_history > i then some (m, size_cumulative)
      else history_owner i ms (size_cumulative + m.size_history)

/-- The entry `transfer_history_factor[i]` computed by `init()`: -1 unless the owning
submodel has a nondefault transfer, in which case its factor is copied. -/
def transfer_factor (subs : List GSM) (i : Nat) : ℚ :=
  match history_owner i subs 0 with
  | none => -1
  | some (m, size_cumulative) =>
      if m.nondefault_history_transfer ≠ 0
      then m.transfer_history_factor.getD ((i : Int) - size_cumulative).toNat 0
      else -1

/-- The submodel objects in index order. -/
def sub_model_list (gm : GranularModel) : List GSM :=
  submodelOrder.filterMap (sub_models gm)

/-- The block of `init()` that allocates and fills `transfer_history_factor` when
`nondefault_history_transfer` is set. -/
def init_transfer (gm : GranularModel) : GranularModel :=
  if gm.nondefault_history_transfer ≠ 0 then
    { gm with transfer_history_factor :=
        (List.range gm.size_history.toNat).map (transfer_factor (sub_model_list gm)) }
  else gm

/-- The call `sub_models[i]->init()` on the object `m`. `GSMTwistingMarshall::init` reads
`k` and `mu` of the tangential submodel; `GSMTangential::init` and the tangential classes
do nothing; the hooks of the other classes are taken from `ext`. -/
def sub_init (ext : Ext) (gm : GranularModel) (m : GSM) : GSM :=
  match m.cls with
  | .GSMTwistingMarshall =>
      match gm.tangential_model with
      | some tm => { m with k_tang := tm.k, mu_tang := tm.mu }
      | none => m
  | .GSMTangentialNone => m
  | .GSMTangentialLinearNoHistory => m
  | .GSMTangentialLinearHistory => m
  | .GSMTangentialLinearHistoryClassic => m
  | .GSMTangentialMindlin => m
  | .GSMTangentialMindlinForce => m
  | .GSMTangentialMindlinRescale => m
  | .GSMTangentialMindlinRescaleForce => m
  | v =>
      let l := ext.init v gm ⟨m.k, m.damp, m.mu⟩
      { m with k := l.k, damp := l.damp, mu := l.mu }

/-- The last loop of `init()`: the `init()` hook of every submodel, in index order. -/
def init_hooks (ext : Ext) : List SubmodelType → GranularModel → GranularModel
  | [], gm => gm
  | t :: ts, gm =>
      match sub_models gm t with
      | none => init_hooks ext ts gm
      | some m => init_hooks ext ts (set_sub_model gm t (sub_init ext gm m))

/-- The statement `size_history = 0` of `init()`. -/
def reset_size_history (gm : GranularModel) : GranularModel :=
  { gm with size_history := 0 }

/-- The method `GranularModel::init`. -/
def init (ext : Ext) (gm : GranularModel) : Except String GranularModel :=
  match default_none ext submodelOrder gm with
  | .error e => .error e
  | .ok gm1 =>
      match gm1.normal_model, gm1.damping_model, gm1.tangential_model with
      | some nm, some dm, some tm =>
          if nm.name = "none" then .error "Must specify normal granular model"
          else if dm.name = "none" then .error "Must specify damping granular model"
          else if tm.name = "none" then .error "Must specify tangential granular model"
          else
            match init_loop submodelOrder (reset_size_history gm1) with
            | .error e => .error e
            | .ok gm2 => .ok (init_hooks ext submodelOrder (init_transfer gm2))
      | _, _, _ => .error "null submodel"

/-- The declared history size of the submodel in a category (0 for a null entry). -/
def declared_size_history (gm : GranularModel) (t : SubmodelType) : Int :=
  match sub_models gm t with
  | some m => m.size_history
  | none => 0

/-- The name of the submodel in a category, if there is one. -/
def sub_name (gm : GranularModel) (t : SubmodelType) : Option String :=
  (sub_models gm t).map GSM.name

/-! ## Vector helpers -/

/-- Modelled from the spec: `MathExtra::sub3` of `math_extra.h` (not among the sources),
the componentwise difference. -/
def sub3 (a b : Vec3) : Vec3 := ⟨a.x - b.x, a.y - b.y, a.z - b.z⟩

/-- Modelled from the spec: `MathExtra::add3` of `math_extra.h`, the componentwise sum. -/
def add3 (a b : Vec3) : Vec3 := ⟨a.x + b.x, a.y + b.y, a.z + b.z⟩

/-- Modelled from the spec: `MathExtra::scale3` of `math_extra.h`, the product of a scalar
and a vector. -/
def scale3 (s : ℚ) (v : Vec3) : Vec3 := ⟨s * v.x, s * v.y, s * v.z⟩

/-- Modelled from the spec: `MathExtra::dot3` of `math_extra.h`, the dot product. -/
def dot3 (a b : Vec3) : ℚ := a.x * b.x + a.y * b.y + a.z * b.z

/-- Modelled from the spec: `MathExtra::lensq3` of `math_extra.h`, the squared length. -/
def lensq3 (v : Vec3) : ℚ := v.x * v.x + v.y * v.y + v.z * v.z

/-- Modelled from the spec: `MathExtra::len3` of `math_extra.h`, the length. -/
def len3 (ext : Ext) (v : Vec3) : ℚ := ext.sqrt (lensq3 v)

/-- Modelled from the spec: `MathExtra::cross3` of `math_extra.h`, the cross product. -/
def cross3 (a b : Vec3) : Vec3 :=
  ⟨a.y * b.z - a.z * b.y, a.z * b.x - a.x * b.z, a.x * b.y - a.y * b.x⟩

/-- Modelled from the spec: `MathExtra::scaleadd3` of `math_extra.h`, the combination
`s1 * v1 + s2 * v2`. -/
def scaleadd3 (s1 : ℚ) (v1 : Vec3) (s2 : ℚ) (v2 : Vec3) : Vec3 :=
  ⟨s1 * v1.x + s2 * v2.x, s1 * v1.y + s2 * v2.y, s1 * v1.z + s2 * v2.z⟩

/-- Modelled from the spec: the constant `MathConst::TWOTHIRDS` of `math_const.h` (not
among the sources), two thirds. -/
def TWOTHIRDS : ℚ := 2 / 3

/-! ## Contact evaluation -/

/-- The method `GranularModel::check_contact`: sets the contact geometry according to
the contact type and stores the touch decision of the normal submodel. -/
def check_contact (ext : Ext) (gm : GranularModel) : GranularModel :=
  let gm1 :=
    match gm.contact_type with
    | .WALL =>
        { gm with
          rsq := lensq3 gm.dx
          radsum := gm.radi
          Reff := if gm.radj = 0 then gm.radi else gm.radi * gm.radj / (gm.radi + gm.radj) }
    | .WALLREGION =>
        { gm with
          rsq := gm.r * gm.r
          radsum := gm.radi
          Reff := if gm.radj = 0 then gm.radi else gm.radi * gm.radj / (gm.radi + gm.radj) }
    | .PAIR =>
        { gm with
          dx := sub3 gm.xi gm.xj
          rsq := lensq3 (sub3 gm.xi gm.xj)
          radsum := gm.radi + gm.radj
          Reff := gm.radi * gm.radj / (gm.radi + gm.radj) }
  { gm1 with touch := ext.touch gm1 }

/-- The first part of `calculate_forces`: the standard geometric quantities and the
relative velocities. -/
def kinematics (ext : Ext) (gm : GranularModel) : GranularModel :=
  let r := if gm.contact_type ≠ .WALLREGION then ext.sqrt gm.rsq else gm.r
  let rinv := 1 / r
  let delta := gm.radsum - r
  let nx := scale3 rinv gm.dx
  let vr := sub3 gm.vi gm.vj
  let vnnr := dot3 vr nx
  let vn := scale3 vnnr nx
  let vt := sub3 vr vn
  let wr := scaleadd3 gm.radi gm.omegai gm.radj gm.omegaj
  let vtr := sub3 vt (cross3 wr nx)
  let relrot :=
    if gm.rolling_defined ≠ 0 ∨ gm.twisting_defined ≠ 0 then sub3 gm.omegai gm.omegaj
    else gm.relrot
  { gm with
    r := r
    rinv := rinv
    delta := delta
    dR := delta * gm.Reff
    nx := nx
    vr := vr
    vnnr := vnnr
    vn := vn
    vt := vt
    wr := wr
    vtr := vtr
    vrel := len3 ext vtr
    relrot := relrot
    vrl :=
      if gm.rolling_defined ≠ 0 then
        ⟨gm.Reff * (relrot.y * nx.z - relrot.z * nx.y),
         gm.Reff * (relrot.z * nx.x - relrot.x * nx.z),
         gm.Reff * (relrot.x * nx.y - relrot.y * nx.x)⟩
      else gm.vrl
    magtwist := if gm.twisting_defined ≠ 0 then dot3 relrot nx else gm.magtwist }

/-- The statements `forces[0] = 0.0` and `area = normal_model->calculate_area()` of
`calculate_forces`. -/
def contact_area (ext : Ext) (gm : GranularModel) : GranularModel :=
  let gm1 := { gm with forces := ⟨0, gm.forces.y, gm.forces.z⟩ }
  { gm1 with area := ext.calculate_area gm1 }

/-- The statements of `calculate_forces` that compute the net normal force: the elastic
force `Fne`, the damping force `Fdamp`, and their sum `Fntot`, replaced by 0 when
`limit_damping` is set and the sum is negative. -/
def normal_forces (ext : Ext) (gm : GranularModel) : GranularModel :=
  let Fne := ext.normal_forces gm
  let Fdamp := ext.damping_forces gm
  let Fntot := Fne + Fdamp
  { gm with Fntot := if gm.limit_damping ≠ 0 ∧ Fntot < 0 then 0 else Fntot }

/-- The value `normal_model->Fncrit` (0 for a null pointer). -/
def Fncrit (gm : GranularModel) : ℚ :=
  match gm.normal_model with
  | some n => n.Fncrit
  | none => 0

/-- The sign expression `(x > 0) - (x < 0)`. -/
def signtwist (x : ℚ) : ℚ :=
  (if x > 0 then 1 else 0) - (if x < 0 then 1 else 0)

/-- The method `GSMTwistingSDS::calculate_forces` on the object `m`. -/
def GSMTwistingSDS.calculate_forces (m : GSM) (gm : GranularModel) : GranularModel :=
  let history :=
    if gm.history_update then
      gm.history.set m.history_index (gm.history.getD m.history_index 0 + gm.magtwist * gm.dt)
    else gm.history
  let magtortwist := -m.k * history.getD m.history_index 0 - m.damp * gm.magtwist
  let Mtcrit := m.mu * Fncrit gm
  if |magtortwist| > Mtcrit then
    { gm with
      history := history.set m.history_index
        ((Mtcrit * signtwist gm.magtwist - m.damp * gm.magtwist) / m.k)
      magtortwist := -Mtcrit * signtwist gm.magtwist }
  else { gm with history := history, magtortwist := magtortwist }

/-- The value `gm->tangential_model->damp` (0 for a null pointer). -/
def tangential_damp (gm : GranularModel) : ℚ :=
  match gm.tangential_model with
  | some tm => tm.damp
  | none => 0

/-- The method `GSMTwistingMarshall::calculate_forces` on the object `m`. -/
def GSMTwistingMarshall.calculate_forces (m : GSM) (gm : GranularModel) : GranularModel :=
  let k := 0.5 * m.k_tang * gm.area * gm.area
  let damp := 0.5 * tangential_damp gm * gm.area * gm.area
  let mu := TWOTHIRDS * m.mu_tang * gm.area
  let history :=
    if gm.history_update then
      gm.history.set m.history_index (gm.history.getD m.history_index 0 + gm.magtwist * gm.dt)
    else gm.history
  let magtortwist := -k * history.getD m.history_index 0 - damp * gm.magtwist
  let Mtcrit := mu * Fncrit gm
  if |magtortwist| > Mtcrit then
    { gm with
      history := history.set m.history_index
        ((Mtcrit * signtwist gm.magtwist - damp * gm.magtwist) / k)
      magtortwist := -Mtcrit * signtwist gm.magtwist }
  else { gm with history := history, magtortwist := magtortwist }

/-- The virtual call `twisting_model->calculate_forces()`. It is made only when
`twisting_defined` is set, that is for the classes `GSMTwistingSDS` and
`GSMTwistingMarshall`. -/
def twisting_forces (gm : GranularModel) : GranularModel :=
  match gm.twisting_model with
  | none => gm
  | some m =>
      match m.cls with
      | .GSMTwistingSDS => GSMTwistingSDS.calculate_forces m gm
      | .GSMTwistingMarshall => GSMTwistingMarshall.calculate_forces m gm
      | _ => gm

/-- The part of `calculate_forces` from `set_fncrit()` to the twisting submodel. -/
def submodel_forces (ext : Ext) (gm : GranularModel) : GranularModel :=
  let gm1 :=
    { gm with normal_model := gm.normal_model.map fun (n : GSM) =>
        { n with Fncrit := ext.set_fncrit gm } }
  let gm2 :=
    { gm1 with fs := (ext.tangential_forces gm1).1, history := (ext.tangential_forces gm1).2 }
  let gm3 :=
    if gm2.rolling_defined ≠ 0 then
      { gm2 with fr := (ext.rolling_forces gm2).1, history := (ext.rolling_forces gm2).2 }
    else gm2
  if gm3.twisting_defined ≠ 0 then twisting_forces gm3 else gm3

/-- The part of `calculate_forces` headed "sum contributions": the total force and the
two torques. -/
def sum_contributions (gm : GranularModel) : GranularModel :=
  let forces := add3 (scale3 gm.Fntot gm.nx) gm.fs
  let torquesi0 := scale3 (-1) (cross3 gm.nx gm.fs)
  let torquesj0 := if gm.contact_type = .PAIR then torquesi0 else gm.torquesj
  let torquesi1 :=
    if gm.classic_model = 0 ∧ gm.contact_type = .PAIR then
      scale3 (gm.radi - 0.5 * gm.delta) torquesi0
    else scale3 gm.radi torquesi0
  let torquesj1 :=
    if gm.classic_model = 0 ∧ gm.contact_type = .PAIR then
      scale3 (gm.radj - 0.5 * gm.delta) torquesj0
    else torquesj0
  let torroll := scale3 gm.Reff (cross3 gm.nx gm.fr)
  let torquesi2 := if gm.rolling_defined ≠ 0 then add3 torquesi1 torroll else torquesi1
  let torquesj2 :=
    if gm.rolling_defined ≠ 0 ∧ gm.contact_type = .PAIR then sub3 torquesj1 torroll
    else torquesj1
  let tortwist := scale3 gm.magtortwist gm.nx
  let torquesi3 := if gm.twisting_defined ≠ 0 then add3 torquesi2 tortwist else torquesi2
  let torquesj3 :=
    if gm.twisting_defined ≠ 0 ∧ gm.contact_type = .PAIR then sub3 torquesj2 tortwist
    else torquesj2
  { gm with forces := forces, torquesi := torquesi3, torquesj := torquesj3 }

/-- The last statement of `calculate_forces`: the heat flow, when a heat submodel is
defined. -/
def heat_flow (ext : Ext) (gm : GranularModel) : GranularModel :=
  if gm.heat_defined ≠ 0 then { gm with dq := ext.calculate_heat gm } else gm

/-- The method `GranularModel::calculate_forces`. Its body has no call of `error->all`
or `error->one`: it always returns. -/
def calculate_forces (ext : Ext) (gm : GranularModel) : Except String GranularModel :=
  .ok (heat_flow ext (sum_contributions (submodel_forces ext
    (normal_forces ext (contact_area ext (kinematics ext gm))))))

/-! ## Mixing -/

/-- The virtual call `m->coeffs_to_local()`. `GSMTwistingSDS::coeffs_to_local` is in
`gsm_twisting.cpp`; `GSMTangential::coeffs_to_local` does nothing and `GSMTangentialNone`
does not override it; the hooks of the other classes are taken from `ext`. -/
def GSM.coeffs_to_local (ext : Ext) (m : GSM) : Except String GSM :=
  match m.cls with
  | .GSMTwistingSDS =>
      let k := m.coeffs.getD 0 0
      let damp := m.coeffs.getD 1 0
      let mu := m.coeffs.getD 2 0
      if k < 0 ∨ mu < 0 ∨ damp < 0 then .error "Illegal SDS twisting model"
      else .ok { m with k := k, damp := damp, mu := mu }
  | .GSMTangentialNone => .ok m
  | v =>
      match ext.coeffs_to_local v m.coeffs with
      | .error e => .error e
      | .ok l => .ok { m with k := l.k, damp := l.damp, mu := l.mu }

/-- The virtual call `m->mix_coeffs(icoeffs, jcoeffs)`: the hook of the class fills the
coefficient array and the local fields. -/
def GSM.mix_coeffs (ext : Ext) (m : GSM) (icoeffs jcoeffs : List ℚ) : Except String GSM :=
  match ext.mix_coeffs m.cls icoeffs jcoeffs with
  | .error e => .error e
  | .ok r => .ok { m with coeffs := r.1, k := r.2.k, damp := r.2.damp, mu := r.2.mu }

/-- The loop of `GranularModel::mix_coeffs` over the categories, and the statements after
it: a mismatch of names returns the index of the category; otherwise the submodel is
constructed and mixed. After the loop `limit_damping` is the maximum of the two and the
result is -1. -/
def mix_loop (ext : Ext) (g1 g2 : GranularModel) :
    List SubmodelType → GranularModel → Except String (Int × GranularModel)
  | [], gm => .ok (-1, { gm with limit_damping := max g1.limit_damping g2.limit_damping })
  | t :: ts, gm =>
      match sub_models g1 t, sub_models g2 t with
      | some m1, some m2 =>
          if m1.name ≠ m2.name then .ok (t.toIndex, gm)
          else
            match construct_submodel ext m1.name t gm with
            | .error e => .error e
            | .ok gm1 =>
                match sub_models gm1 t with
                | none => .error "null submodel"
                | some m =>
                    match GSM.mix_coeffs ext m m1.coeffs m2.coeffs with
                    | .error e => .error e
                    | .ok m' => mix_loop ext g1 g2 ts (set_sub_model gm1 t m')
      | _, _ => .error "null submodel"

/-- The method `GranularModel::mix_coeffs` on the receiver `gm`, distinct from `g1` and
`g2`: the returned integer and the receiver after the call. -/
def mix_coeffs (ext : Ext) (gm g1 g2 : GranularModel) : Except String (Int × GranularModel) :=
  mix_loop ext g1 g2 submodelOrder gm

/-- The data `mix_coeffs` needs in a category where the two names agree. -/
def Mixable (ext : Ext) (g1 g2 : GranularModel) (t : SubmodelType) : Prop :=
  ∃ m1 m2 v r, sub_models g1 t = some m1 ∧ sub_models g2 t = some m2 ∧ m1.name = m2.name ∧
    select_class m1.name t = .ok v ∧ ext.mix_coeffs v m1.coeffs m2.coeffs = .ok r

/-! ## Restart files -/

/-- One value of a restart stream: an `int`, a `char` or a `double`, as written by one
unit of `fwrite`. -/
inductive Item
  | int (n : Int)
  | char (c : Char)
  | dbl (x : ℚ)
  deriving DecidableEq

/-- The four `fwrite` calls of one pass of the loop of `write_restart`: the length of the
name, its characters, the number of coefficients, and the coefficients. -/
def write_record (m : GSM) : List Item :=
  Item.int m.name.length :: (m.name.data.map Item.char ++
    Item.int m.num_coeffs :: (m.coeffs.take m.num_coeffs).map Item.dbl)

/-- The loop of `GranularModel::write_restart` over the categories: the stream it appends
to the file. A null entry of `sub_models` ends the run. -/
def write_restart_loop (gm : GranularModel) : List SubmodelType → Except String (List Item)
  | [] => .ok []
  | t :: ts =>
      match sub_models gm t with
      | none => .error "null submodel"
      | some m =>
          match write_restart_loop gm ts with
          | .error e => .error e
          | .ok items => .ok (write_record m ++ items)

/-- The method `GranularModel::write_restart`. -/
def write_restart (gm : GranularModel) : Except String (List Item) :=
  write_restart_loop gm submodelOrder

/-- The state of a submodel that `construct_submodel` built for category `t`: its class is
the one registered for its name, its number of coefficients is the one of the class, and
its coefficient array has that length. -/
def Built (ext : Ext) (t : SubmodelType) (m : GSM) : Prop :=
  ∃ v, select_class m.name t = .ok v ∧ m.cls = v ∧
    m.num_coeffs = (classInfo ext v).num_coeffs ∧ m.coeffs.length = m.num_coeffs

/-- Modelled from the spec: `utils::sfread` of `utils.cpp` (not among the sources) for one
`int`; the designated rank reads the value, a stream that does not hold it ends the run. -/
def read_int : List Item → Except String (Int × List Item)
  | .int n :: rest => .ok (n, rest)
  | _ => .error "Unexpected end of restart file"

/-- Modelled from the spec: `utils::sfread` of `utils.cpp` for `n` values of type `char`. -/
def read_chars : Nat → List Item → Except String (List Char × List Item)
  | 0, s => .ok ([], s)
  | n + 1, .char c :: rest =>
      match read_chars n rest with
      | .error e => .error e
      | .ok r => .ok (c :: r.1, r.2)
  | _ + 1, _ => .error "Unexpected end of restart file"

/-- Modelled from the spec: `utils::sfread` of `utils.cpp` for `n` values of type
`double`. -/
def read_dbls : Nat → List Item → Except String (List ℚ × List Item)
  | 0, s => .ok ([], s)
  | n + 1, .dbl x :: rest =>
      match read_dbls n rest with
      | .error e => .error e
      | .ok r => .ok (x :: r.1, r.2)
  | _ + 1, _ => .error "Unexpected end of restart file"

/-- One pass of the loop of `read_restart` for category `t`, as seen by the rank that
reads (the broadcasts hand the same values to the other ranks): the name is read and
the submodel constructed, the number of coefficients is read and compared with
`num_coeffs`, the coefficients are read into the array, and `coeffs_to_local` is run. A
negative length cannot be the size of the string `model_name` and ends the run. -/
def read_record (ext : Ext) (t : SubmodelType) (gm : GranularModel) (s : List Item) :
    Except String (GranularModel × List Item) :=
  match read_int s with
  | .error e => .error e
  | .ok (num_char, s1) =>
      if num_char < 0 then .error "Invalid string length in restart file"
      else
        match read_chars num_char.toNat s1 with
        | .error e => .error e
        | .ok (model_name, s2) =>
            match construct_submodel ext (String.mk model_name) t gm with
            | .error e => .error e
            | .ok gm1 =>
                match sub_models gm1 t with
                | none => .error "null submodel"
                | some m =>
                    match read_int s2 with
                    | .error e => .error e
                    | .ok (num_coeff, s3) =>
                        if num_coeff ≠ m.num_coeffs then
                          .error "Invalid granular model written to restart file"
                        else
                          match read_dbls num_coeff.toNat s3 with
                          | .error e => .error e
                          | .ok (coeffs, s4) =>
                              match GSM.coeffs_to_local ext (m.set_coeffs coeffs) with
                              | .error e => .error e
                              | .ok m' => .ok (set_sub_model gm1 t m', s4)

/-- The loop of `GranularModel::read_restart` over the categories: the coordinator and
the rest of the stream after the call. -/
def read_restart_loop (ext : Ext) :
    List SubmodelType → GranularModel → List Item → Except String (GranularModel × List Item)
  | [], gm, s => .ok (gm, s)
  | t :: ts, gm, s =>
      match read_record ext t gm s with
      | .error e => .error e
      | .ok r => read_restart_loop ext ts r.1 r.2

/-- The method `GranularModel::read_restart`. -/
def read_restart (ext : Ext) (gm : GranularModel) (s : List Item) :
    Except String (GranularModel × List Item) :=
  read_restart_loop ext submodelOrder gm s

/-! ## A sample instance

The definitions of this section give values to the absent part of the program, so that
the embedding can be run on concrete inputs. -/

/-- A sample constructor table: the number of coefficients, the history size and the
flags of each class. -/
def sampleCtor : Variant → ClassInfo
  | .GSMNormalHooke => ⟨2, 0, 1, 0, 0, []⟩
  | .GSMNormalHertz => ⟨2, 0, 1, 0, 0, []⟩
  | .GSMNormalHertzMaterial => ⟨3, 0, 1, 0, 0, []⟩
  | .GSMNormalDMT => ⟨4, 0, 0, 0, 0, []⟩
  | .GSMNormalJKR => ⟨4, 0, 0, 1, 0, []⟩
  | .GSMTangentialLinearNoHistory => ⟨2, 0, 1, 0, 0, []⟩
  | .GSMTangentialLinearHistory => ⟨3, 3, 1, 0, 0, []⟩
  | .GSMTangentialLinearHistoryClassic => ⟨3, 3, 1, 0, 0, []⟩
  | .GSMTangentialMindlin => ⟨3, 3, 1, 0, 0, []⟩
  | .GSMTangentialMindlinForce => ⟨3, 3, 1, 0, 0, []⟩
  | .GSMTangentialMindlinRescale => ⟨3, 4, 1, 0, 1, [1, 1, 1, 0]⟩
  | .GSMTangentialMindlinRescaleForce => ⟨3, 4, 1, 0, 1, [1, 1, 1, 0]⟩
  | .GSMRollingSDS => ⟨3, 3, 1, 0, 0, []⟩
  | .GSMHeatArea => ⟨1, 0, 1, 0, 0, []⟩
  | _ => ⟨0, 0, 1, 0, 0, []⟩

/-- A sample instance of `Ext`: the coefficient check rejects negative values, mixing is
the arithmetic mean, the square root is exact on squares, the normal force is linear in
the overlap and the damping force linear in the normal velocity. -/
def sampleExt : Ext where
  ctor := sampleCtor
  coeffs_to_local := fun _ cs =>
    if cs.any (fun c => decide (c < 0)) then .error "Illegal model"
    else .ok ⟨cs.getD 0 0, cs.getD 1 0, cs.getD 2 0⟩
  mix_coeffs := fun _ a b =>
    .ok (List.zipWith (fun x y => (x + y) / 2) a b,
      ⟨(a.getD 0 0 + b.getD 0 0) / 2, (a.getD 1 0 + b.getD 1 0) / 2,
        (a.getD 2 0 + b.getD 2 0) / 2⟩)
  init := fun _ _ l => l
  sqrt := fun q => ((Nat.sqrt q.num.toNat : ℕ) : ℚ) / ((Nat.sqrt q.den : ℕ) : ℚ)
  touch := fun gm => decide (gm.rsq < gm.radsum * gm.radsum)
  calculate_area := fun gm => gm.dR
  normal_forces := fun gm =>
    (match gm.normal_model with
      | some n => n.coeffs.getD 0 0
      | none => 0) * gm.delta
  damping_forces := fun gm =>
    -(match gm.normal_model with
      | some n => n.coeffs.getD 1 0
      | none => 0) * gm.vnnr
  set_fncrit := fun gm => |gm.Fntot|
  tangential_forces := fun gm => (Vec3.zero, gm.history)
  rolling_forces := fun gm => (Vec3.zero, gm.history)
  calculate_heat := fun _ => 0

/-- The coordinator after `construct_submodel`, or unchanged when the call fails. -/
def constructed (ext : Ext) (name : String) (t : SubmodelType) (gm : GranularModel) :
    GranularModel :=
  match construct_submodel ext name t gm with
  | .ok gm1 => gm1
  | .error _ => gm

/-- A configured coordinator: `hooke`, `linear_nohistory`, `velocity` and `sds` twisting. -/
def sampleModel : GranularModel :=
  constructed sampleExt "sds" .TWISTING
    (constructed sampleExt "velocity" .DAMPING
      (constructed sampleExt "linear_nohistory" .TANGENTIAL
        (constructed sampleExt "hooke" .NORMAL GranularModel.new)))

/-- The coordinator `sampleModel` after `init()`. -/
def sampleInit : GranularModel :=
  match init sampleExt sampleModel with
  | .ok gm1 => gm1
  | .error _ => sampleModel

/-- A coordinator with `limit_damping` set, Normal `jkr`, Damping `velocity` and no
Tangential submodel. -/
def jkrNoTangential : GranularModel :=
  { constructed sampleExt "velocity" .DAMPING
      (constructed sampleExt "jkr" .NORMAL GranularModel.new) with limit_damping := 1 }

/-- The coordinator `sampleModel` with the three optional categories completed:
`none` rolling, `sds` twisting, `none` heat. -/
def sampleFull : GranularModel :=
  constructed sampleExt "none" .HEAT (constructed sampleExt "none" .ROLLING sampleModel)

/-- The coordinator `sampleFull` with `marshall` twisting instead of `sds`. -/
def sampleMarshall : GranularModel :=
  constructed sampleExt "marshall" .TWISTING sampleFull

/-- The receiver, fresh before the call, after mixing `sampleFull` with `sampleMarshall`. -/
def sampleMixed : GranularModel :=
  match mix_coeffs sampleExt GranularModel.new sampleFull sampleMarshall with
  | .ok r => r.2
  | .error _ => GranularModel.new

/-- The coordinator `sampleFull` with `limit_damping` set. -/
def sampleLimited : GranularModel :=
  { sampleFull with limit_damping := 1 }

/-- The coordinator `sampleFull` with coefficients given to its Normal submodel. -/
def sampleCoeffs : GranularModel :=
  set_sub_model sampleFull .NORMAL
    ((GSM.named sampleExt .GSMNormalHooke "hooke").set_coeffs [1000, 50])

/-- A restart stream whose second record announces 2 coefficients for `mindlin`. -/
def sampleBadStream : List Item :=
  [.int 5, .char 'h', .char 'o', .char 'o', .char 'k', .char 'e', .int 2, .dbl 1000, .dbl 0,
   .int 7, .char 'm', .char 'i', .char 'n', .char 'd', .char 'l', .char 'i', .char 'n',
   .int 2, .dbl 1, .dbl 1]

/-- The state after `normal_model->set_fncrit()`. -/
def with_fncrit (ext : Ext) (gm : GranularModel) : GranularModel :=
  { gm with normal_model := gm.normal_model.map fun (n : GSM) =>
      { n with Fncrit := ext.set_fncrit gm } }

/-- The state of `calculate_forces` once `Fntot` has been computed. -/
def normal_state (ext : Ext) (gm : GranularModel) : GranularModel :=
  normal_forces ext (contact_area ext (kinematics ext gm))

/-- The distance `r` that `calculate_forces` uses: the square root of `rsq`, or the
supplied `r` for a wall-region contact. -/
def contact_distance (ext : Ext) (gm : GranularModel) : ℚ :=
  if gm.contact_type ≠ .WALLREGION then ext.sqrt gm.rsq else gm.r

/-- The torque of the tangential force on body i before the moment arm is applied, as
`calculate_forces` computes it: `cross3(nx, fs, torquesi); scale3(-1, torquesi)`. -/
def shear_torque (gm : GranularModel) : Vec3 :=
  scale3 (-1) (cross3 gm.nx gm.fs)

/-- The geometry part of `check_contact`, before the call of `normal_model->touch()`. -/
def contact_geometry (gm : GranularModel) : GranularModel :=
  match gm.contact_type with
  | .WALL =>
      { gm with
        rsq := lensq3 gm.dx
        radsum := gm.radi
        Reff := if gm.radj = 0 then gm.radi else gm.radi * gm.radj / (gm.radi + gm.radj) }
  | .WALLREGION =>
      { gm with
        rsq := gm.r * gm.r
        radsum := gm.radi
        Reff := if gm.radj = 0 then gm.radi else gm.radi * gm.radj / (gm.radi + gm.radj) }
  | .PAIR =>
      { gm with
        dx := sub3 gm.xi gm.xj
        rsq := lensq3 (sub3 gm.xi gm.xj)
        radsum := gm.radi + gm.radj
        Reff := gm.radi * gm.radj / (gm.radi + gm.radj) }

/-- The torque on body i due to the tangential force: `shear_torque` times the moment
arm, which is `radi - 0.5 * delta` for a particle-particle contact without classic model
and `radi` otherwise. -/
def arm_torque_i (gm : GranularModel) : Vec3 :=
  if gm.classic_model = 0 ∧ gm.contact_type = .PAIR then
    scale3 (gm.radi - 0.5 * gm.delta) (shear_torque gm)
  else scale3 gm.radi (shear_torque gm)

/-- The torque on body j of a particle-particle contact due to the tangential force:
`shear_torque` times `radj - 0.5 * delta` without classic model, `shear_torque` itself
with a classic model. -/
def arm_torque_j (gm : GranularModel) : Vec3 :=
  if gm.classic_model = 0 then scale3 (gm.radj - 0.5 * gm.delta) (shear_torque gm)
  else shear_torque gm

/-- A contribution that counts only when the flag of its submodel is set. -/
def active (flag : Int) (v : Vec3) : Vec3 :=
  if flag ≠ 0 then v else Vec3.zero

/-- The sample instance with a Tangential submodel that leaves the force `(0, 1, 0)`. -/
def shearExt : Ext :=
  { sampleExt with tangential_forces := fun gm => (⟨0, 1, 0⟩, gm.history) }

/-- A configured coordinator without rolling, twisting and heat: `hooke`,
`linear_nohistory`, `velocity`, and `none` in the three optional categories. -/
def samplePlain : GranularModel :=
  constructed sampleExt "none" .HEAT
    (constructed sampleExt "none" .TWISTING
      (constructed sampleExt "none" .ROLLING
        (constructed sampleExt "velocity" .DAMPING
          (constructed sampleExt "linear_nohistory" .TANGENTIAL
            (constructed sampleExt "hooke" .NORMAL GranularModel.new)))))

/-- A particle-particle contact of two spheres of radius 1 whose centres are at distance
1 along the x axis, after `check_contact`. -/
def shearContact : GranularModel :=
  check_contact shearExt { samplePlain with xi := ⟨1, 0, 0⟩, radi := 1, radj := 1 }

/-- A particle-wall contact on the configured coordinator `sampleFull`. -/
def wallContact : GranularModel :=
  { sampleFull with contact_type := .WALL }

/-- The fields of the contact that the submodel stage, the summation and the heat flow
leave as `normal_state` made them. -/
def SameContact (a b : GranularModel) : Prop :=
  a.nx = b.nx ∧ a.delta = b.delta ∧ a.r = b.r ∧ a.radi = b.radi ∧ a.radj = b.radj ∧
    a.Reff = b.Reff ∧ a.classic_model = b.classic_model ∧ a.contact_type = b.contact_type ∧
    a.rolling_defined = b.rolling_defined ∧ a.twisting_defined = b.twisting_defined ∧
    a.Fntot = b.Fntot ∧ a.dx = b.dx

/-- The coordinator with the two fields a twisting law writes: the history array and
`magtortwist`. -/
def set_twist (gm : GranularModel) (history : List ℚ) (magtortwist : ℚ) : GranularModel :=
  { gm with history := history, magtortwist := magtortwist }

/-- The coordinator with another twist rate `magtwist`. -/
def set_magtwist (gm : GranularModel) (magtwist : ℚ) : GranularModel :=
  { gm with magtwist := magtwist }

/-- The coordinator with another history array. -/
def set_history (gm : GranularModel) (history : List ℚ) : GranularModel :=
  { gm with history := history }

/-- The history array after the integration step of a twisting law: slot `history_index`
is advanced by `magtwist * dt` when `history_update` is set. -/
def integrate_history (m : GSM) (gm : GranularModel) : List ℚ :=
  if gm.history_update then
    gm.history.set m.history_index (gm.history.getD m.history_index 0 + gm.magtwist * gm.dt)
  else gm.history

/-- The trial torque `M = -k * history - damp * magtwist` of the SDS twisting law, taken
on the integrated history. -/
def sds_trial (m : GSM) (gm : GranularModel) : ℚ :=
  -m.k * (integrate_history m gm).getD m.history_index 0 - m.damp * gm.magtwist

/-- The critical torque `Mtcrit = mu * Fncrit` of the SDS twisting law. -/
def sds_Mtcrit (m : GSM) (gm : GranularModel) : ℚ :=
  m.mu * Fncrit gm

/-- The history value `(Mtcrit * sign(magtwist) - damp * magtwist) / k` that the SDS
twisting law stores when it yields. -/
def sds_rescaled (m : GSM) (gm : GranularModel) : ℚ :=
  (sds_Mtcrit m gm * signtwist gm.magtwist - m.damp * gm.magtwist) / m.k

/-- The stiffness `0.5 * k_tang * area^2` of the Marshall twisting law. -/
def marshall_k (m : GSM) (gm : GranularModel) : ℚ :=
  0.5 * m.k_tang * gm.area * gm.area

/-- The damping `0.5 * (Tangential damp) * area^2` of the Marshall twisting law. -/
def marshall_damp (gm : GranularModel) : ℚ :=
  0.5 * tangential_damp gm * gm.area * gm.area

/-- The friction `(2/3) * mu_tang * area` of the Marshall twisting law. -/
def marshall_mu (m : GSM) (gm : GranularModel) : ℚ :=
  TWOTHIRDS * m.mu_tang * gm.area

/-- The trial torque of the Marshall twisting law, taken on the integrated history. -/
def marshall_trial (m : GSM) (gm : GranularModel) : ℚ :=
  -marshall_k m gm * (integrate_history m gm).getD m.history_index 0
    - marshall_damp gm * gm.magtwist

/-- The critical torque of the Marshall twisting law. -/
def marshall_Mtcrit (m : GSM) (gm : GranularModel) : ℚ :=
  marshall_mu m gm * Fncrit gm

/-- The history value that the Marshall twisting law stores when it yields. -/
def marshall_rescaled (m : GSM) (gm : GranularModel) : ℚ :=
  (marshall_Mtcrit m gm * signtwist gm.magtwist - marshall_damp gm * gm.magtwist)
    / marshall_k m gm

/-- An SDS twisting submodel with `k = 1`, `damp = 0`, `mu = 1`, its history in slot 0. -/
def sdsModel : GSM :=
  { (GSM.named sampleExt .GSMTwistingSDS "sds").set_coeffs [1, 0, 1] with
    k := 1, damp := 0, mu := 1 }

/-- An SDS twisting submodel with `k = 1`, `damp = 1`, `mu = 1`, its history in slot 0. -/
def sdsDamped : GSM :=
  { (GSM.named sampleExt .GSMTwistingSDS "sds").set_coeffs [1, 1, 1] with
    k := 1, damp := 1, mu := 1 }

/-- A contact state for the twisting laws: twist angle 5 stored in slot 0, twist rate 0,
`Fncrit = 1`, `history_update` off. -/
def twistRest : GranularModel :=
  { GranularModel.new with
    normal_model := some { GSM.named sampleExt .GSMNormalHooke "hooke" with Fncrit := 1 }
    history := [5, 0, 0]
    magtwist := 0
    history_update := false }

/-- The contact state `twistRest` with twist rate 1. -/
def twistTurning : GranularModel :=
  set_magtwist twistRest 1

/-- An SDS twisting submodel whose coefficient array is `[0, 1, 1]`: stiffness 0. -/
def sdsZero : GSM :=
  (GSM.named sampleExt .GSMTwistingSDS "sds").set_coeffs [0, 1, 1]

/-- The Marshall twisting object with the coefficients that its `calculate_forces`
derives in its local variables `k`, `damp`, `mu` put in the fields of the same names. -/
def marshall_as_sds (m : GSM) (gm : GranularModel) : GSM :=
  { m with k := marshall_k m gm, damp := marshall_damp gm, mu := marshall_mu m gm }

/-- A Marshall twisting submodel as `construct_submodel` makes it. -/
def marshallModel : GSM :=
  GSM.named sampleExt .GSMTwistingMarshall "marshall"

/-- The contact state `twistTurning` with a Tangential submodel of `k = 2`, `mu = 3`,
`damp = 0`, and contact area 1. -/
def marshallContact : GranularModel :=
  { twistTurning with
    tangential_model :=
      some { GSM.named sampleExt .GSMTangentialLinearHistory "linear_history" with
        k := 2, mu := 3, damp := 0 }
    area := 1 }

/-- The contact state `twistRest` with twist rate -1: the stored twist 5 opposes it. -/
def twistBack : GranularModel :=
  set_magtwist twistRest (-1)

/-- The object of class `HeatArea` of `contact_heat_models.cpp`: its coefficient array
(`num_coeffs = 1`) and its local field `conductivity`. -/
structure HeatArea where
  coeffs : List ℚ
  conductivity : ℚ
  deriving DecidableEq

/-- The method `HeatArea::coeffs_to_local`. -/
def HeatArea.coeffs_to_local (h : HeatArea) : Except String HeatArea :=
  let conductivity := h.coeffs.getD 0 0
  if conductivity < 0 then .error "Illegal area heat model"
  else .ok { h with conductivity := conductivity }

/-- The method `HeatArea::calculate_heat`; `contact` is the coordinator, of which it reads
`area`, `Ti` and `Tj`. -/
def HeatArea.calculate_heat (h : HeatArea) (contact : GranularModel) : ℚ :=
  h.conductivity * contact.area * (contact.Ti - contact.Tj)

/-- The contact with the temperatures of the two bodies exchanged. -/
def swap_temperatures (contact : GranularModel) : GranularModel :=
  { contact with Ti := contact.Tj, Tj := contact.Ti }

/-- A heat object with the coefficient 2. -/
def heatSample : HeatArea := ⟨[2], 0⟩

/-- A contact of area 3 between bodies at temperatures 5 and 1. -/
def heatContact : GranularModel :=
  { GranularModel.new with area := 3, Ti := 5, Tj := 1 }

/-- Two spheres of radius 1 with coincident centres on the initialised coordinator
`sampleInit`, before `check_contact`. -/
def coincident : GranularModel :=
  { sampleInit with radi := 1, radj := 1 }

/-- The part of the input layer that is not among the sources: the conversions
`utils::numeric` and `utils::inumeric` of `utils.cpp`, which end the run on a token that
is not a number, and the unit constant `force->nktv2p`. -/
structure Utils where
  /-- The call `utils::numeric(FLERR, str, false, lmp)`: the double or the error message. -/
  numeric : String → Except String ℚ
  /-- The call `utils::inumeric(FLERR, str, false, lmp)`: the int or the error message. -/
  inumeric : String → Except String Int
  /-- The constant `force->nktv2p`. -/
  nktv2p : ℚ

/-- The token `arg[i]`; token positions are natural numbers, and a position outside the
list reads as the empty token. -/
def token (arg : List String) (i : Nat) : String :=
  arg.getD i ""

/-- The loop `for (i = 0; i < num_coeffs; i++)` of `init_submodel`, from pass `i` for `n`
more passes: a token `NULL` stores -1 in `coeffs[i]`, any other token its numeric
value. `iarg` is the position of the first coefficient token. -/
def read_coeffs (u : Utils) (arg : List String) (iarg : Nat) : Nat → Nat → GSM → Except String GSM
  | _, 0, m => .ok m
  | i, n + 1, m =>
      if token arg (iarg + i) = "NULL" then
        read_coeffs u arg iarg (i + 1) n (m.set_coeffs (m.coeffs.set i (-1)))
      else
        match u.numeric (token arg (iarg + i)) with
        | .error e => .error e
        | .ok x => read_coeffs u arg iarg (i + 1) n (m.set_coeffs (m.coeffs.set i x))

/-- The method `GranularModel::init_submodel`: the returned integer and the coordinator
after the call. -/
def init_submodel (ext : Ext) (u : Utils) (arg : List String) (iarg narg : Nat)
    (model_type : SubmodelType) (gm : GranularModel) : Except String (Nat × GranularModel) :=
  if iarg ≥ narg then .error "Must specify granular submodel name"
  else
    match construct_submodel ext (token arg iarg) model_type gm with
    | .error e => .error e
    | .ok gm1 =>
        match sub_models gm1 model_type with
        | none => .error "null submodel"
        | some m =>
            if iarg + 1 + m.num_coeffs > narg then
              .error ("Insufficient arguments provided for " ++ token arg iarg ++ " model")
            else
              match read_coeffs u arg (iarg + 1) 0 m.num_coeffs m with
              | .error e => .error e
              | .ok m1 =>
                  match GSM.coeffs_to_local ext m1 with
                  | .error e => .error e
                  | .ok m2 => .ok (iarg + 1 + m.num_coeffs, set_sub_model gm1 model_type m2)

/-- The local variables `kn`, `kt`, `gamman`, `gammat`, `xmu`, `dampflag` of
`init_classic_model`. -/
structure ClassicArgs where
  kn : ℚ
  kt : ℚ
  gamman : ℚ
  gammat : ℚ
  xmu : ℚ
  dampflag : Int
  deriving DecidableEq

/-- The assignment of `kt` or `gammat` in `init_classic_model`: the derived value `dflt`
for the token `NULL`, the numeric value of the token otherwise. -/
def numeric_or (u : Utils) (tok : String) (dflt : ℚ) : Except String ℚ :=
  if tok = "NULL" then .ok dflt else u.numeric tok

/-- The statements of `init_classic_model` that read the six values from the tokens
`arg[iarg + 1 .. iarg + 6]`, up to and including `dampflag`. -/
def classic_values (u : Utils) (arg : List String) (iarg : Nat) : Except String ClassicArgs :=
  match u.numeric (token arg (iarg + 1)) with
  | .error e => .error e
  | .ok kn =>
      match numeric_or u (token arg (iarg + 2)) (kn * 2 / 7) with
      | .error e => .error e
      | .ok kt =>
          match u.numeric (token arg (iarg + 3)) with
          | .error e => .error e
          | .ok gamman =>
              match numeric_or u (token arg (iarg + 4)) (0.5 * gamman) with
              | .error e => .error e
              | .ok gammat =>
                  match u.numeric (token arg (iarg + 5)) with
                  | .error e => .error e
                  | .ok xmu =>
                      match u.inumeric (token arg (iarg + 6)) with
                      | .error e => .error e
                      | .ok dampflag => .ok ⟨kn, kt, gamman, gammat, xmu, dampflag⟩

/-- The statement `if (dampflag == 0) gammat = 0.0`: the value of `gammat` after it. -/
def classic_gammat (v : ClassicArgs) : ℚ :=
  if v.dampflag = 0 then 0 else v.gammat

/-- The condition under which `init_classic_model` raises "Illegal classic gran model
command", taken after `gammat` has been zeroed for `dampflag == 0`. -/
@[reducible]
def classic_illegal (v : ClassicArgs) : Prop :=
  v.kn < 0 ∨ v.kt < 0 ∨ v.gamman < 0 ∨ classic_gammat v < 0 ∨
    v.xmu < 0 ∨ v.xmu > 10000 ∨ v.dampflag < 0 ∨ v.dampflag > 1

/-- The choice made by the name of the classic model. -/
structure ClassicChoice where
  normal : String
  tangential : String
  damping : String
  convert : Bool
  deriving DecidableEq

/-- The three branches of `init_classic_model` on `arg[iarg]`: the names of the Normal,
Tangential and Damping submodels, and whether `kn` and `kt` are divided by `nktv2p`. -/
def classic_choice (name : String) : Except String ClassicChoice :=
  if name = "hooke" then .ok ⟨"hooke", "linear_nohistory", "mass_velocity", false⟩
  else if name = "hooke/history" then
    .ok ⟨"hooke", "linear_history_classic", "mass_velocity", false⟩
  else if name = "hertz/history" then .ok ⟨"hertz", "mindlin", "viscoelastic", true⟩
  else .error "Invalid classic gran model"

/-- The value of `kn` or `kt` after the statement `kn /= force->nktv2p` of the
`hertz/history` branch. -/
def classic_scale (u : Utils) (c : ClassicChoice) (x : ℚ) : ℚ :=
  if c.convert then x / u.nktv2p else x

/-- A sequence of calls of `construct_submodel`. -/
def construct_all (ext : Ext) : List (String × SubmodelType) → GranularModel →
    Except String GranularModel
  | [], gm => .ok gm
  | (name, t) :: rest, gm =>
      match construct_submodel ext name t gm with
      | .error e => .error e
      | .ok gm1 => construct_all ext rest gm1

/-- The six calls of `construct_submodel` in `init_classic_model`: the three of the
branch taken, then `none` for Rolling, Twisting and Heat. -/
def classic_calls (c : ClassicChoice) : List (String × SubmodelType) :=
  [(c.normal, .NORMAL), (c.tangential, .TANGENTIAL), (c.damping, .DAMPING),
    ("none", .ROLLING), ("none", .TWISTING), ("none", .HEAT)]

/-- The Normal object after `coeffs[0] = kn; coeffs[1] = gamman`. -/
def classic_normal (m : GSM) (kn gamman : ℚ) : GSM :=
  m.set_coeffs ((m.coeffs.set 0 kn).set 1 gamman)

/-- The Tangential object after `coeffs[0] = kt; coeffs[1] = gammat / gamman;
coeffs[2] = xmu`. -/
def classic_tangential (m : GSM) (kt gammat gamman xmu : ℚ) : GSM :=
  m.set_coeffs (((m.coeffs.set 0 kt).set 1 (gammat / gamman)).set 2 xmu)

/-- The coordinator with its Normal, Tangential and Damping objects replaced. -/
def set_classic (gm : GranularModel) (nm tm dm : GSM) : GranularModel :=
  { gm with normal_model := some nm, tangential_model := some tm, damping_model := some dm }

/-- The part of `init_classic_model` headed "manually parse coeffs": the five
assignments and the three calls of `coeffs_to_local`. -/
def classic_coeffs (ext : Ext) (kn kt gamman gammat xmu : ℚ) (gm : GranularModel) :
    Except String GranularModel :=
  match gm.normal_model, gm.tangential_model, gm.damping_model with
  | some nm, some tm, some dm =>
      match GSM.coeffs_to_local ext (classic_normal nm kn gamman) with
      | .error e => .error e
      | .ok nm2 =>
          match GSM.coeffs_to_local ext (classic_tangential tm kt gammat gamman xmu) with
          | .error e => .error e
          | .ok tm2 =>
              match GSM.coeffs_to_local ext dm with
              | .error e => .error e
              | .ok dm2 => .ok (set_classic gm nm2 tm2 dm2)
  | _, _, _ => .error "null submodel"

/-- The statement `classic_model = 1`. -/
def mark_classic (gm : GranularModel) : GranularModel :=
  { gm with classic_model := 1 }

/-- The method `GranularModel::init_classic_model`: the returned integer and the
coordinator after the call. -/
def init_classic_model (ext : Ext) (u : Utils) (arg : List String) (iarg narg : Nat)
    (gm : GranularModel) : Except String (Nat × GranularModel) :=
  if iarg + 6 ≥ narg then
    .error "Insufficient arguments provided for classic gran model command"
  else
    match classic_values u arg iarg with
    | .error e => .error e
    | .ok v =>
        if classic_illegal v then .error "Illegal classic gran model command"
        else
          match classic_choice (token arg iarg) with
          | .error e => .error e
          | .ok c =>
              match construct_all ext (classic_calls c) (mark_classic gm) with
              | .error e => .error e
              | .ok gm1 =>
                  match classic_coeffs ext (classic_scale u c v.kn) (classic_scale u c v.kt)
                      v.gamman (classic_gammat v) v.xmu gm1 with
                  | .error e => .error e
                  | .ok gm2 => .ok (iarg + 7, gm2)

/-- The value of a decimal digit. -/
def digit_value (c : Char) : Option Nat :=
  if '0' ≤ c ∧ c ≤ '9' then some (c.toNat - '0'.toNat) else none

/-- The natural number written by a list of decimal digits, continuing from `acc`. -/
def read_digits : List Char → Nat → Option Nat
  | [], acc => some acc
  | c :: cs, acc =>
      match digit_value c with
      | none => none
      | some d => read_digits cs (10 * acc + d)

/-- A sample conversion of an unsigned decimal numeral `digits` or `digits.digits`. -/
def sample_unsigned (cs : List Char) : Option ℚ :=
  let ip := cs.takeWhile (fun c => c != '.')
  let fp := (cs.dropWhile (fun c => c != '.')).drop 1
  if ip = [] then none
  else
    match read_digits ip 0, read_digits fp 0 with
    | some a, some b =>
        if fp = [] then some (a : ℚ) else some ((a : ℚ) + (b : ℚ) / ((10 ^ fp.length : ℕ) : ℚ))
    | _, _ => none

/-- A sample of `utils::numeric`: decimal numerals with an optional minus sign. -/
def sample_numeric (s : String) : Except String ℚ :=
  match s.data with
  | '-' :: cs =>
      match sample_unsigned cs with
      | some q => .ok (-q)
      | none => .error "Expected floating point parameter in input script or data file"
  | cs =>
      match sample_unsigned cs with
      | some q => .ok q
      | none => .error "Expected floating point parameter in input script or data file"

/-- A sample of `utils::inumeric`: decimal integers with an optional minus sign. -/
def sample_inumeric (s : String) : Except String Int :=
  match s.data with
  | [] => .error "Expected integer parameter in input script or data file"
  | '-' :: cs =>
      match read_digits cs 0 with
      | some n => if cs = [] then .error "Expected integer parameter" else .ok (-(n : Int))
      | none => .error "Expected integer parameter in input script or data file"
  | cs =>
      match read_digits cs 0 with
      | some n => .ok (n : Int)
      | none => .error "Expected integer parameter in input script or data file"

/-- A sample instance of `Utils`, with `nktv2p = 1`. -/
def sampleUtils : Utils where
  numeric := sample_numeric
  inumeric := sample_inumeric
  nktv2p := 1

/-- The coordinator after `construct_submodel(model_name, model_type)` has made an object of
class `v`. -/
def construct_as (ext : Ext) (model_name : String) (model_type : SubmodelType) (v : Variant)
    (gm : GranularModel) : GranularModel :=
  set_sub_model (set_defined gm model_type model_name) model_type
    (GSM.named ext v model_name)

/-- A sample constructor table in which the class of `linear_nohistory` has the three
coefficients that `init_classic_model` assigns to the Tangential object. -/
def classicCtor : Variant → ClassInfo
  | .GSMTangentialLinearNoHistory => ⟨3, 0, 1, 0, 0, []⟩
  | v => sampleCtor v

/-- The sample instance `sampleExt` with the constructor table `classicCtor`. -/
def classicExt : Ext :=
  { sampleExt with ctor := classicCtor }

/-- The classic argument list `hooke 100 NULL 5 NULL 0.5 1`. -/
def classicArgs : List String :=
  ["hooke", "100", "NULL", "5", "NULL", "0.5", "1"]

/-- The classic argument list `hooke 100 NULL 5 -1 0.5 0`: a negative tangential damping
with the damping flag 0. -/
def classicNoDamp : List String :=
  ["hooke", "100", "NULL", "5", "-1", "0.5", "0"]

/-- The classic argument list `hooke 100 NULL 0 NULL 0.5 1`: normal damping 0. -/
def classicZero : List String :=
  ["hooke", "100", "NULL", "0", "NULL", "0.5", "1"]

/-- The choice made for the classic model name `hooke`. -/
def hookeChoice : ClassicChoice :=
  ⟨"hooke", "linear_nohistory", "mass_velocity", false⟩

/-- The argument list `pair_coeff * hooke 1000 50`, whose submodel starts at position 2. -/
def sampleArgs : List String :=
  ["pair_coeff", "*", "hooke", "1000", "50"]

/-! ## Binary64 arithmetic

The type `double` with its IEEE 754 arithmetic: every operation gives the exact result
rounded to the nearest double (ties to even), with signed zeros, infinities and NaN.
Values are kept as integers with a binary exponent, so that every operation is computed
on `Nat` and `Int`. -/

/-- A value of the type `double` (IEEE 754 binary64): a finite number
`(-1)^neg * m * 2^e`, an infinity, or a NaN. Finite values are kept in the form with `m`
odd, and zero as `m = 0`, `e = 0`, so that equal numbers of equal sign are equal terms. -/
inductive Dbl
  | fin (neg : Bool) (m : Nat) (e : Int)
  | inf (neg : Bool)
  | nan
  deriving DecidableEq

/-- The number of binary digits of `n`, counted in at most `fuel` steps. -/
def bitlen_fuel : Nat → Nat → Nat
  | 0, _ => 0
  | fuel + 1, n => if n = 0 then 0 else bitlen_fuel fuel (n / 2) + 1

/-- The number of binary digits of `n`; `n` steps are enough since `n < 2^n`. -/
def bitlen (n : Nat) : Nat :=
  bitlen_fuel n n

/-- The finite value `(-1)^neg * m * 2^e` in the form with odd `m`: the largest power of
two that divides `m` is `gcd m (2^bitlen m)`. -/
def Dbl.canon (neg : Bool) (m : Nat) (e : Int) : Dbl :=
  if m = 0 then .fin neg 0 0
  else
    .fin neg (m / Nat.gcd m (2 ^ bitlen m))
      (e + (bitlen (Nat.gcd m (2 ^ bitlen m)) - 1 : Nat))

/-- Rounding to binary64 in the mode round-to-nearest, ties-to-even: the double nearest to
the number `(-1)^neg * x` with `m * 2^e ≤ x < (m + 1) * 2^e`, where `x = m * 2^e` unless
`sticky` is set. The last kept bit has weight `2^elsb`: 53 bits are kept, fewer below the
normal range (weight `2^-1074`), and a result of `2^1024` or more is an infinity. The
quotient and the square root, which set `sticky`, pass an `m` of 61 digits or more, so that
bits are always dropped when `sticky` is set. -/
def Dbl.round (neg : Bool) (m : Nat) (e : Int) (sticky : Bool) : Dbl :=
  if m = 0 then .fin neg 0 0
  else
    let len : Int := bitlen m
    let elsb : Int := max (e + len - 53) (-1074)
    if elsb ≤ e then
      if e + len > 1024 then .inf neg else Dbl.canon neg m e
    else
      let s := (elsb - e).toNat
      let q := m / 2 ^ s
      let r := m % 2 ^ s
      let half := 2 ^ (s - 1)
      let q2 := if r > half ∨ (r = half ∧ (sticky = true ∨ q % 2 = 1)) then q + 1 else q
      if elsb + bitlen q2 > 1024 then .inf neg else Dbl.canon neg q2 elsb

/-- The integer `(-1)^neg * m`. -/
def Dbl.sval (neg : Bool) (m : Nat) : Int :=
  if neg then -(m : Int) else m

/-- The double nearest to an integer. -/
def Dbl.ofInt (n : Int) : Dbl :=
  Dbl.round (decide (n < 0)) n.natAbs 0 false

/-- The unary minus of doubles. -/
def Dbl.neg : Dbl → Dbl
  | .fin n m e => .fin (!n) m e
  | .inf n => .inf (!n)
  | .nan => .nan

/-- The function `fabs`. -/
def Dbl.abs : Dbl → Dbl
  | .fin _ m e => .fin false m e
  | .inf _ => .inf false
  | .nan => .nan

/-- The product of doubles. -/
def Dbl.mul : Dbl → Dbl → Dbl
  | .nan, _ => .nan
  | _, .nan => .nan
  | .inf a, .inf b => .inf (a != b)
  | .inf a, .fin b m _ => if m = 0 then .nan else .inf (a != b)
  | .fin a m _, .inf b => if m = 0 then .nan else .inf (a != b)
  | .fin n1 m1 e1, .fin n2 m2 e2 => Dbl.round (n1 != n2) (m1 * m2) (e1 + e2) false

/-- The sum of doubles. -/
def Dbl.add : Dbl → Dbl → Dbl
  | .nan, _ => .nan
  | _, .nan => .nan
  | .inf a, .inf b => if a = b then .inf a else .nan
  | .inf a, .fin _ _ _ => .inf a
  | .fin _ _ _, .inf b => .inf b
  | .fin n1 m1 e1, .fin n2 m2 e2 =>
      let e := min e1 e2
      let s := Dbl.sval n1 m1 * 2 ^ (e1 - e).toNat + Dbl.sval n2 m2 * 2 ^ (e2 - e).toNat
      if s = 0 then .fin (n1 && n2) 0 0 else Dbl.round (decide (s < 0)) s.natAbs e false

/-- The difference of doubles. -/
def Dbl.sub (a b : Dbl) : Dbl :=
  Dbl.add a (Dbl.neg b)

/-- The quotient of doubles: a nonzero number divided by zero is an infinity, zero divided
by zero is a NaN. The quotient of the integers is taken with 64 bits or more, the
remainder is the sticky bit. -/
def Dbl.div : Dbl → Dbl → Dbl
  | .nan, _ => .nan
  | _, .nan => .nan
  | .inf _, .inf _ => .nan
  | .inf a, .fin b _ _ => .inf (a != b)
  | .fin a _ _, .inf b => .fin (a != b) 0 0
  | .fin n1 m1 e1, .fin n2 m2 e2 =>
      if m2 = 0 then (if m1 = 0 then .nan else .inf (n1 != n2))
      else if m1 = 0 then .fin (n1 != n2) 0 0
      else
        let p := 64 + bitlen m2
        Dbl.round (n1 != n2) (m1 * 2 ^ p / m2) (e1 - e2 - p) (decide (m1 * 2 ^ p % m2 ≠ 0))

/-- Newton iteration for the integer square root, from a start above the root. -/
def isqrt_iter (n : Nat) : Nat → Nat → Nat
  | 0, x => x
  | fuel + 1, x => if (x + n / x) / 2 ≥ x then x else isqrt_iter n fuel ((x + n / x) / 2)

/-- The integer square root. -/
def isqrt (n : Nat) : Nat :=
  if n = 0 then 0 else isqrt_iter n (2 * n) (2 ^ ((bitlen n - 1) / 2 + 1))

/-- The function `sqrt` on doubles, correctly rounded. -/
def Dbl.sqrt : Dbl → Dbl
  | .nan => .nan
  | .inf n => if n then .nan else .inf false
  | .fin n m e =>
      if m = 0 then .fin n 0 0
      else if n then .nan
      else
        let t : Nat := 120 + ((e - 120) % 2).toNat
        Dbl.round false (isqrt (m * 2 ^ t)) ((e - t) / 2)
          (decide (isqrt (m * 2 ^ t) * isqrt (m * 2 ^ t) ≠ m * 2 ^ t))

/-- The comparison `a < b` of doubles, false when one of them is a NaN. -/
def Dbl.lt : Dbl → Dbl → Bool
  | .nan, _ => false
  | _, .nan => false
  | .inf a, .inf b => a && !b
  | .inf a, .fin _ _ _ => a
  | .fin _ _ _, .inf b => !b
  | .fin n1 m1 e1, .fin n2 m2 e2 =>
      decide (Dbl.sval n1 m1 * 2 ^ (e1 - min e1 e2).toNat <
        Dbl.sval n2 m2 * 2 ^ (e2 - min e1 e2).toNat)

/-- The comparison `a <= b` of doubles, false when one of them is a NaN. -/
def Dbl.le : Dbl → Dbl → Bool
  | .nan, _ => false
  | _, .nan => false
  | .inf a, .inf b => a || !b
  | .inf a, .fin _ _ _ => a
  | .fin _ _ _, .inf b => !b
  | .fin n1 m1 e1, .fin n2 m2 e2 =>
      decide (Dbl.sval n1 m1 * 2 ^ (e1 - min e1 e2).toNat ≤
        Dbl.sval n2 m2 * 2 ^ (e2 - min e1 e2).toNat)

/-- The comparison `a == b` of doubles: the two zeros are equal, a NaN equals nothing. -/
def Dbl.beq (a b : Dbl) : Bool :=
  Dbl.le a b && Dbl.le b a

/-- The double `0.0`. -/
def Dbl.zero : Dbl := .fin false 0 0

/-- The double `1.0`. -/
def Dbl.one : Dbl := .fin false 1 0

/-- The double `0.5`. -/
def Dbl.half : Dbl := .fin false 1 (-1)

/-- Whether a double is `0.0` or `-0.0`. -/
def Dbl.isZero : Dbl → Bool
  | .fin _ m _ => decide (m = 0)
  | _ => false

/-- Whether a term of `Dbl` is a double in the form the operations return: zero as
`m = 0`, `e = 0`; otherwise an odd `m < 2^53` and an exponent in the range of binary64. -/
def Dbl.valid : Dbl → Bool
  | .fin _ m e =>
      decide ((m = 0 ∧ e = 0) ∨ (m % 2 = 1 ∧ m < 2 ^ 53 ∧ -1074 ≤ e ∧ e + bitlen m ≤ 1024))
  | _ => true

/-! ## The contact evaluation in binary64 arithmetic

The statements of `check_contact`, `calculate_forces`, `init_classic_model` and of the SDS
twisting law on which rounding, a division by zero or a NaN decides, with the same
operations in the same order as the source, every one of them rounded. -/

/-- A three-component vector of doubles, `double[3]`. -/
structure Vec64 where
  x : Dbl
  y : Dbl
  z : Dbl
  deriving DecidableEq

/-- Modelled from the spec: `MathExtra::sub3` of `math_extra.h` (not among the sources),
the componentwise difference. -/
def Binary64.sub3 (a b : Vec64) : Vec64 :=
  ⟨Dbl.sub a.x b.x, Dbl.sub a.y b.y, Dbl.sub a.z b.z⟩

/-- Modelled from the spec: `MathExtra::add3` of `math_extra.h`, the componentwise sum. -/
def Binary64.add3 (a b : Vec64) : Vec64 :=
  ⟨Dbl.add a.x b.x, Dbl.add a.y b.y, Dbl.add a.z b.z⟩

/-- Modelled from the spec: `MathExtra::scale3` of `math_extra.h`, the product of a scalar
and a vector. -/
def Binary64.scale3 (s : Dbl) (v : Vec64) : Vec64 :=
  ⟨Dbl.mul s v.x, Dbl.mul s v.y, Dbl.mul s v.z⟩

/-- Modelled from the spec: `MathExtra::dot3` of `math_extra.h`, the dot product
`v1[0] * v2[0] + v1[1] * v2[1] + v1[2] * v2[2]`, summed from the left. -/
def Binary64.dot3 (a b : Vec64) : Dbl :=
  Dbl.add (Dbl.add (Dbl.mul a.x b.x) (Dbl.mul a.y b.y)) (Dbl.mul a.z b.z)

/-- Modelled from the spec: `MathExtra::lensq3` of `math_extra.h`, the squared length. -/
def Binary64.lensq3 (v : Vec64) : Dbl :=
  Dbl.add (Dbl.add (Dbl.mul v.x v.x) (Dbl.mul v.y v.y)) (Dbl.mul v.z v.z)

/-- Modelled from the spec: `MathExtra::len3` of `math_extra.h`, the length. -/
def Binary64.len3 (v : Vec64) : Dbl :=
  Dbl.sqrt (Binary64.lensq3 v)

/-- Modelled from the spec: `MathExtra::cross3` of `math_extra.h`, the cross product. -/
def Binary64.cross3 (a b : Vec64) : Vec64 :=
  ⟨Dbl.sub (Dbl.mul a.y b.z) (Dbl.mul a.z b.y),
   Dbl.sub (Dbl.mul a.z b.x) (Dbl.mul a.x b.z),
   Dbl.sub (Dbl.mul a.x b.y) (Dbl.mul a.y b.x)⟩

/-- Modelled from the spec: `MathExtra::scaleadd3` of `math_extra.h`, the combination
`s1 * v1 + s2 * v2`. -/
def Binary64.scaleadd3 (s1 : Dbl) (v1 : Vec64) (s2 : Dbl) (v2 : Vec64) : Vec64 :=
  ⟨Dbl.add (Dbl.mul s1 v1.x) (Dbl.mul s2 v2.x),
   Dbl.add (Dbl.mul s1 v1.y) (Dbl.mul s2 v2.y),
   Dbl.add (Dbl.mul s1 v1.z) (Dbl.mul s2 v2.z)⟩

/-- The fields of the coordinator that `check_contact` and `calculate_forces` read and
write up to the net normal force, as doubles. -/
structure Contact64 where
  contact_type : ContactType
  limit_damping : Int
  rolling_defined : Int
  twisting_defined : Int
  xi : Vec64
  xj : Vec64
  dx : Vec64
  vi : Vec64
  vj : Vec64
  omegai : Vec64
  omegaj : Vec64
  radi : Dbl
  radj : Dbl
  radsum : Dbl
  Reff : Dbl
  rsq : Dbl
  r : Dbl
  rinv : Dbl
  delta : Dbl
  dR : Dbl
  nx : Vec64
  vr : Vec64
  vnnr : Dbl
  vn : Vec64
  vt : Vec64
  wr : Vec64
  vtr : Vec64
  vrel : Dbl
  relrot : Vec64
  vrl : Vec64
  magtwist : Dbl
  forces : Vec64
  area : Dbl
  Fntot : Dbl
  deriving DecidableEq

/-- The hooks of the Normal and Damping submodels that `calculate_forces` calls for the
net normal force; their classes are not among the sources. `normal_forces` stands for the
calls `set_knfac()` and `calculate_forces()` of the Normal submodel. -/
structure Hooks64 where
  calculate_area : Contact64 → Dbl
  normal_forces : Contact64 → Dbl
  damping_forces : Contact64 → Dbl

/-- The geometry part of `check_contact`, before the call of `normal_model->touch()`. -/
def Binary64.contact_geometry (c : Contact64) : Contact64 :=
  match c.contact_type with
  | .WALL =>
      { c with
        rsq := Binary64.lensq3 c.dx
        radsum := c.radi
        Reff := if Dbl.beq c.radj Dbl.zero then c.radi
          else Dbl.div (Dbl.mul c.radi c.radj) (Dbl.add c.radi c.radj) }
  | .WALLREGION =>
      { c with
        rsq := Dbl.mul c.r c.r
        radsum := c.radi
        Reff := if Dbl.beq c.radj Dbl.zero then c.radi
          else Dbl.div (Dbl.mul c.radi c.radj) (Dbl.add c.radi c.radj) }
  | .PAIR =>
      { c with
        dx := Binary64.sub3 c.xi c.xj
        rsq := Binary64.lensq3 (Binary64.sub3 c.xi c.xj)
        radsum := Dbl.add c.radi c.radj
        Reff := Dbl.div (Dbl.mul c.radi c.radj) (Dbl.add c.radi c.radj) }

/-- The first part of `calculate_forces`: the standard geometric quantities and the
relative velocities. -/
def Binary64.kinematics (c : Contact64) : Contact64 :=
  let r := if c.contact_type ≠ .WALLREGION then Dbl.sqrt c.rsq else c.r
  let rinv := Dbl.div Dbl.one r
  let delta := Dbl.sub c.radsum r
  let nx := Binary64.scale3 rinv c.dx
  let vr := Binary64.sub3 c.vi c.vj
  let vnnr := Binary64.dot3 vr nx
  let vn := Binary64.scale3 vnnr nx
  let vt := Binary64.sub3 vr vn
  let wr := Binary64.scaleadd3 c.radi c.omegai c.radj c.omegaj
  let vtr := Binary64.sub3 vt (Binary64.cross3 wr nx)
  let relrot :=
    if c.rolling_defined ≠ 0 ∨ c.twisting_defined ≠ 0 then Binary64.sub3 c.omegai c.omegaj
    else c.relrot
  { c with
    r := r
    rinv := rinv
    delta := delta
    dR := Dbl.mul delta c.Reff
    nx := nx
    vr := vr
    vnnr := vnnr
    vn := vn
    vt := vt
    wr := wr
    vtr := vtr
    vrel := Binary64.len3 vtr
    relrot := relrot
    vrl :=
      if c.rolling_defined ≠ 0 then
        ⟨Dbl.mul c.Reff (Dbl.sub (Dbl.mul relrot.y nx.z) (Dbl.mul relrot.z nx.y)),
         Dbl.mul c.Reff (Dbl.sub (Dbl.mul relrot.z nx.x) (Dbl.mul relrot.x nx.z)),
         Dbl.mul c.Reff (Dbl.sub (Dbl.mul relrot.x nx.y) (Dbl.mul relrot.y nx.x))⟩
      else c.vrl
    magtwist := if c.twisting_defined ≠ 0 then Binary64.dot3 relrot nx else c.magtwist }

/-- The statements `forces[0] = 0.0` and `area = normal_model->calculate_area()` of
`calculate_forces`. -/
def Binary64.contact_area (h : Hooks64) (c : Contact64) : Contact64 :=
  { c with
    forces := ⟨Dbl.zero, c.forces.y, c.forces.z⟩
    area := h.calculate_area { c with forces := ⟨Dbl.zero, c.forces.y, c.forces.z⟩ } }

/-- The statements of `calculate_forces` that compute the net normal force: the elastic
force `Fne`, the damping force `Fdamp`, and their sum `Fntot`, replaced by `0.0` when
`limit_damping` is set and `Fntot < 0.0`. -/
def Binary64.normal_forces (h : Hooks64) (c : Contact64) : Contact64 :=
  { c with
    Fntot :=
      if c.limit_damping ≠ 0 ∧ Dbl.lt (Dbl.add (h.normal_forces c) (h.damping_forces c))
          Dbl.zero = true then Dbl.zero
      else Dbl.add (h.normal_forces c) (h.damping_forces c) }

/-- The state of `calculate_forces` once `Fntot` has been computed. -/
def Binary64.normal_state (h : Hooks64) (c : Contact64) : Contact64 :=
  Binary64.normal_forces h (Binary64.contact_area h (Binary64.kinematics c))

/-- The fields that `GSMTwistingSDS::calculate_forces` reads and writes, as doubles: the
locals `k`, `damp`, `mu` and `history_index` of the submodel, `normal_model->Fncrit`, and
the fields `history`, `history_update`, `magtwist`, `dt`, `magtortwist` of the
coordinator. -/
structure Twist64 where
  k : Dbl
  damp : Dbl
  mu : Dbl
  history_index : Nat
  Fncrit : Dbl
  history : List Dbl
  history_update : Bool
  magtwist : Dbl
  dt : Dbl
  magtortwist : Dbl
  deriving DecidableEq

/-- The sign expression `(x > 0) - (x < 0)`, an `int` converted to `double`. -/
def Binary64.signtwist (x : Dbl) : Dbl :=
  Dbl.ofInt ((if Dbl.lt Dbl.zero x then 1 else 0) - (if Dbl.lt x Dbl.zero then 1 else 0))

/-- The history array after the integration step of the SDS twisting law: slot
`history_index` is advanced by `magtwist * dt` when `history_update` is set. -/
def Binary64.integrate_history (s : Twist64) : List Dbl :=
  if s.history_update then
    s.history.set s.history_index
      (Dbl.add (s.history.getD s.history_index Dbl.zero) (Dbl.mul s.magtwist s.dt))
  else s.history

/-- The trial torque `-k * history[history_index] - damp * magtwist` of the SDS twisting
law, taken on the integrated history. -/
def Binary64.sds_trial (s : Twist64) : Dbl :=
  Dbl.sub (Dbl.mul (Dbl.neg s.k) ((Binary64.integrate_history s).getD s.history_index Dbl.zero))
    (Dbl.mul s.damp s.magtwist)

/-- The critical torque `Mtcrit = mu * normal_model->Fncrit` of the SDS twisting law. -/
def Binary64.sds_Mtcrit (s : Twist64) : Dbl :=
  Dbl.mul s.mu s.Fncrit

/-- The history value `(Mtcrit * signtwist - damp * magtwist) / k` that the SDS twisting
law stores when it yields. -/
def Binary64.sds_rescaled (s : Twist64) : Dbl :=
  Dbl.div
    (Dbl.sub (Dbl.mul (Binary64.sds_Mtcrit s) (Binary64.signtwist s.magtwist))
      (Dbl.mul s.damp s.magtwist))
    s.k

/-- The method `GSMTwistingSDS::calculate_forces`. -/
def Binary64.GSMTwistingSDS.calculate_forces (s : Twist64) : Twist64 :=
  let history :=
    if s.history_update then
      s.history.set s.history_index
        (Dbl.add (s.history.getD s.history_index Dbl.zero) (Dbl.mul s.magtwist s.dt))
    else s.history
  let magtortwist :=
    Dbl.sub (Dbl.mul (Dbl.neg s.k) (history.getD s.history_index Dbl.zero))
      (Dbl.mul s.damp s.magtwist)
  let signtwist :=
    Dbl.ofInt ((if Dbl.lt Dbl.zero s.magtwist then 1 else 0) -
      (if Dbl.lt s.magtwist Dbl.zero then 1 else 0))
  let Mtcrit := Dbl.mul s.mu s.Fncrit
  if Dbl.lt Mtcrit (Dbl.abs magtortwist) then
    { s with
      history := history.set s.history_index
        (Dbl.div (Dbl.sub (Dbl.mul Mtcrit signtwist) (Dbl.mul s.damp s.magtwist)) s.k)
      magtortwist := Dbl.mul (Dbl.neg Mtcrit) signtwist }
  else { s with history := history, magtortwist := magtortwist }

/-- The method `GSMTwistingSDS::coeffs_to_local` on the coefficient array `coeffs`: the
locals `k`, `damp`, `mu`, or the error message. -/
def Binary64.GSMTwistingSDS.coeffs_to_local (coeffs : List Dbl) :
    Except String (Dbl × Dbl × Dbl) :=
  let k := coeffs.getD 0 Dbl.zero
  let damp := coeffs.getD 1 Dbl.zero
  let mu := coeffs.getD 2 Dbl.zero
  if Dbl.lt k Dbl.zero || Dbl.lt mu Dbl.zero || Dbl.lt damp Dbl.zero then
    .error "Illegal SDS twisting model"
  else .ok (k, damp, mu)

/-- The six values that `init_classic_model` reads from its tokens, as doubles. -/
structure ClassicArgs64 where
  kn : Dbl
  kt : Dbl
  gamman : Dbl
  gammat : Dbl
  xmu : Dbl
  dampflag : Int
  deriving DecidableEq

/-- The statement `if (dampflag == 0) gammat = 0.0`: the value of `gammat` after it. -/
def Binary64.classic_gammat (v : ClassicArgs64) : Dbl :=
  if v.dampflag = 0 then Dbl.zero else v.gammat

/-- The condition under which `init_classic_model` raises "Illegal classic gran model
command", taken after `gammat` has been zeroed for `dampflag == 0`. -/
def Binary64.classic_illegal (v : ClassicArgs64) : Bool :=
  Dbl.lt v.kn Dbl.zero || Dbl.lt v.kt Dbl.zero || Dbl.lt v.gamman Dbl.zero ||
    Dbl.lt (Binary64.classic_gammat v) Dbl.zero || Dbl.lt v.xmu Dbl.zero ||
    Dbl.lt (Dbl.ofInt 10000) v.xmu || decide (v.dampflag < 0) || decide (v.dampflag > 1)

/-- The validation of `init_classic_model` followed by the assignment
`tangential_model->coeffs[1] = gammat / gamman`: the stored coefficient, or the error
message. -/
def Binary64.classic_damping_coeff (v : ClassicArgs64) : Except String Dbl :=
  if Binary64.classic_illegal v then .error "Illegal classic gran model command"
  else .ok (Dbl.div (Binary64.classic_gammat v) v.gamman)

/-- The coordinator state with another twist rate `magtwist`. -/
def Binary64.set_magtwist (s : Twist64) (w : Dbl) : Twist64 :=
  { s with magtwist := w }

/-- A contact with every field zero, of type `PAIR`. -/
def Contact64.new : Contact64 :=
  { contact_type := .PAIR, limit_damping := 0, rolling_defined := 0, twisting_defined := 0,
    xi := ⟨Dbl.zero, Dbl.zero, Dbl.zero⟩, xj := ⟨Dbl.zero, Dbl.zero, Dbl.zero⟩,
    dx := ⟨Dbl.zero, Dbl.zero, Dbl.zero⟩, vi := ⟨Dbl.zero, Dbl.zero, Dbl.zero⟩,
    vj := ⟨Dbl.zero, Dbl.zero, Dbl.zero⟩, omegai := ⟨Dbl.zero, Dbl.zero, Dbl.zero⟩,
    omegaj := ⟨Dbl.zero, Dbl.zero, Dbl.zero⟩, radi := Dbl.zero, radj := Dbl.zero,
    radsum := Dbl.zero, Reff := Dbl.zero, rsq := Dbl.zero, r := Dbl.zero, rinv := Dbl.zero,
    delta := Dbl.zero, dR := Dbl.zero, nx := ⟨Dbl.zero, Dbl.zero, Dbl.zero⟩,
    vr := ⟨Dbl.zero, Dbl.zero, Dbl.zero⟩, vnnr := Dbl.zero,
    vn := ⟨Dbl.zero, Dbl.zero, Dbl.zero⟩, vt := ⟨Dbl.zero, Dbl.zero, Dbl.zero⟩,
    wr := ⟨Dbl.zero, Dbl.zero, Dbl.zero⟩, vtr := ⟨Dbl.zero, Dbl.zero, Dbl.zero⟩,
    vrel := Dbl.zero, relrot := ⟨Dbl.zero, Dbl.zero, Dbl.zero⟩,
    vrl := ⟨Dbl.zero, Dbl.zero, Dbl.zero⟩, magtwist := Dbl.zero,
    forces := ⟨Dbl.zero, Dbl.zero, Dbl.zero⟩, area := Dbl.zero, Fntot := Dbl.zero }

/-- Sample hooks: the area is `dR`, the elastic force `1000 * delta` and the damping force
`-50 * vnnr`. -/
def sampleHooks64 : Hooks64 where
  calculate_area := fun c => c.dR
  normal_forces := fun c => Dbl.mul (Dbl.ofInt 1000) c.delta
  damping_forces := fun c => Dbl.mul (Dbl.neg (Dbl.ofInt 50)) c.vnnr

/-- Two spheres of radius 1 with coincident centres, the first moving at velocity
`(1, 0, 0)`, with `limit_damping` set, before `check_contact`. -/
def coincident64 : Contact64 :=
  { Contact64.new with
    limit_damping := 1, radi := Dbl.one, radj := Dbl.one, vi := ⟨Dbl.one, Dbl.zero, Dbl.zero⟩ }

/-- Two spheres of radius 4 with centres `(2, 3, 6)` and the origin, the first with
velocity `(0.1, 0.7, 0.1)` and angular velocity `(1, 2, 3)`, Rolling active, before
`check_contact`. -/
def pair64 : Contact64 :=
  { Contact64.new with
    rolling_defined := 1
    xi := ⟨Dbl.ofInt 2, Dbl.ofInt 3, Dbl.ofInt 6⟩
    radi := Dbl.ofInt 4
    radj := Dbl.ofInt 4
    vi := ⟨Dbl.div (Dbl.ofInt 1) (Dbl.ofInt 10), Dbl.div (Dbl.ofInt 7) (Dbl.ofInt 10),
      Dbl.div (Dbl.ofInt 1) (Dbl.ofInt 10)⟩
    omegai := ⟨Dbl.ofInt 1, Dbl.ofInt 2, Dbl.ofInt 3⟩ }

/-- The contact of `pair64` with `limit_damping` set and the first sphere moving away
from the second at velocity `(30, 30, 30)`. -/
def clip64 : Contact64 :=
  { pair64 with
    limit_damping := 1, vi := ⟨Dbl.ofInt 30, Dbl.ofInt 30, Dbl.ofInt 30⟩ }

/-- A particle-particle contact on `sampleCoeffs` (elastic coefficient 1000, damping
coefficient 50) with `limit_damping` set: two spheres of radius 1 with centres `(1, 0, 0)`
and the origin, the first moving away at velocity `(30, 0, 0)`, after `check_contact`. -/
def clipContact : GranularModel :=
  check_contact sampleExt
    { sampleCoeffs with
      limit_damping := 1, xi := ⟨1, 0, 0⟩, radi := 1, radj := 1, vi := ⟨30, 0, 0⟩ }

/-- Two spheres of radius 1 on the initialised coordinator `sampleInit` with centres
`(1, 1, 0)` and the origin, with Rolling active, the first with velocity `(1, 2, 3)` and
angular velocity `(3, 1, 2)`, before `check_contact`. -/
def apart : GranularModel :=
  { sampleInit with
    rolling_defined := 1, xi := ⟨1, 1, 0⟩, radi := 1, radj := 1, vi := ⟨1, 2, 3⟩,
    omegai := ⟨3, 1, 2⟩ }

/-- An SDS twisting state with `k = 49`, no damping, `mu = 1`, `Fncrit = 1`, twist angle 1
stored in slot 0, twist rate 1 and `history_update` off. -/
def round64 : Twist64 :=
  { k := Dbl.ofInt 49, damp := Dbl.zero, mu := Dbl.one, history_index := 0, Fncrit := Dbl.one,
    history := [Dbl.one, Dbl.zero, Dbl.zero], history_update := false, magtwist := Dbl.one,
    dt := Dbl.one, magtortwist := Dbl.zero }

/-- An SDS twisting state with the accepted coefficients `[0, 1, 1]` (`k = 0`, `damp = 1`,
`mu = 1`), `Fncrit = 1`, twist angle 5 stored in slot 0, twist rate 3 and
`history_update` off. -/
def zeroStiff64 : Twist64 :=
  { k := Dbl.zero, damp := Dbl.one, mu := Dbl.one, history_index := 0, Fncrit := Dbl.one,
    history := [Dbl.ofInt 5, Dbl.zero, Dbl.zero], history_update := false,
    magtwist := Dbl.ofInt 3, dt := Dbl.one, magtortwist := Dbl.zero }

/-- The values that `init_classic_model` reads from `hooke 100 NULL 0 NULL 0.5 1`:
`kt = kn * 2.0 / 7.0` and `gammat = 0.5 * gamman` for the two `NULL` tokens. -/
def classicZero64 : ClassicArgs64 :=
  { kn := Dbl.ofInt 100, kt := Dbl.div (Dbl.mul (Dbl.ofInt 100) (Dbl.ofInt 2)) (Dbl.ofInt 7),
    gamman := Dbl.zero, gammat := Dbl.mul Dbl.half Dbl.zero, xmu := Dbl.half, dampflag := 1 }

/-! ## Theorems -/

theorem select_class_ok_iff (name : String) (t : SubmodelType) :
    (∃ v, select_class name t = .ok v) ↔ name ∈ registered t := by
  cases t <;>
    simp only [select_class, normal_class, tangential_class, damping_class, rolling_class,
      twisting_class, heat_class, registered, List.mem_cons, List.mem_singleton,
      List.not_mem_nil, or_false] <;>
    split_ifs <;> simp_all

theorem sub_models_set_same (gm : GranularModel) (t : SubmodelType) (m : GSM) :
    sub_models (set_sub_model gm t m) t = some m := by
  cases t <;> rfl

theorem sub_models_set_other (gm : GranularModel) (t u : SubmodelType) (m : GSM) (h : u ≠ t) :
    sub_models (set_sub_model gm t m) u = sub_models gm u := by
  cases t <;> cases u <;> first | rfl | exact absurd rfl h

theorem sub_models_set_defined (gm : GranularModel) (t u : SubmodelType) (nm : String) :
    sub_models (set_defined gm t nm) u = sub_models gm u := by
  cases t <;> cases u <;> rfl

theorem construct_submodel_of_class (ext : Ext) (name : String) (t : SubmodelType)
    (gm : GranularModel) (v : Variant) (h : select_class name t = .ok v) :
    construct_submodel ext name t gm =
      .ok (set_sub_model (set_defined gm t name) t (GSM.named ext v name)) := by
  simp [construct_submodel, h]

theorem select_class_none (t : SubmodelType) : ∃ v, select_class "none" t = .ok v := by
  cases t <;>
    simp [select_class, normal_class, tangential_class, damping_class, rolling_class,
      twisting_class, heat_class]

theorem construct_submodel_none (ext : Ext) (t : SubmodelType) (gm : GranularModel) :
    ∃ m, m.name = "none" ∧
      construct_submodel ext "none" t gm = .ok (set_sub_model (set_defined gm t "none") t m) := by
  obtain ⟨v, hv⟩ := select_class_none t
  exact ⟨_, rfl, construct_submodel_of_class ext "none" t gm v hv⟩

theorem set_sub_model_limit_damping (gm : GranularModel) (t : SubmodelType) (m : GSM) :
    (set_sub_model gm t m).limit_damping = gm.limit_damping := by
  cases t <;> rfl

theorem set_defined_limit_damping (gm : GranularModel) (t : SubmodelType) (nm : String) :
    (set_defined gm t nm).limit_damping = gm.limit_damping := by
  cases t <;> rfl

theorem default_none_spec (ext : Ext) (ts : List SubmodelType) (gm : GranularModel) :
    ∃ gm1, default_none ext ts gm = .ok gm1 ∧ gm1.limit_damping = gm.limit_damping ∧
      (∀ t m, sub_models gm t = some m → sub_models gm1 t = some m) ∧
      (∀ t ∈ ts, ∃ m, sub_models gm1 t = some m) ∧
      (∀ t m, sub_models gm1 t = some m → sub_models gm t = some m ∨ m.name = "none") := by
  induction ts generalizing gm with
  | nil => exact ⟨gm, rfl, rfl, fun _ _ h => h, by simp, fun _ _ h => Or.inl h⟩
  | cons t ts ih =>
    cases hs : sub_models gm t with
    | some m0 =>
      obtain ⟨gm1, h1, h2, h3, h4, h5⟩ := ih gm
      refine ⟨gm1, by simp [default_none, hs, h1], h2, h3, ?_, h5⟩
      intro u hu
      rcases List.mem_cons.1 hu with rfl | hu
      · exact ⟨m0, h3 _ _ hs⟩
      · exact h4 u hu
    | none =>
      obtain ⟨m, hm, hc⟩ := construct_submodel_none ext t gm
      obtain ⟨gm1, h1, h2, h3, h4, h5⟩ := ih (set_sub_model (set_defined gm t "none") t m)
      refine ⟨gm1, by simp [default_none, hs, hc, h1], ?_, ?_, ?_, ?_⟩
      · rw [h2, set_sub_model_limit_damping, set_defined_limit_damping]
      · intro u mu hu
        apply h3
        have hne : u ≠ t := by
          rintro rfl
          rw [hs] at hu
          cases hu
        rw [sub_models_set_other _ _ _ _ hne, sub_models_set_defined]
        exact hu
      · intro u hu
        rcases List.mem_cons.1 hu with rfl | hu
        · exact ⟨m, h3 _ _ (sub_models_set_same _ _ _)⟩
        · exact h4 u hu
      · intro u mu hu
        rcases h5 u mu hu with h | h
        · by_cases hne : u = t
          · subst hne
            rw [sub_models_set_same] at h
            cases h
            exact Or.inr hm
          · rw [sub_models_set_other _ _ _ _ hne, sub_models_set_defined] at h
            exact Or.inl h
        · exact Or.inr h

theorem init_accumulate_sub_models (gm : GranularModel) (m : GSM) (t : SubmodelType) :
    sub_models (init_accumulate gm m) t = sub_models gm t := by
  unfold init_accumulate
  cases t <;> simp only [sub_models] <;> split_ifs <;> rfl

theorem init_accumulate_limit_damping (gm : GranularModel) (m : GSM) :
    (init_accumulate gm m).limit_damping = gm.limit_damping := by
  unfold init_accumulate
  simp only
  split_ifs <;> rfl

theorem init_accumulate_size_history (gm : GranularModel) (m : GSM) :
    (init_accumulate gm m).size_history = gm.size_history + m.size_history := by
  unfold init_accumulate
  simp only
  split_ifs <;> rfl

theorem declared_size_history_congr (gm gm2 : GranularModel)
    (h : ∀ t, sub_models gm2 t = sub_models gm t) (t : SubmodelType) :
    declared_size_history gm2 t = declared_size_history gm t := by
  simp [declared_size_history, h]

theorem init_loop_ok_spec (ts : List SubmodelType) (gm gm2 : GranularModel)
    (h : init_loop ts gm = .ok gm2) :
    (∀ t, sub_models gm2 t = sub_models gm t) ∧
      gm2.limit_damping = gm.limit_damping ∧
      gm2.size_history = gm.size_history + (ts.map (declared_size_history gm)).sum := by
  induction ts generalizing gm with
  | nil =>
    simp only [init_loop, Except.ok.injEq] at h
    subst h
    simp
  | cons t ts ih =>
    unfold init_loop at h
    cases hs : sub_models gm t with
    | none => simp [hs] at h
    | some m =>
      simp only [hs] at h
      split_ifs at h
      obtain ⟨h1, h2, h3⟩ := ih _ h
      refine ⟨fun u => ?_, ?_, ?_⟩
      · rw [h1, init_accumulate_sub_models]
      · rw [h2, init_accumulate_limit_damping]
      · rw [h3, init_accumulate_size_history, List.map_cons, List.sum_cons]
        have : ts.map (declared_size_history (init_accumulate gm m))
            = ts.map (declared_size_history gm) :=
          List.map_congr_left fun u _ =>
            declared_size_history_congr _ _ (init_accumulate_sub_models gm m) u
        rw [this]
        simp only [declared_size_history, hs]
        ring

theorem init_loop_succeeds (ts : List SubmodelType) (gm : GranularModel)
    (hall : ∀ t ∈ ts, ∃ m, sub_models gm t = some m)
    (hlim : gm.limit_damping = 0 ∨
      ∀ t ∈ ts, ∀ m, sub_models gm t = some m → m.allow_limit_damping ≠ 0) :
    ∃ gm2, init_loop ts gm = .ok gm2 := by
  induction ts generalizing gm with
  | nil => exact ⟨gm, rfl⟩
  | cons t ts ih =>
    obtain ⟨m, hm⟩ := hall t (List.mem_cons_self _ _)
    unfold init_loop
    simp only [hm, init_accumulate_limit_damping]
    have hno : ¬ (gm.limit_damping ≠ 0 ∧ m.allow_limit_damping = 0) := by
      rintro ⟨h1, h2⟩
      rcases hlim with h | h
      · exact h1 h
      · exact h t (List.mem_cons_self _ _) m hm h2
    rw [if_neg hno]
    apply ih
    · intro u hu
      rw [init_accumulate_sub_models]
      exact hall u (List.mem_cons_of_mem _ hu)
    · rcases hlim with h | h
      · left
        rw [init_accumulate_limit_damping]
        exact h
      · right
        intro u hu mu hmu
        rw [init_accumulate_sub_models] at hmu
        exact h u (List.mem_cons_of_mem _ hu) mu hmu

theorem init_loop_rejects (ts : List SubmodelType) (gm : GranularModel)
    (hall : ∀ t ∈ ts, ∃ m, sub_models gm t = some m)
    (hlim : gm.limit_damping ≠ 0)
    (hbad : ∃ t ∈ ts, ∃ m, sub_models gm t = some m ∧ m.allow_limit_damping = 0) :
    ∃ nm, init_loop ts gm = .error ("Cannot limit damping with " ++ nm ++ " model") := by
  induction ts generalizing gm with
  | nil =>
    obtain ⟨t, ht, _⟩ := hbad
    cases ht
  | cons t ts ih =>
    obtain ⟨m, hm⟩ := hall t (List.mem_cons_self _ _)
    unfold init_loop
    simp only [hm, init_accumulate_limit_damping]
    by_cases hz : m.allow_limit_damping = 0
    · exact ⟨m.name, by rw [if_pos ⟨hlim, hz⟩]⟩
    · rw [if_neg (fun h => hz h.2)]
      apply ih
      · intro u hu
        rw [init_accumulate_sub_models]
        exact hall u (List.mem_cons_of_mem _ hu)
      · rw [init_accumulate_limit_damping]
        exact hlim
      · obtain ⟨u, hu, mu, hmu, hmz⟩ := hbad
        rcases List.mem_cons.1 hu with rfl | hu
        · rw [hm] at hmu
          cases hmu
          exact absurd hmz hz
        · exact ⟨u, hu, mu, by rw [init_accumulate_sub_models]; exact hmu, hmz⟩

theorem sub_init_size_history (ext : Ext) (gm : GranularModel) (m : GSM) :
    (sub_init ext gm m).size_history = m.size_history ∧ (sub_init ext gm m).name = m.name := by
  unfold sub_init
  split
  · split <;> exact ⟨rfl, rfl⟩
  all_goals exact ⟨rfl, rfl⟩

theorem set_sub_model_size_history (gm : GranularModel) (t : SubmodelType) (m : GSM) :
    (set_sub_model gm t m).size_history = gm.size_history := by
  cases t <;> rfl

theorem init_hooks_spec (ext : Ext) (ts : List SubmodelType) (gm : GranularModel) :
    (init_hooks ext ts gm).size_history = gm.size_history ∧
      (∀ t, declared_size_history (init_hooks ext ts gm) t = declared_size_history gm t) ∧
      (∀ t, (sub_models (init_hooks ext ts gm) t).isSome = (sub_models gm t).isSome) := by
  induction ts generalizing gm with
  | nil => exact ⟨rfl, fun _ => rfl, fun _ => rfl⟩
  | cons t ts ih =>
    unfold init_hooks
    cases hs : sub_models gm t with
    | none => exact ih gm
    | some m =>
      simp only
      obtain ⟨h1, h2, h3⟩ := ih (set_sub_model gm t (sub_init ext gm m))
      refine ⟨by rw [h1, set_sub_model_size_history], fun u => ?_, fun u => ?_⟩
      · rw [h2]
        by_cases hu : u = t
        · subst hu
          simp [declared_size_history, sub_models_set_same, hs, sub_init_size_history]
        · simp [declared_size_history, sub_models_set_other _ _ _ _ hu]
      · rw [h3]
        by_cases hu : u = t
        · subst hu
          simp [sub_models_set_same, hs]
        · simp [sub_models_set_other _ _ _ _ hu]

theorem init_transfer_spec (gm : GranularModel) :
    (init_transfer gm).size_history = gm.size_history ∧
      (∀ t, sub_models (init_transfer gm) t = sub_models gm t) := by
  unfold init_transfer
  split_ifs
  · exact ⟨rfl, fun t => by cases t <;> rfl⟩
  · exact ⟨rfl, fun _ => rfl⟩

theorem construct_submodel_ok_iff (ext : Ext) (name : String) (t : SubmodelType)
    (gm : GranularModel) :
    (∃ gm', construct_submodel ext name t gm = .ok gm') ↔
      ∃ v, select_class name t = .ok v := by
  unfold construct_submodel
  cases select_class name t <;> simp

theorem cannot_limit_ne (nm : String) (s : String) (hs : s.data.head? ≠ some 'C') :
    s ≠ "Cannot limit damping with " ++ nm ++ " model" := by
  intro h
  apply hs
  rw [h]
  simp [String.data_append]

/-- C6: `construct_submodel(name, category)` succeeds exactly when the name is registered
for the category, raises an error for every other name, and on success the submodel of
the category carries the requested name. -/
theorem construct_submodel_registered (ext : Ext) (name : String) (t : SubmodelType)
    (gm : GranularModel) :
    ((∃ gm', construct_submodel ext name t gm = .ok gm') ↔ name ∈ registered t) ∧
      (name ∉ registered t → ∃ e, construct_submodel ext name t gm = .error e) ∧
      (∀ gm', construct_submodel ext name t gm = .ok gm' → sub_name gm' t = some name) := by
  have h1 : (∃ gm', construct_submodel ext name t gm = .ok gm') ↔ name ∈ registered t :=
    (construct_submodel_ok_iff ext name t gm).trans (select_class_ok_iff name t)
  refine ⟨h1, fun hn => ?_, fun gm' h => ?_⟩
  · cases hc : construct_submodel ext name t gm with
    | error e => exact ⟨e, rfl⟩
    | ok gm' => exact absurd (h1.1 ⟨gm', hc⟩) hn
  · obtain ⟨v, hv⟩ := (construct_submodel_ok_iff ext name t gm).1 ⟨gm', h⟩
    rw [construct_submodel_of_class ext name t gm v hv] at h
    cases h
    simp [sub_name, sub_models_set_same, GSM.named]

/-- C6 (witness): `velocity` is not a Normal name, and `construct_submodel` rejects it there. -/
theorem construct_submodel_registered_witness :
    "velocity" ∉ registered .NORMAL ∧
      (∃ e, construct_submodel sampleExt "velocity" .NORMAL GranularModel.new = .error e) :=
  ⟨by decide,
    (construct_submodel_registered sampleExt "velocity" .NORMAL GranularModel.new).2.1
      (by decide)⟩

theorem init_eq_of_default (ext : Ext) (gm gm1 : GranularModel) (n d t : GSM)
    (h1 : default_none ext submodelOrder gm = .ok gm1)
    (hn : gm1.normal_model = some n) (hd : gm1.damping_model = some d)
    (ht : gm1.tangential_model = some t) :
    init ext gm =
      if n.name = "none" then .error "Must specify normal granular model"
      else if d.name = "none" then .error "Must specify damping granular model"
      else if t.name = "none" then .error "Must specify tangential granular model"
      else
        match init_loop submodelOrder (reset_size_history gm1) with
        | .error e => .error e
        | .ok gm2 => .ok (init_hooks ext submodelOrder (init_transfer gm2)) := by
  unfold init
  rw [h1]
  simp only
  split
  · rename_i n1 d1 t1 e1 e2 e3
    rw [hn] at e1
    rw [hd] at e2
    rw [ht] at e3
    cases e1
    cases e2
    cases e3
    rfl
  · rename_i hno
    exact absurd ht (hno n d t hn hd)

theorem default_none_required (ext : Ext) (gm gm1 : GranularModel)
    (h1 : default_none ext submodelOrder gm = .ok gm1) :
    ∃ n d t, gm1.normal_model = some n ∧ gm1.damping_model = some d ∧
      gm1.tangential_model = some t := by
  obtain ⟨g, hg, -, -, h4, -⟩ := default_none_spec ext submodelOrder gm
  rw [h1] at hg
  cases hg
  obtain ⟨n, hn⟩ := h4 .NORMAL (by decide)
  obtain ⟨d, hd⟩ := h4 .DAMPING (by decide)
  obtain ⟨t, ht⟩ := h4 .TANGENTIAL (by decide)
  exact ⟨n, d, t, hn, hd, ht⟩

theorem sub_models_reset_size (gm : GranularModel) (t : SubmodelType) :
    sub_models (reset_size_history gm) t = sub_models gm t := by
  cases t <;> rfl

/-- C7: `init()` raises an error whenever, after the unset categories have been defaulted
to `none`, the Normal, the Damping or the Tangential submodel is named `none`; when these
three are not `none` and no limit-damping conflict exists, `init()` succeeds whatever the
Rolling, Twisting and Heat submodels are, in particular when they are `none`. -/
theorem init_requires_normal_damping_tangential (ext : Ext) (gm : GranularModel) :
    (∃ gm1, default_none ext submodelOrder gm = .ok gm1) ∧
    (∀ gm1, default_none ext submodelOrder gm = .ok gm1 →
      (sub_name gm1 .NORMAL = some "none" ∨ sub_name gm1 .DAMPING = some "none" ∨
        sub_name gm1 .TANGENTIAL = some "none") →
      (init ext gm = .error "Must specify normal granular model" ∨
        init ext gm = .error "Must specify damping granular model" ∨
        init ext gm = .error "Must specify tangential granular model")) ∧
    (∀ gm1, default_none ext submodelOrder gm = .ok gm1 →
      sub_name gm1 .NORMAL ≠ some "none" → sub_name gm1 .DAMPING ≠ some "none" →
      sub_name gm1 .TANGENTIAL ≠ some "none" →
      (gm.limit_damping = 0 ∨
        ∀ u m, sub_models gm1 u = some m → m.allow_limit_damping ≠ 0) →
      ∃ gm', init ext gm = .ok gm') := by
  refine ⟨?_, fun gm1 h1 hnone => ?_, fun gm1 h1 hn hd ht hlim => ?_⟩
  · obtain ⟨g, hg, -⟩ := default_none_spec ext submodelOrder gm
    exact ⟨g, hg⟩
  · obtain ⟨n, d, t, en, ed, et⟩ := default_none_required ext gm gm1 h1
    rw [init_eq_of_default ext gm gm1 n d t h1 en ed et]
    simp only [sub_name, sub_models, en, ed, et, Option.map_some', Option.some.injEq] at hnone
    by_cases c1 : n.name = "none"
    · left; rw [if_pos c1]
    · by_cases c2 : d.name = "none"
      · right; left; rw [if_neg c1, if_pos c2]
      · have c3 : t.name = "none" := by tauto
        right; right; rw [if_neg c1, if_neg c2, if_pos c3]
  · obtain ⟨n, d, t, en, ed, et⟩ := default_none_required ext gm gm1 h1
    rw [init_eq_of_default ext gm gm1 n d t h1 en ed et]
    simp only [sub_name, sub_models, en, ed, et, Option.map_some', ne_eq,
      Option.some.injEq] at hn hd ht
    rw [if_neg hn, if_neg hd, if_neg ht]
    obtain ⟨g, hg, hl, -, h4, -⟩ := default_none_spec ext submodelOrder gm
    rw [h1] at hg
    cases hg
    obtain ⟨gm2, h2⟩ := init_loop_succeeds submodelOrder (reset_size_history gm1)
      (fun u hu => by rw [sub_models_reset_size]; exact h4 u hu)
      (by
        rcases hlim with h | h
        · left; show gm1.limit_damping = 0; rw [hl]; exact h
        · right; intro u _ m hm; rw [sub_models_reset_size] at hm; exact h u m hm)
    rw [h2]
    exact ⟨_, rfl⟩

/-- C7 (witness): `init()` succeeds on `sampleModel`, whose Rolling and Heat categories
are unset. -/
theorem init_requires_normal_damping_tangential_witness :
    ∃ gm', init sampleExt sampleModel = .ok gm' :=
  (init_requires_normal_damping_tangential sampleExt sampleModel).2.2
    (constructed sampleExt "none" .HEAT (constructed sampleExt "none" .ROLLING sampleModel))
    (by rfl) (by decide) (by decide) (by decide) (Or.inl (by decide))

/-- C8 (as stated, refuted): with `limit_damping` set and a Normal submodel that declares
`allow_limit_damping = 0`, `init()` fails with the missing-tangential error, not with the
"Cannot limit damping" error, when no Tangential submodel has been chosen. -/
theorem init_cannot_limit_damping_counterexample :
    jkrNoTangential.limit_damping ≠ 0 ∧
      (∃ m, jkrNoTangential.normal_model = some m ∧ m.allow_limit_damping = 0) ∧
      init sampleExt jkrNoTangential = .error "Must specify tangential granular model" ∧
      ∀ nm, init sampleExt jkrNoTangential ≠
        .error ("Cannot limit damping with " ++ nm ++ " model") := by
  have h : init sampleExt jkrNoTangential = .error "Must specify tangential granular model" := by
    rfl
  refine ⟨by decide, ⟨_, rfl, by decide⟩, h, fun nm hc => ?_⟩
  rw [h] at hc
  exact cannot_limit_ne nm _ (by decide) (Except.error.inj hc)


/-- C8 (amended): when Normal, Damping and Tangential are all chosen (not `none`),
`limit_damping` is set and the Normal or the Damping submodel declares
`allow_limit_damping = 0`, `init()` fails with the "Cannot limit damping" error; when
`limit_damping` is 0, `init()` never fails with that error; `calculate_forces` always
returns, it raises no error. -/
theorem init_cannot_limit_damping (ext : Ext) (gm : GranularModel) :
    (∀ gm1, default_none ext submodelOrder gm = .ok gm1 →
      sub_name gm1 .NORMAL ≠ some "none" → sub_name gm1 .DAMPING ≠ some "none" →
      sub_name gm1 .TANGENTIAL ≠ some "none" →
      gm.limit_damping ≠ 0 →
      (∃ m, (gm1.normal_model = some m ∨ gm1.damping_model = some m) ∧
        m.allow_limit_damping = 0) →
      ∃ nm, init ext gm = .error ("Cannot limit damping with " ++ nm ++ " model")) ∧
    (gm.limit_damping = 0 →
      ∀ nm, init ext gm ≠ .error ("Cannot limit damping with " ++ nm ++ " model")) ∧
    (∃ gm', calculate_forces ext gm = .ok gm') := by
  refine ⟨fun gm1 h1 hn hd ht hlim hbad => ?_, fun hlim nm hc => ?_, ⟨_, rfl⟩⟩
  · obtain ⟨n, d, t, en, ed, et⟩ := default_none_required ext gm gm1 h1
    rw [init_eq_of_default ext gm gm1 n d t h1 en ed et]
    simp only [sub_name, sub_models, en, ed, et, Option.map_some', ne_eq,
      Option.some.injEq] at hn hd ht
    rw [if_neg hn, if_neg hd, if_neg ht]
    obtain ⟨g, hg, hl, -, h4, -⟩ := default_none_spec ext submodelOrder gm
    rw [h1] at hg
    cases hg
    obtain ⟨nm, h2⟩ := init_loop_rejects submodelOrder (reset_size_history gm1)
      (fun u hu => by rw [sub_models_reset_size]; exact h4 u hu)
      (by show gm1.limit_damping ≠ 0; rw [hl]; exact hlim)
      (by
        obtain ⟨m, hm, hz⟩ := hbad
        rcases hm with hm | hm
        · exact ⟨.NORMAL, by decide, m, by rw [sub_models_reset_size]; exact hm, hz⟩
        · exact ⟨.DAMPING, by decide, m, by rw [sub_models_reset_size]; exact hm, hz⟩)
    rw [h2]
    exact ⟨nm, rfl⟩
  · obtain ⟨gm1, h1, hl, -, h4, -⟩ := default_none_spec ext submodelOrder gm
    obtain ⟨n, d, t, en, ed, et⟩ := default_none_required ext gm gm1 h1
    rw [init_eq_of_default ext gm gm1 n d t h1 en ed et] at hc
    obtain ⟨gm2, h2⟩ := init_loop_succeeds submodelOrder (reset_size_history gm1)
      (fun u hu => by rw [sub_models_reset_size]; exact h4 u hu)
      (Or.inl (by show gm1.limit_damping = 0; rw [hl]; exact hlim))
    rw [h2] at hc
    split_ifs at hc <;> exact cannot_limit_ne nm _ (by decide) (Except.error.inj hc)

/-- C8 (witness): with `jkr`, `velocity`, `linear_nohistory` and `limit_damping` set,
`init()` fails with the "Cannot limit damping" error. -/
theorem init_cannot_limit_damping_witness :
    ∃ nm, init sampleExt { constructed sampleExt "linear_nohistory" .TANGENTIAL jkrNoTangential
        with limit_damping := 1 } =
      .error ("Cannot limit damping with " ++ nm ++ " model") :=
  (init_cannot_limit_damping sampleExt _).1
    (constructed sampleExt "none" .HEAT (constructed sampleExt "none" .TWISTING
      (constructed sampleExt "none" .ROLLING
        { constructed sampleExt "linear_nohistory" .TANGENTIAL jkrNoTangential
          with limit_damping := 1 })))
    (by rfl) (by decide) (by decide) (by decide) (by decide) ⟨_, Or.inl rfl, by decide⟩

/-- C9: after `init()` succeeds all six submodels are present and `size_history` is the
sum of their declared `size_history`; a Twisting submodel constructed as `sds` or
`marshall` declares 3. -/
theorem init_size_history_is_sum (ext : Ext) (gm : GranularModel) :
    (∀ gm', init ext gm = .ok gm' →
      (∀ t, ∃ m, sub_models gm' t = some m) ∧
      gm'.size_history =
        declared_size_history gm' .NORMAL + declared_size_history gm' .TANGENTIAL +
        declared_size_history gm' .DAMPING + declared_size_history gm' .ROLLING +
        declared_size_history gm' .TWISTING + declared_size_history gm' .HEAT) ∧
    (∃ g, construct_submodel ext "sds" .TWISTING gm = .ok g ∧
      declared_size_history g .TWISTING = 3) ∧
    (∃ g, construct_submodel ext "marshall" .TWISTING gm = .ok g ∧
      declared_size_history g .TWISTING = 3) := by
  refine ⟨fun gm' h => ?_, ⟨_, rfl, rfl⟩, ⟨_, rfl, rfl⟩⟩
  obtain ⟨gm1, h1, -, -, h4, -⟩ := default_none_spec ext submodelOrder gm
  obtain ⟨n, d, t, en, ed, et⟩ := default_none_required ext gm gm1 h1
  rw [init_eq_of_default ext gm gm1 n d t h1 en ed et] at h
  split_ifs at h
  cases h2 : init_loop submodelOrder (reset_size_history gm1) with
  | error e => rw [h2] at h; cases h
  | ok gm2 =>
    rw [h2] at h
    cases h
    obtain ⟨s1, -, s3⟩ := init_loop_ok_spec _ _ _ h2
    obtain ⟨t1, t2⟩ := init_transfer_spec gm2
    obtain ⟨k1, k2, k3⟩ := init_hooks_spec ext submodelOrder (init_transfer gm2)
    have hd : ∀ u, declared_size_history (init_hooks ext submodelOrder (init_transfer gm2)) u
        = declared_size_history gm1 u := fun u => by
      rw [k2, declared_size_history_congr gm2 _ t2, declared_size_history_congr _ gm2 s1]
      simp [declared_size_history, sub_models_reset_size]
    refine ⟨fun u => ?_, ?_⟩
    · have := k3 u
      rw [t2, s1, sub_models_reset_size] at this
      obtain ⟨m, hm⟩ := h4 u (by cases u <;> decide)
      rw [hm] at this
      exact Option.isSome_iff_exists.1 this
    · rw [k1, t1, s3]
      simp only [hd]
      have hc : ∀ u, declared_size_history (reset_size_history gm1) u
          = declared_size_history gm1 u := fun u => by
        simp [declared_size_history, sub_models_reset_size]
      have hz : (reset_size_history gm1).size_history = 0 := rfl
      simp only [submodelOrder, List.map_cons, List.map_nil, List.sum_cons, List.sum_nil, hc, hz]
      ring

/-- C9 (witness): `init()` on `sampleModel` gives `size_history = 3`, the history of the
`sds` twisting submodel. -/
theorem init_size_history_is_sum_witness :
    init sampleExt sampleModel = .ok sampleInit ∧ sampleInit.size_history = 3 :=
  ⟨rfl, ((init_size_history_is_sum sampleExt sampleModel).1 sampleInit rfl).2.trans (by decide)⟩

theorem twisting_forces_Fntot (gm : GranularModel) : (twisting_forces gm).Fntot = gm.Fntot := by
  unfold twisting_forces
  split
  · rfl
  · split
    · unfold GSMTwistingSDS.calculate_forces
      simp only
      split_ifs <;> rfl
    · unfold GSMTwistingMarshall.calculate_forces
      simp only
      split_ifs <;> rfl
    · rfl

theorem submodel_forces_Fntot (ext : Ext) (gm : GranularModel) :
    (submodel_forces ext gm).Fntot = gm.Fntot := by
  unfold submodel_forces
  simp only
  split_ifs <;> first | rfl | (rw [twisting_forces_Fntot])

theorem sum_contributions_Fntot (gm : GranularModel) :
    (sum_contributions gm).Fntot = gm.Fntot := rfl

theorem heat_flow_Fntot (ext : Ext) (gm : GranularModel) :
    (heat_flow ext gm).Fntot = gm.Fntot := by
  unfold heat_flow
  split_ifs <;> rfl

theorem contact_area_limit_damping (ext : Ext) (gm : GranularModel) :
    (contact_area ext (kinematics ext gm)).limit_damping = gm.limit_damping := rfl

/-- The receiver after one pass of the loop of `mix_coeffs` -/
theorem mix_pass_frame (gm : GranularModel) (t : SubmodelType) (nm : String) (a b : GSM) :
    (set_sub_model (set_sub_model (set_defined gm t nm) t a) t b).limit_damping
        = gm.limit_damping ∧
      (∀ u, u ≠ t →
        sub_models (set_sub_model (set_sub_model (set_defined gm t nm) t a) t b) u
          = sub_models gm u) ∧
      sub_models (set_sub_model (set_sub_model (set_defined gm t nm) t a) t b) t = some b := by
  refine ⟨?_, fun u hu => ?_, sub_models_set_same _ _ _⟩
  · rw [set_sub_model_limit_damping, set_sub_model_limit_damping, set_defined_limit_damping]
  · rw [sub_models_set_other _ _ _ _ hu, sub_models_set_other _ _ _ _ hu, sub_models_set_defined]

theorem mix_loop_cons_differ (ext : Ext) (g1 g2 gm : GranularModel) (t : SubmodelType)
    (ts : List SubmodelType) (m1 m2 : GSM) (h1 : sub_models g1 t = some m1)
    (h2 : sub_models g2 t = some m2) (hn : m1.name ≠ m2.name) :
    mix_loop ext g1 g2 (t :: ts) gm = .ok (t.toIndex, gm) := by
  unfold mix_loop
  simp only [h1, h2]
  rw [if_pos hn]

theorem mix_loop_cons_agree (ext : Ext) (g1 g2 gm : GranularModel) (t : SubmodelType)
    (ts : List SubmodelType) (m1 m2 : GSM) (v : Variant) (r : List ℚ × Locals)
    (h1 : sub_models g1 t = some m1) (h2 : sub_models g2 t = some m2)
    (hn : m1.name = m2.name) (hv : select_class m1.name t = .ok v)
    (hr : ext.mix_coeffs v m1.coeffs m2.coeffs = .ok r) :
    ∃ m, m.name = m1.name ∧ m.cls = v ∧
      mix_loop ext g1 g2 (t :: ts) gm =
        mix_loop ext g1 g2 ts
          (set_sub_model (set_sub_model (set_defined gm t m1.name) t
            (GSM.named ext v m1.name)) t m) := by
  refine ⟨{ GSM.named ext v m1.name with
    coeffs := r.1, k := r.2.k, damp := r.2.damp, mu := r.2.mu }, rfl, rfl, ?_⟩
  conv_lhs => unfold mix_loop
  simp only [h1, h2]
  rw [if_neg (not_not.2 hn), construct_submodel_of_class ext m1.name t gm v hv]
  simp only [sub_models_set_same, GSM.mix_coeffs]
  have : (GSM.named ext v m1.name).cls = v := rfl
  simp only [this, hr]

theorem mix_loop_cons_inv (ext : Ext) (g1 g2 gm gm' : GranularModel) (t : SubmodelType)
    (ts : List SubmodelType) (i : Int)
    (h : mix_loop ext g1 g2 (t :: ts) gm = .ok (i, gm')) :
    (i = t.toIndex ∧ gm' = gm) ∨
      ∃ gmt, mix_loop ext g1 g2 ts gmt = .ok (i, gm') ∧
        gmt.limit_damping = gm.limit_damping ∧
        ∀ u, u ≠ t → sub_models gmt u = sub_models gm u := by
  unfold mix_loop at h
  split at h
  · rename_i m1 m2 h1 h2
    split_ifs at h with hn
    · left
      cases h
      exact ⟨rfl, rfl⟩
    · right
      cases hc : construct_submodel ext m1.name t gm with
      | error e => rw [hc] at h; cases h
      | ok gm1 =>
        obtain ⟨v, hv⟩ := (construct_submodel_ok_iff ext m1.name t gm).1 ⟨gm1, hc⟩
        rw [construct_submodel_of_class ext m1.name t gm v hv] at hc
        cases hc
        rw [construct_submodel_of_class ext m1.name t gm v hv] at h
        simp only [sub_models_set_same] at h
        cases hm : GSM.mix_coeffs ext (GSM.named ext v m1.name)
            m1.coeffs m2.coeffs with
        | error e => rw [hm] at h; cases h
        | ok m =>
          rw [hm] at h
          obtain ⟨f1, f2, -⟩ := mix_pass_frame gm t m1.name
            (GSM.named ext v m1.name) m
          exact ⟨_, h, f1, f2⟩
  · cases h

theorem mix_loop_agree (ext : Ext) (g1 g2 : GranularModel) (ts : List SubmodelType)
    (gm : GranularModel) (h : ∀ t ∈ ts, Mixable ext g1 g2 t) :
    ∃ gm', mix_loop ext g1 g2 ts gm = .ok (-1, gm') ∧
      gm'.limit_damping = max g1.limit_damping g2.limit_damping ∧
      (∀ t ∈ ts, ∃ m, sub_models gm' t = some m ∧ sub_name g1 t = some m.name ∧
        select_class m.name t = .ok m.cls) ∧
      (∀ u, u ∉ ts → sub_models gm' u = sub_models gm u) := by
  induction ts generalizing gm with
  | nil =>
    refine ⟨_, rfl, rfl, by simp, fun u _ => ?_⟩
    cases u <;> rfl
  | cons t ts ih =>
    obtain ⟨m1, m2, v, r, h1, h2, hn, hv, hr⟩ := h t (List.mem_cons_self _ _)
    obtain ⟨m, e1, e2, e3⟩ := mix_loop_cons_agree ext g1 g2 gm t ts m1 m2 v r h1 h2 hn hv hr
    obtain ⟨f1, f2, f3⟩ := mix_pass_frame gm t m1.name (GSM.named ext v m1.name) m
    obtain ⟨gm', i1, i2, i3, i4⟩ := ih
      (set_sub_model (set_sub_model (set_defined gm t m1.name) t
        (GSM.named ext v m1.name)) t m)
      (fun u hu => h u (List.mem_cons_of_mem _ hu))
    refine ⟨gm', e3.trans i1, i2, fun u hu => ?_, fun u hu => ?_⟩
    · by_cases hts : u ∈ ts
      · exact i3 u hts
      · have hut : u = t := by
          rcases List.mem_cons.1 hu with h | h
          · exact h
          · exact absurd h hts
        subst hut
        refine ⟨m, ?_, ?_, ?_⟩
        · rw [i4 u hts, f3]
        · simp [sub_name, h1, e1]
        · rw [e1, e2]; exact hv
    · rw [i4 u (fun hm => hu (List.mem_cons_of_mem _ hm))]
      exact f2 u (fun hut => hu (hut ▸ List.mem_cons_self _ _))

theorem mix_loop_first_mismatch (ext : Ext) (g1 g2 : GranularModel)
    (pre : List SubmodelType) (t : SubmodelType) (post : List SubmodelType)
    (gm : GranularModel) (h : ∀ u ∈ pre, Mixable ext g1 g2 u) (m1 m2 : GSM)
    (h1 : sub_models g1 t = some m1) (h2 : sub_models g2 t = some m2)
    (hn : m1.name ≠ m2.name) :
    ∃ gm', mix_loop ext g1 g2 (pre ++ t :: post) gm = .ok (t.toIndex, gm') := by
  induction pre generalizing gm with
  | nil => exact ⟨gm, mix_loop_cons_differ ext g1 g2 gm t post m1 m2 h1 h2 hn⟩
  | cons u pre ih =>
    obtain ⟨a1, a2, v, r, b1, b2, bn, bv, br⟩ := h u (List.mem_cons_self _ _)
    obtain ⟨m, -, -, e3⟩ :=
      mix_loop_cons_agree ext g1 g2 gm u (pre ++ t :: post) a1 a2 v r b1 b2 bn bv br
    obtain ⟨gm', hg⟩ := ih _ (fun w hw => h w (List.mem_cons_of_mem _ hw))
    exact ⟨gm', by rw [List.cons_append, e3]; exact hg⟩

theorem mix_loop_ok_inv (ext : Ext) (g1 g2 : GranularModel) (ts : List SubmodelType)
    (gm gm' : GranularModel) (i : Int) (h : mix_loop ext g1 g2 ts gm = .ok (i, gm'))
    (hi : 0 ≤ i) :
    ∃ pre t post, ts = pre ++ t :: post ∧ i = t.toIndex ∧
      gm'.limit_damping = gm.limit_damping ∧
      ∀ u, u ∉ pre → sub_models gm' u = sub_models gm u := by
  induction ts generalizing gm with
  | nil =>
    simp only [mix_loop, Except.ok.injEq, Prod.mk.injEq] at h
    omega
  | cons t ts ih =>
    rcases mix_loop_cons_inv ext g1 g2 gm gm' t ts i h with ⟨e1, e2⟩ | ⟨gmt, e1, e2, e3⟩
    · subst e2
      exact ⟨[], t, ts, rfl, e1, rfl, fun _ _ => rfl⟩
    · obtain ⟨pre, t', post, p1, p2, p3, p4⟩ := ih gmt e1
      refine ⟨t :: pre, t', post, by rw [p1]; rfl, p2, p3.trans e2, fun u hu => ?_⟩
      rw [p4 u (fun hm => hu (List.mem_cons_of_mem _ hm))]
      exact e3 u (fun hut => hu (hut ▸ List.mem_cons_self _ _))

theorem submodelOrder_sorted :
    submodelOrder.Pairwise fun a b => a.toIndex < b.toIndex := by
  simp [submodelOrder, SubmodelType.toIndex]

theorem mem_submodelOrder (t : SubmodelType) : t ∈ submodelOrder := by
  cases t <;> simp [submodelOrder]

theorem submodelOrder_split (pre : List SubmodelType) (t : SubmodelType)
    (post : List SubmodelType) (h : submodelOrder = pre ++ t :: post) :
    ∀ u ∈ pre, u.toIndex < t.toIndex := by
  have hs := submodelOrder_sorted
  rw [h] at hs
  intro u hu
  exact (List.pairwise_append.1 hs).2.2 u hu t (List.mem_cons_self _ _)

theorem mixable_of (ext : Ext) (g1 g2 : GranularModel)
    (hall : ∀ t, ∃ m1 m2, sub_models g1 t = some m1 ∧ sub_models g2 t = some m2)
    (hreg : ∀ t m1, sub_models g1 t = some m1 → m1.name ∈ registered t)
    (hmix : ∀ t m1 m2 v, sub_models g1 t = some m1 → sub_models g2 t = some m2 →
      m1.name = m2.name → select_class m1.name t = .ok v →
      ∃ r, ext.mix_coeffs v m1.coeffs m2.coeffs = .ok r)
    (t : SubmodelType) (hn : sub_name g1 t = sub_name g2 t) : Mixable ext g1 g2 t := by
  obtain ⟨m1, m2, h1, h2⟩ := hall t
  have hn' : m1.name = m2.name := by
    simpa [sub_name, h1, h2] using hn
  obtain ⟨v, hv⟩ := (select_class_ok_iff m1.name t).2 (hreg t m1 h1)
  obtain ⟨r, hr⟩ := hmix t m1 m2 v h1 h2 hn' hv
  exact ⟨m1, m2, v, r, h1, h2, hn', hv, hr⟩

theorem registered_of_sub_name (g : GranularModel) (t : SubmodelType) (nm : String)
    (h : sub_name g t = some nm) (hr : nm ∈ registered t) :
    ∀ m1, sub_models g t = some m1 → m1.name ∈ registered t := by
  intro m1 h1
  have : nm = m1.name := by simpa [sub_name, h1] using h.symm
  exact this ▸ hr

theorem sampleFull_registered :
    ∀ t m1, sub_models sampleFull t = some m1 → m1.name ∈ registered t
  | .NORMAL => registered_of_sub_name _ _ "hooke" (by decide) (by decide)
  | .TANGENTIAL => registered_of_sub_name _ _ "linear_nohistory" (by decide) (by decide)
  | .DAMPING => registered_of_sub_name _ _ "velocity" (by decide) (by decide)
  | .ROLLING => registered_of_sub_name _ _ "none" (by decide) (by decide)
  | .TWISTING => registered_of_sub_name _ _ "sds" (by decide) (by decide)
  | .HEAT => registered_of_sub_name _ _ "none" (by decide) (by decide)

theorem construct_submodel_built (ext : Ext) (name : String) (t : SubmodelType)
    (gm gm' : GranularModel) (h : construct_submodel ext name t gm = .ok gm') :
    ∃ m, sub_models gm' t = some m ∧ Built ext t m := by
  obtain ⟨v, hv⟩ := (construct_submodel_ok_iff ext name t gm).1 ⟨gm', h⟩
  rw [construct_submodel_of_class ext name t gm v hv] at h
  cases h
  refine ⟨GSM.named ext v name, sub_models_set_same _ _ _, v, hv, rfl, rfl, ?_⟩
  simp [GSM.named, GSM.create]

theorem mix_loop_cons_names (ext : Ext) (g1 g2 gm gm' : GranularModel) (t : SubmodelType)
    (ts : List SubmodelType) (i : Int)
    (h : mix_loop ext g1 g2 (t :: ts) gm = .ok (i, gm')) :
    (i = t.toIndex ∧ sub_name g1 t ≠ sub_name g2 t) ∨
      (sub_name g1 t = sub_name g2 t ∧ ∃ gmt, mix_loop ext g1 g2 ts gmt = .ok (i, gm')) := by
  unfold mix_loop at h
  split at h
  · rename_i m1 m2 h1 h2
    split_ifs at h with hn
    · left
      cases h
      refine ⟨rfl, ?_⟩
      simpa [sub_name, h1, h2] using hn
    · right
      refine ⟨by simp [sub_name, h1, h2, not_not.1 hn], ?_⟩
      cases hc : construct_submodel ext m1.name t gm with
      | error e => rw [hc] at h; cases h
      | ok gm1 =>
        rw [hc] at h
        simp only at h
        cases hs : sub_models gm1 t with
        | none => rw [hs] at h; cases h
        | some m =>
          rw [hs] at h
          simp only at h
          cases hm : GSM.mix_coeffs ext m m1.coeffs m2.coeffs with
          | error e => rw [hm] at h; cases h
          | ok m' =>
            rw [hm] at h
            exact ⟨_, h⟩
  · cases h

theorem mix_loop_ok_names (ext : Ext) (g1 g2 : GranularModel) (ts : List SubmodelType)
    (gm gm' : GranularModel) (i : Int) (h : mix_loop ext g1 g2 ts gm = .ok (i, gm')) :
    (i = -1 ∧ ∀ t ∈ ts, sub_name g1 t = sub_name g2 t) ∨
      ∃ pre t post, ts = pre ++ t :: post ∧ i = t.toIndex ∧
        sub_name g1 t ≠ sub_name g2 t ∧ ∀ u ∈ pre, sub_name g1 u = sub_name g2 u := by
  induction ts generalizing gm with
  | nil =>
    simp only [mix_loop, Except.ok.injEq, Prod.mk.injEq] at h
    exact Or.inl ⟨h.1.symm, by simp⟩
  | cons t ts ih =>
    rcases mix_loop_cons_names ext g1 g2 gm gm' t ts i h with ⟨e1, e2⟩ | ⟨e1, gmt, e2⟩
    · exact Or.inr ⟨[], t, ts, rfl, e1, e2, by simp⟩
    · rcases ih gmt e2 with ⟨a, b⟩ | ⟨pre, t', post, p1, p2, p3, p4⟩
      · left
        refine ⟨a, fun u hu => ?_⟩
        rcases List.mem_cons.1 hu with rfl | hu
        · exact e1
        · exact b u hu
      · right
        refine ⟨t :: pre, t', post, by rw [p1]; rfl, p2, p3, fun u hu => ?_⟩
        rcases List.mem_cons.1 hu with rfl | hu
        · exact e1
        · exact p4 u hu

theorem submodelOrder_before (pre : List SubmodelType) (t : SubmodelType)
    (post : List SubmodelType) (h : submodelOrder = pre ++ t :: post) (u : SubmodelType)
    (hu : u.toIndex < t.toIndex) : u ∈ pre := by
  have hs := submodelOrder_sorted
  rw [h] at hs
  have hm : u ∈ pre ++ t :: post := h ▸ mem_submodelOrder u
  rcases List.mem_append.1 hm with hp | hp
  · exact hp
  · rcases List.mem_cons.1 hp with rfl | hp
    · omega
    · have := (List.pairwise_cons.1 (List.pairwise_append.1 hs).2.1).1 u hp
      omega

/-- C2: for coordinators `g1`, `g2` that hold a submodel in all six categories (built by
`construct_submodel`, so that the names are registered, and with submodel mixing hooks
that return), `mix_coeffs(g1, g2)` returns -1 if the names agree in every category, and
otherwise the smallest category index at which the names differ; and whenever it
returns, the value is -1 with all names equal or the index of the first difference. -/
theorem mix_coeffs_return (ext : Ext) (gm g1 g2 : GranularModel)
    (hall : ∀ t, ∃ m1 m2, sub_models g1 t = some m1 ∧ sub_models g2 t = some m2)
    (hreg : ∀ t m1, sub_models g1 t = some m1 → m1.name ∈ registered t)
    (hmix : ∀ t m1 m2 v, sub_models g1 t = some m1 → sub_models g2 t = some m2 →
      m1.name = m2.name → select_class m1.name t = .ok v →
      ∃ r, ext.mix_coeffs v m1.coeffs m2.coeffs = .ok r) :
    ((∀ t, sub_name g1 t = sub_name g2 t) →
      ∃ gm', mix_coeffs ext gm g1 g2 = .ok (-1, gm')) ∧
    (∀ t, sub_name g1 t ≠ sub_name g2 t →
      (∀ u, u.toIndex < t.toIndex → sub_name g1 u = sub_name g2 u) →
      ∃ gm', mix_coeffs ext gm g1 g2 = .ok (t.toIndex, gm')) ∧
    (∀ i gm', mix_coeffs ext gm g1 g2 = .ok (i, gm') →
      (i = -1 ∧ ∀ t, sub_name g1 t = sub_name g2 t) ∨
      ∃ t, i = t.toIndex ∧ sub_name g1 t ≠ sub_name g2 t ∧
        ∀ u, u.toIndex < t.toIndex → sub_name g1 u = sub_name g2 u) := by
  refine ⟨fun hagree => ?_, fun t hdiff hbefore => ?_, fun i gm' h => ?_⟩
  · obtain ⟨gm', h, -⟩ := mix_loop_agree ext g1 g2 submodelOrder gm
      (fun t _ => mixable_of ext g1 g2 hall hreg hmix t (hagree t))
    exact ⟨gm', h⟩
  · obtain ⟨pre, post, hsplit⟩ := List.append_of_mem (mem_submodelOrder t)
    obtain ⟨m1, m2, h1, h2⟩ := hall t
    have hn : m1.name ≠ m2.name := by
      intro he
      apply hdiff
      simp [sub_name, h1, h2, he]
    obtain ⟨gm', h⟩ := mix_loop_first_mismatch ext g1 g2 pre t post gm
      (fun u hu => mixable_of ext g1 g2 hall hreg hmix u
        (hbefore u (submodelOrder_split pre t post hsplit u hu))) m1 m2 h1 h2 hn
    exact ⟨gm', by unfold mix_coeffs; rw [hsplit]; exact h⟩
  · rcases mix_loop_ok_names ext g1 g2 submodelOrder gm gm' i h with
      ⟨a, b⟩ | ⟨pre, t, post, p1, p2, p3, p4⟩
    · exact Or.inl ⟨a, fun t => b t (mem_submodelOrder t)⟩
    · exact Or.inr ⟨t, p2, p3, fun u hu => p4 u (submodelOrder_before pre t post p1 u hu)⟩

theorem sampleFull_all (g : GranularModel)
    (h : ∀ t, (sub_models g t).isSome = true) (t : SubmodelType) :
    ∃ m1 m2, sub_models sampleFull t = some m1 ∧ sub_models g t = some m2 := by
  have h2 := h t
  have h1 : (sub_models sampleFull t).isSome = true := by cases t <;> decide
  exact ⟨_, _, (Option.some_get h1).symm, (Option.some_get h2).symm⟩

/-- C2 (witness): `sampleFull` and `sampleMarshall` first differ in the Twisting category,
index 4. -/
theorem mix_coeffs_return_witness :
    ∃ gm', mix_coeffs sampleExt GranularModel.new sampleFull sampleMarshall = .ok (4, gm') :=
  (mix_coeffs_return sampleExt GranularModel.new sampleFull sampleMarshall
    (sampleFull_all sampleMarshall (fun t => by cases t <;> decide))
    sampleFull_registered (fun _ _ _ _ _ _ _ _ => ⟨_, rfl⟩)).2.1 .TWISTING (by decide)
    (fun u hu => by cases u <;> first | decide | (exact absurd hu (by decide)))

/-- C3 (as stated, refuted): with names that first differ in the Twisting category,
`mix_coeffs` returns the index 4 after it has constructed the Normal submodel of the
receiver, which was null before the call. -/
theorem mix_coeffs_atomic_counterexample :
    ∃ gm', mix_coeffs sampleExt GranularModel.new sampleFull sampleMarshall = .ok (4, gm') ∧
      sub_name gm' .NORMAL = some "hooke" ∧ sub_name GranularModel.new .NORMAL = none :=
  ⟨_, rfl, by decide, by decide⟩

/-- C3 (amended): whenever `mix_coeffs(g1, g2)` returns an index `i >= 0`, the
`limit_damping` of the receiver and its submodels of category `i` and of every later
category are what they were before the call; in particular all six are unchanged when
`i = 0`. -/
theorem mix_coeffs_mismatch_frame (ext : Ext) (gm g1 g2 gm' : GranularModel) (i : Int)
    (h : mix_coeffs ext gm g1 g2 = .ok (i, gm')) (hi : 0 ≤ i) :
    gm'.limit_damping = gm.limit_damping ∧
      (∀ u, i ≤ u.toIndex → sub_models gm' u = sub_models gm u) ∧
      (i = 0 → ∀ u, sub_models gm' u = sub_models gm u) := by
  obtain ⟨pre, t, post, p1, p2, p3, p4⟩ := mix_loop_ok_inv ext g1 g2 submodelOrder gm gm' i h hi
  have key : ∀ u, i ≤ u.toIndex → sub_models gm' u = sub_models gm u := fun u hu =>
    p4 u (fun hm => by
      have := submodelOrder_split pre t post p1 u hm
      omega)
  refine ⟨p3, key, fun h0 u => key u ?_⟩
  rw [h0]
  cases u <;> simp [SubmodelType.toIndex]

/-- C3 (witness): after the mismatch at index 4 the Heat submodel of the receiver is still null. -/
theorem mix_coeffs_mismatch_frame_witness :
    mix_coeffs sampleExt GranularModel.new sampleFull sampleMarshall = .ok (4, sampleMixed) ∧
      sub_models sampleMixed .HEAT = sub_models GranularModel.new .HEAT :=
  ⟨rfl, (mix_coeffs_mismatch_frame sampleExt GranularModel.new sampleFull sampleMarshall
    sampleMixed 4 rfl (by decide)).2.1 .HEAT (by decide)⟩

/-- C4: when `g1` and `g2` choose the same name in every category (submodels built by
`construct_submodel`, mixing hooks that return), `mix_coeffs(g1, g2)` returns -1 and the
receiver then holds in each category a submodel with the shared name, of the class
registered for that name, and its `limit_damping` is the maximum of the two. -/
theorem mix_coeffs_same_names (ext : Ext) (gm g1 g2 : GranularModel)
    (hall : ∀ t, ∃ m1 m2, sub_models g1 t = some m1 ∧ sub_models g2 t = some m2)
    (hreg : ∀ t m1, sub_models g1 t = some m1 → m1.name ∈ registered t)
    (hmix : ∀ t m1 m2 v, sub_models g1 t = some m1 → sub_models g2 t = some m2 →
      m1.name = m2.name → select_class m1.name t = .ok v →
      ∃ r, ext.mix_coeffs v m1.coeffs m2.coeffs = .ok r)
    (hagree : ∀ t, sub_name g1 t = sub_name g2 t) :
    ∃ gm', mix_coeffs ext gm g1 g2 = .ok (-1, gm') ∧
      (∀ t, ∃ m, sub_models gm' t = some m ∧ sub_name g1 t = some m.name ∧
        sub_name g2 t = some m.name ∧ select_class m.name t = .ok m.cls) ∧
      gm'.limit_damping = max g1.limit_damping g2.limit_damping := by
  obtain ⟨gm', h, hl, hs, -⟩ := mix_loop_agree ext g1 g2 submodelOrder gm
    (fun t _ => mixable_of ext g1 g2 hall hreg hmix t (hagree t))
  refine ⟨gm', h, fun t => ?_, hl⟩
  obtain ⟨m, a, b, c⟩ := hs t (mem_submodelOrder t)
  exact ⟨m, a, b, (hagree t) ▸ b, c⟩

/-- C4 (witness): mixing `sampleFull` with `sampleLimited` returns -1, gives `sds` twisting
and `limit_damping = 1`. -/
theorem mix_coeffs_same_names_witness :
    ∃ gm', mix_coeffs sampleExt GranularModel.new sampleFull sampleLimited = .ok (-1, gm') ∧
      sub_name gm' .TWISTING = some "sds" ∧ gm'.limit_damping = 1 := by
  obtain ⟨gm', h, hs, hl⟩ := mix_coeffs_same_names sampleExt GranularModel.new sampleFull
    sampleLimited (sampleFull_all sampleLimited (fun t => by cases t <;> decide))
    sampleFull_registered (fun _ _ _ _ _ _ _ _ => ⟨_, rfl⟩) (fun t => by cases t <;> decide)
  obtain ⟨m, a, b, -⟩ := hs .TWISTING
  refine ⟨gm', h, ?_, hl.trans (by decide)⟩
  rw [sub_name, a]
  exact b.symm.trans (by decide)

theorem read_chars_append (cs : List Char) (rest : List Item) :
    read_chars cs.length (cs.map Item.char ++ rest) = .ok (cs, rest) := by
  induction cs with
  | nil => cases rest <;> rfl
  | cons c cs ih => simp [read_chars, ih]

theorem read_dbls_append (xs : List ℚ) (rest : List Item) :
    read_dbls xs.length (xs.map Item.dbl ++ rest) = .ok (xs, rest) := by
  induction xs with
  | nil => cases rest <;> rfl
  | cons x xs ih => simp [read_dbls, ih]

theorem coeffs_to_local_ok (ext : Ext) (m m' : GSM)
    (h : GSM.coeffs_to_local ext m = .ok m') :
    m'.name = m.name ∧ m'.coeffs = m.coeffs := by
  unfold GSM.coeffs_to_local at h
  split at h
  · simp only at h
    split_ifs at h
    cases h
    exact ⟨rfl, rfl⟩
  · cases h
    exact ⟨rfl, rfl⟩
  · cases hl : ext.coeffs_to_local m.cls m.coeffs with
    | error e => rw [hl] at h; cases h
    | ok l =>
      rw [hl] at h
      cases h
      exact ⟨rfl, rfl⟩

theorem coeffs_to_local_congr (ext : Ext) (m m' a : GSM)
    (h : GSM.coeffs_to_local ext m = .ok m') (hc : a.cls = m.cls) (hx : a.coeffs = m.coeffs) :
    ∃ a', GSM.coeffs_to_local ext a = .ok a' := by
  unfold GSM.coeffs_to_local at h ⊢
  rw [hc, hx]
  split at h
  · simp only at h ⊢
    split_ifs at h with hneg
    rw [if_neg hneg]
    exact ⟨_, rfl⟩
  · exact ⟨_, rfl⟩
  · cases hl : ext.coeffs_to_local m.cls m.coeffs with
    | error e => rw [hl] at h; cases h
    | ok l => exact ⟨_, rfl⟩

theorem read_record_write_record (ext : Ext) (t : SubmodelType) (gm : GranularModel)
    (m : GSM) (rest : List Item) (hb : Built ext t m)
    (hv : ∃ m', GSM.coeffs_to_local ext m = .ok m') :
    ∃ a b, b.name = m.name ∧ b.coeffs = m.coeffs ∧
      read_record ext t gm (write_record m ++ rest) =
        .ok (set_sub_model (set_sub_model (set_defined gm t m.name) t a) t b, rest) := by
  obtain ⟨v, h1, h2, h3, h4⟩ := hb
  obtain ⟨m', hm'⟩ := hv
  obtain ⟨b, hb1⟩ := coeffs_to_local_congr ext m m'
    ((GSM.named ext v m.name).set_coeffs m.coeffs) hm' h2.symm rfl
  obtain ⟨hb2, hb3⟩ := coeffs_to_local_ok ext _ b hb1
  refine ⟨GSM.named ext v m.name, b, hb2, hb3, ?_⟩
  have hname : String.mk m.name.data = m.name := rfl
  have hchars : ∀ r, read_chars m.name.length (m.name.data.map Item.char ++ r)
      = .ok (m.name.data, r) := fun r => read_chars_append m.name.data r
  have hdbls : read_dbls m.num_coeffs (List.map Item.dbl (List.take m.num_coeffs m.coeffs) ++ rest)
      = .ok (m.coeffs, rest) := by
    rw [← h4, List.take_length]
    exact read_dbls_append m.coeffs rest
  have hn : (GSM.named ext v m.name).num_coeffs = m.num_coeffs := h3.symm
  unfold read_record write_record
  simp only [List.cons_append, read_int, List.append_assoc]
  rw [if_neg (by simp)]
  simp only [Int.toNat_ofNat, hchars, hname, construct_submodel_of_class ext m.name t gm v h1,
    sub_models_set_same, read_int, hn, ne_eq, not_true_eq_false, if_false, hdbls, hb1]

theorem restart_loop_round_trip (ext : Ext) (g : GranularModel) (ts : List SubmodelType)
    (hall : ∀ t ∈ ts, ∃ m, sub_models g t = some m ∧ Built ext t m ∧
      ∃ m', GSM.coeffs_to_local ext m = .ok m')
    (gm : GranularModel) (rest : List Item) :
    ∃ items g', write_restart_loop g ts = .ok items ∧
      read_restart_loop ext ts gm (items ++ rest) = .ok (g', rest) ∧
      (∀ t ∈ ts, ∃ m m', sub_models g t = some m ∧ sub_models g' t = some m' ∧
        m'.name = m.name ∧ m'.coeffs = m.coeffs) ∧
      (∀ u, u ∉ ts → sub_models g' u = sub_models gm u) := by
  induction ts generalizing gm with
  | nil => exact ⟨[], gm, rfl, rfl, by simp, fun _ _ => rfl⟩
  | cons t ts ih =>
    obtain ⟨m, hm, hb, hv⟩ := hall t (List.mem_cons_self _ _)
    obtain ⟨items, hw⟩ : ∃ items, write_restart_loop g ts = .ok items := by
      obtain ⟨items, g', h, -⟩ := ih (fun u hu => hall u (List.mem_cons_of_mem _ hu)) gm
      exact ⟨items, h⟩
    obtain ⟨a, b, hb1, hb2, hr⟩ :=
      read_record_write_record ext t gm m (items ++ rest) hb hv
    obtain ⟨f1, f2, f3⟩ := mix_pass_frame gm t m.name a b
    obtain ⟨items', g', i1, i2, i3, i4⟩ :=
      ih (fun u hu => hall u (List.mem_cons_of_mem _ hu))
        (set_sub_model (set_sub_model (set_defined gm t m.name) t a) t b)
    rw [hw] at i1
    cases i1
    refine ⟨write_record m ++ items, g', ?_, ?_, fun u hu => ?_, fun u hu => ?_⟩
    · simp only [write_restart_loop, hm, hw]
    · simp only [read_restart_loop, List.append_assoc, hr]
      exact i2
    · by_cases hts : u ∈ ts
      · exact i3 u hts
      · have hut : u = t := by
          rcases List.mem_cons.1 hu with h | h
          · exact h
          · exact absurd h hts
        subst hut
        exact ⟨m, b, hm, by rw [i4 u hts, f3], hb1, hb2⟩
    · rw [i4 u (fun hm => hu (List.mem_cons_of_mem _ hm))]
      exact f2 u (fun hut => hu (hut ▸ List.mem_cons_self _ _))

/-- C1: for a coordinator whose six submodels were built by `construct_submodel` and
whose coefficients pass `coeffs_to_local`, `read_restart` on a fresh coordinator consumes
exactly the stream produced by `write_restart` and yields in each of the six categories
a submodel with the same name and the same coefficient array. -/
theorem restart_round_trip (ext : Ext) (g : GranularModel)
    (hall : ∀ t, ∃ m, sub_models g t = some m)
    (hbuilt : ∀ t m, sub_models g t = some m → Built ext t m)
    (hvalid : ∀ t m, sub_models g t = some m → ∃ m', GSM.coeffs_to_local ext m = .ok m') :
    ∃ items g', write_restart g = .ok items ∧
      read_restart ext GranularModel.new items = .ok (g', []) ∧
      ∀ t, ∃ m m', sub_models g t = some m ∧ sub_models g' t = some m' ∧
        m'.name = m.name ∧ m'.coeffs = m.coeffs ∧ m'.coeffs.length = m.coeffs.length := by
  obtain ⟨items, g', h1, h2, h3, -⟩ := restart_loop_round_trip ext g submodelOrder
    (fun t _ => by
      obtain ⟨m, hm⟩ := hall t
      exact ⟨m, hm, hbuilt t m hm, hvalid t m hm⟩) GranularModel.new []
  rw [List.append_nil] at h2
  refine ⟨items, g', h1, h2, fun t => ?_⟩
  obtain ⟨m, m', a, b, c, d⟩ := h3 t (mem_submodelOrder t)
  exact ⟨m, m', a, b, c, d, by rw [d]⟩

theorem read_restart_loop_append (ext : Ext) (pre ts : List SubmodelType)
    (gm : GranularModel) (s : List Item) :
    read_restart_loop ext (pre ++ ts) gm s =
      match read_restart_loop ext pre gm s with
      | .error e => .error e
      | .ok r => read_restart_loop ext ts r.1 r.2 := by
  induction pre generalizing gm s with
  | nil => rfl
  | cons t pre ih =>
    simp only [List.cons_append, read_restart_loop]
    cases read_record ext t gm s with
    | error e => rfl
    | ok r => exact ih r.1 r.2

theorem read_record_bad_count (ext : Ext) (t : SubmodelType) (gm : GranularModel)
    (name : String) (v : Variant) (k : Int) (rest : List Item)
    (hv : select_class name t = .ok v) (hk : k ≠ (classInfo ext v).num_coeffs) :
    read_record ext t gm
        (Item.int name.length :: (name.data.map Item.char ++ Item.int k :: rest)) =
      .error "Invalid granular model written to restart file" := by
  have hname : String.mk name.data = name := rfl
  have hchars : ∀ r, read_chars name.length (name.data.map Item.char ++ r)
      = .ok (name.data, r) := fun r => read_chars_append name.data r
  have hn : ((GSM.named ext v name).num_coeffs : Int) = (classInfo ext v).num_coeffs := rfl
  unfold read_record
  simp only [read_int]
  rw [if_neg (by simp)]
  simp only [Int.toNat_ofNat, hchars, hname, construct_submodel_of_class ext name t gm v hv,
    sub_models_set_same, read_int, hn]
  rw [if_pos hk]

/-- C5: `read_restart` fails with "Invalid granular model written to restart file" on
every stream in which, after well-formed records for the categories before `t`, the
record of category `t` holds a registered name and a parameter count different from
`num_coeffs` of the submodel constructed from that name. -/
theorem read_restart_rejects_count (ext : Ext) (gm : GranularModel) (s : List Item)
    (pre : List SubmodelType) (t : SubmodelType) (post : List SubmodelType)
    (hsplit : submodelOrder = pre ++ t :: post)
    (gm1 : GranularModel) (s1 : List Item)
    (hpre : read_restart_loop ext pre gm s = .ok (gm1, s1))
    (name : String) (v : Variant) (hv : select_class name t = .ok v)
    (k : Int) (rest : List Item)
    (hs1 : s1 = Item.int name.length :: (name.data.map Item.char ++ Item.int k :: rest))
    (hk : k ≠ (classInfo ext v).num_coeffs) :
    read_restart ext gm s = .error "Invalid granular model written to restart file" := by
  unfold read_restart
  rw [hsplit, read_restart_loop_append, hpre]
  simp only [read_restart_loop]
  rw [hs1, read_record_bad_count ext t gm1 name v k rest hv hk]

theorem of_sub_models_get (g : GranularModel) (t : SubmodelType) (P : GSM → Prop)
    (h : (sub_models g t).isSome = true) (hp : P ((sub_models g t).get h)) :
    ∀ m, sub_models g t = some m → P m := by
  intro m hm
  have : (sub_models g t).get h = m := by simp [hm]
  exact this ▸ hp

/-- C1 (witness): the round trip on `sampleCoeffs`. -/
theorem restart_round_trip_witness :
    ∃ items g', write_restart sampleCoeffs = .ok items ∧
      read_restart sampleExt GranularModel.new items = .ok (g', []) ∧
      ∀ t, ∃ m m', sub_models sampleCoeffs t = some m ∧ sub_models g' t = some m' ∧
        m'.name = m.name ∧ m'.coeffs = m.coeffs ∧ m'.coeffs.length = m.coeffs.length :=
  restart_round_trip sampleExt sampleCoeffs
    (fun t => Option.isSome_iff_exists.1 (by cases t <;> decide))
    (fun t => by
      cases t
      · exact of_sub_models_get _ _ _ (by decide) ⟨.GSMNormalHooke, rfl, rfl, rfl, rfl⟩
      · exact of_sub_models_get _ _ _ (by decide)
          ⟨.GSMTangentialLinearNoHistory, rfl, rfl, rfl, rfl⟩
      · exact of_sub_models_get _ _ _ (by decide) ⟨.GSMDampingVelocity, rfl, rfl, rfl, rfl⟩
      · exact of_sub_models_get _ _ _ (by decide) ⟨.GSMRollingNone, rfl, rfl, rfl, rfl⟩
      · exact of_sub_models_get _ _ _ (by decide) ⟨.GSMTwistingSDS, rfl, rfl, rfl, rfl⟩
      · exact of_sub_models_get _ _ _ (by decide) ⟨.GSMHeatNone, rfl, rfl, rfl, rfl⟩)
    (fun t => by
      cases t <;> exact of_sub_models_get _ _ _ (by decide) ⟨_, rfl⟩)

/-- C5 (witness): `sampleBadStream` announces 2 coefficients for `mindlin`, which has 3,
after a well-formed `hooke` record. -/
theorem read_restart_rejects_count_witness :
    read_restart sampleExt GranularModel.new sampleBadStream =
      .error "Invalid granular model written to restart file" :=
  read_restart_rejects_count sampleExt GranularModel.new sampleBadStream
    [.NORMAL] .TANGENTIAL [.DAMPING, .ROLLING, .TWISTING, .HEAT] rfl _ _ rfl
    "mindlin" .GSMTangentialMindlin rfl 2 [.dbl 1, .dbl 1] rfl (by decide)

theorem sds_frame (m : GSM) (gm : GranularModel) :
    GSMTwistingSDS.calculate_forces m gm =
      { gm with
        history := (GSMTwistingSDS.calculate_forces m gm).history
        magtortwist := (GSMTwistingSDS.calculate_forces m gm).magtortwist } := by
  unfold GSMTwistingSDS.calculate_forces
  simp only
  split_ifs <;> rfl

theorem marshall_frame (m : GSM) (gm : GranularModel) :
    GSMTwistingMarshall.calculate_forces m gm =
      { gm with
        history := (GSMTwistingMarshall.calculate_forces m gm).history
        magtortwist := (GSMTwistingMarshall.calculate_forces m gm).magtortwist } := by
  unfold GSMTwistingMarshall.calculate_forces
  simp only
  split_ifs <;> rfl

theorem twisting_forces_frame (gm : GranularModel) :
    twisting_forces gm =
      { gm with
        history := (twisting_forces gm).history
        magtortwist := (twisting_forces gm).magtortwist } := by
  unfold twisting_forces
  split
  · rfl
  · split
    · exact sds_frame _ gm
    · exact marshall_frame _ gm
    · rfl

theorem submodel_forces_frame (ext : Ext) (gm : GranularModel) :
    ∃ fr history magtortwist,
      submodel_forces ext gm =
        { gm with
          normal_model := (with_fncrit ext gm).normal_model
          fs := (ext.tangential_forces (with_fncrit ext gm)).1
          fr := fr
          history := history
          magtortwist := magtortwist } := by
  unfold submodel_forces
  simp only
  split_ifs with h1 h2 h2
  · rw [twisting_forces_frame]
    exact ⟨_, _, _, rfl⟩
  · exact ⟨_, _, _, rfl⟩
  · rw [twisting_forces_frame]
    exact ⟨_, _, _, rfl⟩
  · exact ⟨_, _, _, rfl⟩

theorem heat_flow_frame (ext : Ext) (gm : GranularModel) :
    heat_flow ext gm = { gm with dq := (heat_flow ext gm).dq } := by
  unfold heat_flow
  split_ifs <;> rfl

theorem calculate_forces_final (ext : Ext) (gm : GranularModel) :
    ∃ fr history magtortwist dq,
      calculate_forces ext gm =
        .ok { sum_contributions
            { normal_state ext gm with
              normal_model := (with_fncrit ext (normal_state ext gm)).normal_model
              fs := (ext.tangential_forces (with_fncrit ext (normal_state ext gm))).1
              fr := fr
              history := history
              magtortwist := magtortwist } with dq := dq } := by
  obtain ⟨fr, history, magtortwist, hS⟩ := submodel_forces_frame ext (normal_state ext gm)
  refine ⟨fr, history, magtortwist, ?_⟩
  apply Exists.intro
  show Except.ok (heat_flow ext (sum_contributions (submodel_forces ext
    (normal_state ext gm)))) = _
  rw [heat_flow_frame, hS]

theorem normal_state_nx (ext : Ext) (gm : GranularModel) :
    (normal_state ext gm).nx = scale3 (1 / contact_distance ext gm) gm.dx := rfl

/-- C11: `calculate_forces` returns, and the total force it leaves is `Fntot * nx + fs`
componentwise, where `nx` is `dx / r` and `fs` is the force left by the Tangential
submodel. -/
theorem calculate_forces_total_force (ext : Ext) (gm : GranularModel) :
    ∃ gm', calculate_forces ext gm = .ok gm' ∧
      gm'.forces.x = gm'.Fntot * gm'.nx.x + gm'.fs.x ∧
      gm'.forces.y = gm'.Fntot * gm'.nx.y + gm'.fs.y ∧
      gm'.forces.z = gm'.Fntot * gm'.nx.z + gm'.fs.z ∧
      gm'.nx.x = gm.dx.x / contact_distance ext gm ∧
      gm'.nx.y = gm.dx.y / contact_distance ext gm ∧
      gm'.nx.z = gm.dx.z / contact_distance ext gm ∧
      gm'.r = contact_distance ext gm ∧
      gm'.fs = (ext.tangential_forces (with_fncrit ext (normal_state ext gm))).1 := by
  obtain ⟨fr, history, magtortwist, dq, h⟩ := calculate_forces_final ext gm
  refine ⟨_, h, rfl, rfl, rfl, ?_, ?_, ?_, rfl, rfl⟩
  · show (normal_state ext gm).nx.x = _
    rw [normal_state_nx]
    simp only [scale3]
    ring
  · show (normal_state ext gm).nx.y = _
    rw [normal_state_nx]
    simp only [scale3]
    ring
  · show (normal_state ext gm).nx.z = _
    rw [normal_state_nx]
    simp only [scale3]
    ring

theorem add3_zero (v : Vec3) : add3 v Vec3.zero = v := by
  simp [add3, Vec3.zero]

theorem sub3_zero (v : Vec3) : sub3 v Vec3.zero = v := by
  simp [sub3, Vec3.zero]

theorem submodel_forces_same (ext : Ext) (gm : GranularModel) :
    SameContact (submodel_forces ext gm) gm ∧
      (submodel_forces ext gm).fs = (ext.tangential_forces (with_fncrit ext gm)).1 ∧
      (submodel_forces ext gm).torquesj = gm.torquesj := by
  obtain ⟨fr, history, magtortwist, hS⟩ := submodel_forces_frame ext gm
  rw [hS]
  exact ⟨⟨rfl, rfl, rfl, rfl, rfl, rfl, rfl, rfl, rfl, rfl, rfl, rfl⟩, rfl, rfl⟩

theorem sum_contributions_same (gm : GranularModel) :
    SameContact (sum_contributions gm) gm ∧ (sum_contributions gm).fs = gm.fs ∧
      (sum_contributions gm).fr = gm.fr ∧
      (sum_contributions gm).magtortwist = gm.magtortwist :=
  ⟨⟨rfl, rfl, rfl, rfl, rfl, rfl, rfl, rfl, rfl, rfl, rfl, rfl⟩, rfl, rfl, rfl⟩

theorem heat_flow_same (ext : Ext) (gm : GranularModel) :
    SameContact (heat_flow ext gm) gm ∧ (heat_flow ext gm).fs = gm.fs ∧
      (heat_flow ext gm).fr = gm.fr ∧ (heat_flow ext gm).magtortwist = gm.magtortwist ∧
      (heat_flow ext gm).forces = gm.forces ∧ (heat_flow ext gm).torquesi = gm.torquesi ∧
      (heat_flow ext gm).torquesj = gm.torquesj := by
  rw [heat_flow_frame]
  exact ⟨⟨rfl, rfl, rfl, rfl, rfl, rfl, rfl, rfl, rfl, rfl, rfl, rfl⟩, rfl, rfl, rfl, rfl,
    rfl, rfl⟩

theorem SameContact.trans {a b c : GranularModel} (h1 : SameContact a b)
    (h2 : SameContact b c) : SameContact a c := by
  obtain ⟨a1, a2, a3, a4, a5, a6, a7, a8, a9, a10, a11, a12⟩ := h1
  obtain ⟨b1, b2, b3, b4, b5, b6, b7, b8, b9, b10, b11, b12⟩ := h2
  exact ⟨a1.trans b1, a2.trans b2, a3.trans b3, a4.trans b4, a5.trans b5, a6.trans b6,
    a7.trans b7, a8.trans b8, a9.trans b9, a10.trans b10, a11.trans b11, a12.trans b12⟩

theorem normal_state_same (ext : Ext) (gm : GranularModel) :
    (normal_state ext gm).nx = scale3 (1 / contact_distance ext gm) gm.dx ∧
      (normal_state ext gm).delta = gm.radsum - contact_distance ext gm ∧
      (normal_state ext gm).r = contact_distance ext gm ∧
      (normal_state ext gm).radi = gm.radi ∧ (normal_state ext gm).radj = gm.radj ∧
      (normal_state ext gm).Reff = gm.Reff ∧
      (normal_state ext gm).classic_model = gm.classic_model ∧
      (normal_state ext gm).contact_type = gm.contact_type ∧
      (normal_state ext gm).rolling_defined = gm.rolling_defined ∧
      (normal_state ext gm).twisting_defined = gm.twisting_defined ∧
      (normal_state ext gm).dx = gm.dx ∧ (normal_state ext gm).torquesj = gm.torquesj := by
  simp only [normal_state, normal_forces, contact_area, kinematics, contact_distance,
    and_self]

theorem sum_contributions_torques (gm : GranularModel) :
    (sum_contributions gm).forces = add3 (scale3 gm.Fntot gm.nx) gm.fs ∧
      (sum_contributions gm).torquesi =
        add3 (add3 (arm_torque_i gm)
          (active gm.rolling_defined (scale3 gm.Reff (cross3 gm.nx gm.fr))))
          (active gm.twisting_defined (scale3 gm.magtortwist gm.nx)) ∧
      (gm.contact_type = .PAIR →
        (sum_contributions gm).torquesj =
          sub3 (sub3 (arm_torque_j gm)
            (active gm.rolling_defined (scale3 gm.Reff (cross3 gm.nx gm.fr))))
            (active gm.twisting_defined (scale3 gm.magtortwist gm.nx))) ∧
      (gm.contact_type ≠ .PAIR → (sum_contributions gm).torquesj = gm.torquesj) := by
  refine ⟨rfl, ?_, fun hp => ?_, fun hp => ?_⟩
  · simp only [sum_contributions, arm_torque_i, shear_torque, active]
    split_ifs <;> simp only [add3_zero]
  · simp only [sum_contributions, arm_torque_j, shear_torque, active, hp, and_true, if_true]
    split_ifs <;> simp only [sub3_zero]
  · simp only [sum_contributions, hp, and_false, if_false]

theorem arm_torque_congr (a b : GranularModel) (h : SameContact a b) (hfs : a.fs = b.fs) :
    arm_torque_i a = arm_torque_i b ∧ arm_torque_j a = arm_torque_j b := by
  obtain ⟨a1, a2, -, a4, a5, -, a7, a8, -⟩ := h
  simp only [arm_torque_i, arm_torque_j, shear_torque, a1, a2, a4, a5, a7, a8, hfs, and_self]

theorem calculate_forces_torques (ext : Ext) (gm : GranularModel) :
    ∃ gm', calculate_forces ext gm = .ok gm' ∧
      gm'.r = contact_distance ext gm ∧
      gm'.delta = gm.radsum - contact_distance ext gm ∧
      gm'.nx = scale3 (1 / contact_distance ext gm) gm.dx ∧
      gm'.fs = (ext.tangential_forces (with_fncrit ext (normal_state ext gm))).1 ∧
      gm'.radi = gm.radi ∧ gm'.radj = gm.radj ∧ gm'.Reff = gm.Reff ∧
      gm'.classic_model = gm.classic_model ∧ gm'.contact_type = gm.contact_type ∧
      gm'.torquesi =
        add3 (add3 (arm_torque_i gm')
          (active gm.rolling_defined (scale3 gm'.Reff (cross3 gm'.nx gm'.fr))))
          (active gm.twisting_defined (scale3 gm'.magtortwist gm'.nx)) ∧
      (gm.contact_type = .PAIR →
        gm'.torquesj =
          sub3 (sub3 (arm_torque_j gm')
            (active gm.rolling_defined (scale3 gm'.Reff (cross3 gm'.nx gm'.fr))))
            (active gm.twisting_defined (scale3 gm'.magtortwist gm'.nx))) ∧
      (gm.contact_type ≠ .PAIR → gm'.torquesj = gm.torquesj) := by
  obtain ⟨n1, n2, n3, n4, n5, n6, n7, n8, n9, n10, n11, n12⟩ := normal_state_same ext gm
  obtain ⟨s1, s2, s3⟩ := submodel_forces_same ext (normal_state ext gm)
  obtain ⟨c1, c2, c3, c4⟩ :=
    sum_contributions_same (submodel_forces ext (normal_state ext gm))
  obtain ⟨t1, t2, t3, t4⟩ :=
    sum_contributions_torques (submodel_forces ext (normal_state ext gm))
  obtain ⟨h1, h2, h3, h4, h5, h6, h7⟩ :=
    heat_flow_same ext (sum_contributions (submodel_forces ext (normal_state ext gm)))
  have hS := h1.trans c1
  have hfs := h2.trans c2
  have hfr := h3.trans c3
  have hmt := h4.trans c4
  obtain ⟨ai, aj⟩ := arm_torque_congr _ _ hS hfs
  have hN := hS.trans s1
  obtain ⟨e1, e2, e3, e4, e5, e6, e7, e8, e9, e10, e11, e12⟩ := hN
  obtain ⟨d1, -, -, -, -, d6, -, -, d9, d10, -⟩ := hS
  refine ⟨heat_flow ext (sum_contributions (submodel_forces ext (normal_state ext gm))),
    rfl, e3.trans n3, e2.trans n2, e1.trans n1, hfs.trans s2, e4.trans n4, e5.trans n5, e6.trans n6,
    e7.trans n7, e8.trans n8, ?_, fun hp => ?_, fun hp => ?_⟩
  · rw [h6, t2, ai, d1, d6, hfr, hmt, s1.2.2.2.2.2.2.2.2.1, s1.2.2.2.2.2.2.2.2.2.1, n9, n10]
  · rw [h7, t3 ((s1.2.2.2.2.2.2.2.1.trans n8).trans hp), aj, d1, d6, hfr, hmt,
      s1.2.2.2.2.2.2.2.2.1, s1.2.2.2.2.2.2.2.2.2.1, n9, n10]
  · rw [h7, t4 (fun h => hp (((s1.2.2.2.2.2.2.2.1.trans n8).symm.trans h))), s3, n12]

theorem vec3_eq (a b : Vec3) (hx : a.x = b.x) (hy : a.y = b.y) (hz : a.z = b.z) : a = b := by
  cases a
  cases b
  simp only [Vec3.mk.injEq]
  exact ⟨hx, hy, hz⟩

/-- C12 (amended): for a particle-particle contact with no classic model and Rolling and
Twisting both `none`, `calculate_forces` sets the torque on body i to `-(nx × fs)` times
the arm `radi - delta / 2` and the torque on body j to `-(nx × fs)` times the arm
`radj - delta / 2`, where `delta = radsum - r`. -/
theorem calculate_forces_pair_torques (ext : Ext) (gm : GranularModel)
    (hp : gm.contact_type = .PAIR) (hc : gm.classic_model = 0)
    (hr : gm.rolling_defined = 0) (ht : gm.twisting_defined = 0) :
    ∃ gm', calculate_forces ext gm = .ok gm' ∧
      gm'.delta = gm.radsum - gm'.r ∧
      gm'.torquesi = scale3 (-(gm.radi - gm'.delta / 2)) (cross3 gm'.nx gm'.fs) ∧
      gm'.torquesj = scale3 (-(gm.radj - gm'.delta / 2)) (cross3 gm'.nx gm'.fs) := by
  obtain ⟨gm', h, e0, e1, -, -, e4, e5, -, e7, e8, ti, tj, -⟩ := calculate_forces_torques ext gm
  refine ⟨gm', h, by rw [e1, e0], ?_, ?_⟩
  · rw [ti, hr, ht]
    simp only [active, ne_eq, not_true_eq_false, if_false, add3_zero, arm_torque_i, e7, e8,
      hc, hp, and_self, if_true, shear_torque, e4]
    apply vec3_eq <;> simp only [scale3, cross3] <;> ring
  · rw [tj hp, hr, ht]
    simp only [active, ne_eq, not_true_eq_false, if_false, sub3_zero, arm_torque_j, e7,
      hc, if_true, shear_torque, e5]
    apply vec3_eq <;> simp only [scale3, cross3] <;> ring

theorem shearContact_fields :
    shearContact.contact_type = .PAIR ∧ shearContact.classic_model = 0 ∧
      shearContact.rolling_defined = 0 ∧ shearContact.twisting_defined = 0 ∧
      shearContact.radi = 1 ∧ shearContact.radj = 1 ∧ shearContact.radsum = 2 ∧
      shearContact.dx = ⟨1, 0, 0⟩ ∧ contact_distance shearExt shearContact = 1 := by
  refine ⟨by decide, by decide, by decide, by decide, rfl, rfl, ?_, ?_, ?_⟩
  · show (1 : ℚ) + 1 = 2
    norm_num
  · show sub3 ⟨1, 0, 0⟩ Vec3.zero = ⟨1, 0, 0⟩
    simp [sub3, Vec3.zero]
  · show sampleExt.sqrt (lensq3 (sub3 ⟨1, 0, 0⟩ Vec3.zero)) = 1
    simp [sampleExt, lensq3, sub3, Vec3.zero]

/-- C12 (as stated, refuted): on the contact `shearContact` with tangential force
`(0, 1, 0)` the torque on body i is `(0, 0, -1/2)`, whereas `(nx × fs)` scaled by the arm
`radi - delta / 2` is `(0, 0, 1/2)`. -/
theorem calculate_forces_pair_torques_counterexample :
    ∃ gm', calculate_forces shearExt shearContact = .ok gm' ∧
      gm'.torquesi = ⟨0, 0, -1 / 2⟩ ∧
      scale3 (shearContact.radi - gm'.delta / 2) (cross3 gm'.nx gm'.fs) = ⟨0, 0, 1 / 2⟩ := by
  obtain ⟨f1, f2, f3, f4, f5, f6, f7, f8, f9⟩ := shearContact_fields
  obtain ⟨gm', h, -, e1, e2, e3, e4, -, -, e7, e8, ti, -, -⟩ :=
    calculate_forces_torques shearExt shearContact
  have hfs : gm'.fs = ⟨0, 1, 0⟩ := e3
  rw [f9, f7] at e1
  rw [f9, f8] at e2
  refine ⟨gm', h, ?_, ?_⟩
  · rw [ti, f3, f4]
    simp only [active, ne_eq, not_true_eq_false, if_false, add3_zero, arm_torque_i, e7, e8,
      f1, f2, and_self, if_true, shear_torque, e4, e1, e2, hfs, f5]
    apply vec3_eq <;> simp only [scale3, cross3] <;> norm_num
  · rw [e1, e2, hfs, f5]
    apply vec3_eq <;> simp only [scale3, cross3] <;> norm_num

/-- C12 (witness): the amended statement on the contact `shearContact`. -/
theorem calculate_forces_pair_torques_witness :
    ∃ gm', calculate_forces shearExt shearContact = .ok gm' ∧
      gm'.delta = shearContact.radsum - gm'.r ∧
      gm'.torquesi = scale3 (-(shearContact.radi - gm'.delta / 2)) (cross3 gm'.nx gm'.fs) ∧
      gm'.torquesj = scale3 (-(shearContact.radj - gm'.delta / 2)) (cross3 gm'.nx gm'.fs) :=
  calculate_forces_pair_torques shearExt shearContact (by decide) (by decide) (by decide)
    (by decide)

/-- C13: `calculate_forces` returns; when Rolling is active it adds `Reff * (nx × fr)`,
and when Twisting is active `magtortwist * nx`, to the torque on body i, and for a
particle-particle contact it subtracts the same vectors from the torque on body j; for a
wall or wall-region contact `torquesj` is what it was before the call. -/
theorem calculate_forces_rolling_twisting_torques (ext : Ext) (gm : GranularModel) :
    ∃ gm', calculate_forces ext gm = .ok gm' ∧
      gm'.torquesi =
        add3 (add3 (arm_torque_i gm')
          (active gm.rolling_defined (scale3 gm'.Reff (cross3 gm'.nx gm'.fr))))
          (active gm.twisting_defined (scale3 gm'.magtortwist gm'.nx)) ∧
      (gm.contact_type = .PAIR →
        gm'.torquesj =
          sub3 (sub3 (arm_torque_j gm')
            (active gm.rolling_defined (scale3 gm'.Reff (cross3 gm'.nx gm'.fr))))
            (active gm.twisting_defined (scale3 gm'.magtortwist gm'.nx))) ∧
      (gm.contact_type ≠ .PAIR → gm'.torquesj = gm.torquesj) ∧
      (∀ v, gm.rolling_defined ≠ 0 → active gm.rolling_defined v = v) ∧
      (∀ v, gm.twisting_defined ≠ 0 → active gm.twisting_defined v = v) ∧
      (∀ v, gm.rolling_defined = 0 → active gm.rolling_defined v = Vec3.zero) ∧
      (∀ v, gm.twisting_defined = 0 → active gm.twisting_defined v = Vec3.zero) := by
  obtain ⟨gm', h, -, -, -, -, -, -, -, -, -, ti, tj, tw⟩ := calculate_forces_torques ext gm
  refine ⟨gm', h, ti, tj, tw, fun v hv => ?_, fun v hv => ?_, fun v hv => ?_, fun v hv => ?_⟩
  · simp only [active, hv, ne_eq, not_false_eq_true, if_true]
  · simp only [active, hv, ne_eq, not_false_eq_true, if_true]
  · simp only [active, hv, ne_eq, not_true_eq_false, if_false]
  · simp only [active, hv, ne_eq, not_true_eq_false, if_false]

/-- C13 (witness): on a wall contact `torquesj` is unchanged by `calculate_forces`. -/
theorem calculate_forces_rolling_twisting_torques_witness :
    ∃ gm', calculate_forces sampleExt wallContact = .ok gm' ∧
      gm'.torquesj = wallContact.torquesj := by
  obtain ⟨gm', h, -, -, tw, -⟩ := calculate_forces_rolling_twisting_torques sampleExt wallContact
  exact ⟨gm', h, tw (by decide)⟩

theorem check_contact_eq (ext : Ext) (gm : GranularModel) :
    check_contact ext gm =
      { contact_geometry gm with touch := ext.touch (contact_geometry gm) } := by
  unfold check_contact contact_geometry
  cases gm.contact_type <;> rfl

/-- C14: `check_contact` sets the contact geometry by contact kind and stores (and
returns) the touch decision of the Normal submodel taken on that geometry: for a
particle-particle contact `dx = xi - xj`, `rsq = |dx|^2`, `radsum = radi + radj`,
`Reff = radi * radj / (radi + radj)`; for a wall contact `dx` as supplied,
`rsq = |dx|^2`, `radsum = radi`; for a wall-region contact `rsq = r * r`, `radsum = radi`;
in both wall cases `Reff = radi` when `radj = 0` and `radi * radj / (radi + radj)`
otherwise. -/
theorem check_contact_geometry (ext : Ext) (gm : GranularModel) :
    (gm.contact_type = .PAIR →
      (check_contact ext gm).dx = sub3 gm.xi gm.xj ∧
      (check_contact ext gm).rsq = lensq3 (check_contact ext gm).dx ∧
      (check_contact ext gm).radsum = gm.radi + gm.radj ∧
      (check_contact ext gm).Reff = gm.radi * gm.radj / (gm.radi + gm.radj)) ∧
    (gm.contact_type = .WALL →
      (check_contact ext gm).dx = gm.dx ∧
      (check_contact ext gm).rsq = lensq3 gm.dx ∧
      (check_contact ext gm).radsum = gm.radi) ∧
    (gm.contact_type = .WALLREGION →
      (check_contact ext gm).r = gm.r ∧
      (check_contact ext gm).rsq = gm.r * gm.r ∧
      (check_contact ext gm).radsum = gm.radi) ∧
    (gm.contact_type ≠ .PAIR → gm.radj = 0 → (check_contact ext gm).Reff = gm.radi) ∧
    (gm.contact_type ≠ .PAIR → gm.radj ≠ 0 →
      (check_contact ext gm).Reff = gm.radi * gm.radj / (gm.radi + gm.radj)) ∧
    (check_contact ext gm).touch = ext.touch (contact_geometry gm) ∧
    (contact_geometry gm).dx = (check_contact ext gm).dx ∧
    (contact_geometry gm).rsq = (check_contact ext gm).rsq ∧
    (contact_geometry gm).radsum = (check_contact ext gm).radsum ∧
    (contact_geometry gm).Reff = (check_contact ext gm).Reff := by
  rw [check_contact_eq]
  refine ⟨fun h => ?_, fun h => ?_, fun h => ?_, fun h h0 => ?_, fun h h0 => ?_, rfl, rfl,
    rfl, rfl, rfl⟩
  · simp only [contact_geometry, h, and_self]
  · simp only [contact_geometry, h, and_self]
  · simp only [contact_geometry, h, and_self]
  · cases hc : gm.contact_type
    · exact absurd hc h
    · simp only [contact_geometry, hc, h0, if_true]
    · simp only [contact_geometry, hc, h0, if_true]
  · cases hc : gm.contact_type
    · exact absurd hc h
    · simp only [contact_geometry, hc, h0, if_false]
    · simp only [contact_geometry, hc, h0, if_false]

/-- C14 (witness): `check_contact` on two spheres of radius 1 at distance 1 gives
`radsum = 2`. -/
theorem check_contact_geometry_witness :
    shearContact.dx = sub3 ⟨1, 0, 0⟩ Vec3.zero ∧ shearContact.radsum = 1 + 1 := by
  obtain ⟨h1, h2, h3, -⟩ := (check_contact_geometry shearExt
    { samplePlain with xi := ⟨1, 0, 0⟩, radi := 1, radj := 1 }).1 (by decide)
  exact ⟨h1, h3⟩

theorem sds_eval (m : GSM) (gm : GranularModel) :
    GSMTwistingSDS.calculate_forces m gm =
      if |sds_trial m gm| > sds_Mtcrit m gm then
        set_twist gm
          ((integrate_history m gm).set m.history_index (sds_rescaled m gm))
          (-sds_Mtcrit m gm * signtwist gm.magtwist)
      else set_twist gm (integrate_history m gm) (sds_trial m gm) := rfl

theorem marshall_eval (m : GSM) (gm : GranularModel) :
    GSMTwistingMarshall.calculate_forces m gm =
      if |marshall_trial m gm| > marshall_Mtcrit m gm then
        set_twist gm
          ((integrate_history m gm).set m.history_index (marshall_rescaled m gm))
          (-marshall_Mtcrit m gm * signtwist gm.magtwist)
      else set_twist gm (integrate_history m gm) (marshall_trial m gm) := rfl

theorem getD_set_self (l : List ℚ) (i : Nat) (a d : ℚ) (h : i < l.length) :
    (l.set i a).getD i d = a := by
  simp [List.getD_eq_getElem?_getD, List.getElem?_set_self h]

theorem getD_set_ne (l : List ℚ) (i j : Nat) (a d : ℚ) (h : i ≠ j) :
    (l.set i a).getD j d = l.getD j d := by
  simp [List.getD_eq_getElem?_getD, List.getElem?_set_ne h]

theorem getD_of_length_le (l : List ℚ) (i : Nat) (d : ℚ) (h : l.length ≤ i) :
    l.getD i d = d := by
  simp [List.getD_eq_getElem?_getD, List.getElem?_eq_none h]

theorem integrate_history_length (m : GSM) (gm : GranularModel) :
    (integrate_history m gm).length = gm.history.length := by
  unfold integrate_history
  split_ifs <;> simp

theorem integrate_history_ne (m : GSM) (gm : GranularModel) (j : Nat)
    (h : m.history_index ≠ j) :
    (integrate_history m gm).getD j 0 = gm.history.getD j 0 := by
  unfold integrate_history
  split_ifs
  · exact getD_set_ne _ _ _ _ _ h
  · rfl

theorem signtwist_cases (x : ℚ) :
    (0 < x ∧ signtwist x = 1) ∨ (x = 0 ∧ signtwist x = 0) ∨ (x < 0 ∧ signtwist x = -1) := by
  unfold signtwist
  rcases lt_trichotomy x 0 with h | h | h
  · right; right
    refine ⟨h, ?_⟩
    rw [if_neg (not_lt.2 h.le), if_pos h]
    norm_num
  · right; left
    subst h
    simp
  · left
    refine ⟨h, ?_⟩
    rw [if_pos h, if_neg (not_lt.2 h.le)]
    norm_num

theorem abs_signtwist (x : ℚ) (h : x ≠ 0) : |signtwist x| = 1 := by
  rcases signtwist_cases x with ⟨-, e⟩ | ⟨e0, -⟩ | ⟨-, e⟩
  · rw [e]; norm_num
  · exact absurd e0 h
  · rw [e]; norm_num

theorem sds_yield (m : GSM) (gm : GranularModel) (h : |sds_trial m gm| > sds_Mtcrit m gm) :
    GSMTwistingSDS.calculate_forces m gm =
      set_twist gm
        ((integrate_history m gm).set m.history_index (sds_rescaled m gm))
        (-sds_Mtcrit m gm * signtwist gm.magtwist) := by
  rw [sds_eval, if_pos h]

theorem sds_no_yield (m : GSM) (gm : GranularModel)
    (h : ¬ |sds_trial m gm| > sds_Mtcrit m gm) :
    GSMTwistingSDS.calculate_forces m gm =
      set_twist gm (integrate_history m gm) (sds_trial m gm) := by
  rw [sds_eval, if_neg h]

/-- C15 (amended): in `GSMTwistingSDS::calculate_forces`, whenever the trial torque
`M = -k * history - damp * magtwist` has magnitude greater than `Mtcrit = mu * Fncrit`,
the stored history becomes `(Mtcrit * sign(magtwist) - damp * magtwist) / k` and the
output torque is `-Mtcrit * sign(magtwist)`, whose magnitude is `Mtcrit` when
`magtwist ≠ 0` and `Mtcrit ≥ 0`, and which is 0 when `magtwist = 0`; when
`|M| ≤ Mtcrit` the output is `M` and the history is the integrated one, not rescaled. -/
theorem sds_yield_rule (m : GSM) (gm : GranularModel)
    (hidx : m.history_index < gm.history.length) :
    (|sds_trial m gm| > sds_Mtcrit m gm →
      (GSMTwistingSDS.calculate_forces m gm).history.getD m.history_index 0 =
        (sds_Mtcrit m gm * signtwist gm.magtwist - m.damp * gm.magtwist) / m.k ∧
      (GSMTwistingSDS.calculate_forces m gm).magtortwist =
        -sds_Mtcrit m gm * signtwist gm.magtwist ∧
      (gm.magtwist ≠ 0 → 0 ≤ sds_Mtcrit m gm →
        |(GSMTwistingSDS.calculate_forces m gm).magtortwist| = sds_Mtcrit m gm) ∧
      (gm.magtwist = 0 → (GSMTwistingSDS.calculate_forces m gm).magtortwist = 0)) ∧
    (|sds_trial m gm| ≤ sds_Mtcrit m gm →
      (GSMTwistingSDS.calculate_forces m gm).magtortwist = sds_trial m gm ∧
      (GSMTwistingSDS.calculate_forces m gm).history = integrate_history m gm) := by
  refine ⟨fun h => ?_, fun h => ?_⟩
  · rw [sds_yield m gm h]
    refine ⟨?_, rfl, fun hw hM => ?_, fun hw => ?_⟩
    · exact getD_set_self _ _ _ _ (by rw [integrate_history_length]; exact hidx)
    · show |(-sds_Mtcrit m gm * signtwist gm.magtwist)| = _
      rw [abs_mul, abs_neg, abs_signtwist _ hw, abs_of_nonneg hM, mul_one]
    · show -sds_Mtcrit m gm * signtwist gm.magtwist = 0
      rw [hw]
      simp [signtwist]
  · rw [sds_no_yield m gm (not_lt.2 h)]
    exact ⟨rfl, rfl⟩

theorem twistRest_facts :
    sdsModel.history_index = 0 ∧ sdsModel.k = 1 ∧ sdsModel.damp = 0 ∧ sdsModel.mu = 1 ∧
      sdsDamped.history_index = 0 ∧ sdsDamped.k = 1 ∧ sdsDamped.damp = 1 ∧ sdsDamped.mu = 1 ∧
      twistRest.history = [5, 0, 0] ∧ twistRest.magtwist = 0 ∧ Fncrit twistRest = 1 ∧
      twistRest.history_update = false :=
  ⟨rfl, rfl, rfl, rfl, rfl, rfl, rfl, rfl, rfl, rfl, rfl, rfl⟩

theorem twistRest_trial :
    sds_trial sdsModel twistRest = -5 ∧ sds_Mtcrit sdsModel twistRest = 1 := by
  obtain ⟨a1, a2, a3, a4, -, -, -, -, b1, b2, b3, b4⟩ := twistRest_facts
  simp only [sds_trial, sds_Mtcrit, integrate_history, a1, a2, a3, a4, b1, b2, b3, b4]
  norm_num

/-- C15 (as stated, refuted): with stored twist 5, twist rate 0, `k = 1`, `damp = 0` and
`Mtcrit = 1` the trial torque -5 exceeds the critical torque, and the output torque is 0:
its magnitude is not `Mtcrit`. -/
theorem sds_yield_rule_counterexample :
    |sds_trial sdsModel twistRest| > sds_Mtcrit sdsModel twistRest ∧
      sds_Mtcrit sdsModel twistRest = 1 ∧
      (GSMTwistingSDS.calculate_forces sdsModel twistRest).magtortwist = 0 ∧
      |(GSMTwistingSDS.calculate_forces sdsModel twistRest).magtortwist| ≠
        sds_Mtcrit sdsModel twistRest := by
  obtain ⟨t1, t2⟩ := twistRest_trial
  have hy : |sds_trial sdsModel twistRest| > sds_Mtcrit sdsModel twistRest := by
    rw [t1, t2]; norm_num
  have h0 : (GSMTwistingSDS.calculate_forces sdsModel twistRest).magtortwist = 0 := by
    rw [sds_yield _ _ hy]
    show -sds_Mtcrit sdsModel twistRest * signtwist twistRest.magtwist = 0
    rw [t2, twistRest_facts.2.2.2.2.2.2.2.2.2.1]
    simp [signtwist]
  refine ⟨hy, t2, h0, ?_⟩
  rw [h0, t2]
  norm_num

/-- C15 (witness): on `twistTurning` (twist rate 1) the law yields and the output torque
has magnitude `Mtcrit`. -/
theorem sds_yield_rule_witness :
    |(GSMTwistingSDS.calculate_forces sdsModel twistTurning).magtortwist| =
      sds_Mtcrit sdsModel twistTurning := by
  have hy : |sds_trial sdsModel twistTurning| > sds_Mtcrit sdsModel twistTurning := by
    obtain ⟨a1, a2, a3, a4, -⟩ := twistRest_facts
    have e1 : twistTurning.history = [5, 0, 0] := rfl
    have e2 : twistTurning.magtwist = 1 := rfl
    have e3 : Fncrit twistTurning = 1 := rfl
    have e4 : twistTurning.history_update = false := rfl
    simp only [sds_trial, sds_Mtcrit, integrate_history, a1, a2, a3, a4, e1, e2, e3, e4]
    norm_num
  have hM : (0 : ℚ) ≤ sds_Mtcrit sdsModel twistTurning := by
    have e3 : Fncrit twistTurning = 1 := rfl
    simp only [sds_Mtcrit, twistRest_facts.2.2.2.1, e3]
    norm_num
  exact ((sds_yield_rule sdsModel twistTurning (by decide)).1 hy).2.2.1
    (by show (1 : ℚ) ≠ 0; norm_num) hM

theorem twistTurning_plain :
    sds_trial sdsModel twistTurning = -5 ∧ sds_Mtcrit sdsModel twistTurning = 1 := by
  obtain ⟨a1, a2, a3, a4, -⟩ := twistRest_facts
  have e1 : twistTurning.history = [5, 0, 0] := rfl
  have e2 : twistTurning.magtwist = 1 := rfl
  have e3 : Fncrit twistTurning = 1 := rfl
  have e4 : twistTurning.history_update = false := rfl
  simp only [sds_trial, sds_Mtcrit, integrate_history, a1, a2, a3, a4, e1, e2, e3, e4]
  norm_num

theorem marshall_yield (m : GSM) (gm : GranularModel)
    (h : |marshall_trial m gm| > marshall_Mtcrit m gm) :
    GSMTwistingMarshall.calculate_forces m gm =
      set_twist gm ((integrate_history m gm).set m.history_index (marshall_rescaled m gm))
        (-marshall_Mtcrit m gm * signtwist gm.magtwist) := by
  rw [marshall_eval, if_pos h]

theorem marshall_no_yield (m : GSM) (gm : GranularModel)
    (h : ¬ |marshall_trial m gm| > marshall_Mtcrit m gm) :
    GSMTwistingMarshall.calculate_forces m gm =
      set_twist gm (integrate_history m gm) (marshall_trial m gm) := by
  rw [marshall_eval, if_neg h]

theorem integrate_history_off (m : GSM) (gm : GranularModel)
    (hu : gm.history_update = false) : integrate_history m gm = gm.history := by
  unfold integrate_history
  rw [hu]
  rfl

/-- C17 (amended): with `history_update = false` the integration step of the twisting
laws writes no history slot, and `GSMTwistingSDS::calculate_forces` and
`GSMTwistingMarshall::calculate_forces` leave the history array unchanged whenever the
trial torque does not exceed the critical torque; when it does, slot `history_index` is
overwritten with the rescaled value. -/
theorem twisting_history_without_update (m : GSM) (gm : GranularModel)
    (hu : gm.history_update = false) :
    integrate_history m gm = gm.history ∧
    (|sds_trial m gm| ≤ sds_Mtcrit m gm →
      (GSMTwistingSDS.calculate_forces m gm).history = gm.history) ∧
    (|sds_trial m gm| > sds_Mtcrit m gm →
      (GSMTwistingSDS.calculate_forces m gm).history =
        gm.history.set m.history_index (sds_rescaled m gm)) ∧
    (|marshall_trial m gm| ≤ marshall_Mtcrit m gm →
      (GSMTwistingMarshall.calculate_forces m gm).history = gm.history) ∧
    (|marshall_trial m gm| > marshall_Mtcrit m gm →
      (GSMTwistingMarshall.calculate_forces m gm).history =
        gm.history.set m.history_index (marshall_rescaled m gm)) := by
  have hi := integrate_history_off m gm hu
  refine ⟨hi, fun h => ?_, fun h => ?_, fun h => ?_, fun h => ?_⟩
  · rw [sds_no_yield m gm (not_lt.2 h)]
    exact hi
  · rw [sds_yield m gm h, ← hi]
    rfl
  · rw [marshall_no_yield m gm (not_lt.2 h)]
    exact hi
  · rw [marshall_yield m gm h, ← hi]
    rfl

/-- C17 (as stated, refuted): with `history_update = false`, stored twist 5, twist rate
0 and `Mtcrit = 1` the SDS law yields and overwrites the stored twist with 0. -/
theorem twisting_history_without_update_counterexample :
    twistRest.history_update = false ∧ twistRest.history = [5, 0, 0] ∧
      (GSMTwistingSDS.calculate_forces sdsModel twistRest).history = [0, 0, 0] := by
  obtain ⟨t1, t2⟩ := twistRest_trial
  obtain ⟨a1, a2, a3, a4, -, -, -, -, b1, b2, b3, b4⟩ := twistRest_facts
  have hy : |sds_trial sdsModel twistRest| > sds_Mtcrit sdsModel twistRest := by
    rw [t1, t2]; norm_num
  refine ⟨b4, b1, ?_⟩
  rw [sds_yield _ _ hy, integrate_history_off _ _ b4]
  show twistRest.history.set sdsModel.history_index (sds_rescaled sdsModel twistRest) = _
  rw [b1, a1]
  simp only [sds_rescaled, t2, b2, a2, a3, signtwist, lt_self_iff_false, if_false, List.set]
  norm_num

/-- C17 (witness): with `history_update = false` and stored twist 1 at twist rate 0 the
trial torque -1 does not exceed `Mtcrit = 1`, and the history is unchanged. -/
theorem twisting_history_without_update_witness :
    (GSMTwistingSDS.calculate_forces sdsModel (set_history twistRest [1, 0, 0])).history =
      [1, 0, 0] := by
  obtain ⟨a1, a2, a3, a4, -⟩ := twistRest_facts
  have e1 : (set_history twistRest [1, 0, 0]).history = [1, 0, 0] := rfl
  have e2 : (set_history twistRest [1, 0, 0]).magtwist = 0 := rfl
  have e3 : Fncrit (set_history twistRest [1, 0, 0]) = 1 := rfl
  have e4 : (set_history twistRest [1, 0, 0]).history_update = false := rfl
  exact (twisting_history_without_update sdsModel (set_history twistRest [1, 0, 0]) rfl).2.1
    (by
      simp only [sds_trial, sds_Mtcrit, integrate_history, a1, a2, a3, a4, e1, e2, e3, e4]
      norm_num)

theorem marshall_step_length (m : GSM) (gm : GranularModel) :
    (GSMTwistingMarshall.calculate_forces m gm).history.length = gm.history.length := by
  rw [marshall_eval]
  split_ifs
  · show ((integrate_history m gm).set _ _).length = _
    rw [List.length_set, integrate_history_length]
  · exact integrate_history_length m gm

theorem sds_step_length (m : GSM) (gm : GranularModel) :
    (GSMTwistingSDS.calculate_forces m gm).history.length = gm.history.length := by
  rw [sds_eval]
  split_ifs
  · show ((integrate_history m gm).set _ _).length = _
    rw [List.length_set, integrate_history_length]
  · exact integrate_history_length m gm

theorem sds_step_other (m : GSM) (gm : GranularModel) (j : Nat) (h : j ≠ m.history_index) :
    (GSMTwistingSDS.calculate_forces m gm).history.getD j 0 = gm.history.getD j 0 := by
  rw [sds_eval]
  split_ifs
  · show ((integrate_history m gm).set _ _).getD j 0 = _
    rw [getD_set_ne _ _ _ _ _ (Ne.symm h), integrate_history_ne m gm j (Ne.symm h)]
  · exact integrate_history_ne m gm j (Ne.symm h)

theorem marshall_step_other (m : GSM) (gm : GranularModel) (j : Nat)
    (h : j ≠ m.history_index) :
    (GSMTwistingMarshall.calculate_forces m gm).history.getD j 0 = gm.history.getD j 0 := by
  rw [marshall_eval]
  split_ifs
  · show ((integrate_history m gm).set _ _).getD j 0 = _
    rw [getD_set_ne _ _ _ _ _ (Ne.symm h), integrate_history_ne m gm j (Ne.symm h)]
  · exact integrate_history_ne m gm j (Ne.symm h)

/-- The integrated value of slot `history_index` depends on the history array only
through that slot, for arrays that both hold the slot. -/
theorem integrate_history_slot (m : GSM) (gm : GranularModel) (H : List ℚ)
    (hH : m.history_index < H.length) (hg : m.history_index < gm.history.length)
    (h : H.getD m.history_index 0 = gm.history.getD m.history_index 0) :
    (integrate_history m (set_history gm H)).getD m.history_index 0 =
      (integrate_history m gm).getD m.history_index 0 := by
  unfold integrate_history
  show (if gm.history_update = true then
      H.set m.history_index (H.getD m.history_index 0 + gm.magtwist * gm.dt) else H).getD
        m.history_index 0 = _
  split_ifs
  · rw [getD_set_self _ _ _ _ hH, getD_set_self _ _ _ _ hg, h]
  · exact h

theorem sds_step_reads_slot (m : GSM) (gm : GranularModel) (H : List ℚ)
    (hH : m.history_index < H.length) (hg : m.history_index < gm.history.length)
    (h : H.getD m.history_index 0 = gm.history.getD m.history_index 0) :
    (GSMTwistingSDS.calculate_forces m (set_history gm H)).magtortwist =
        (GSMTwistingSDS.calculate_forces m gm).magtortwist ∧
      (GSMTwistingSDS.calculate_forces m (set_history gm H)).history.getD m.history_index 0 =
        (GSMTwistingSDS.calculate_forces m gm).history.getD m.history_index 0 := by
  have e := integrate_history_slot m gm H hH hg h
  have l1 : m.history_index < (integrate_history m (set_history gm H)).length := by
    rw [integrate_history_length]; exact hH
  have l2 : m.history_index < (integrate_history m gm).length := by
    rw [integrate_history_length]; exact hg
  have t : sds_trial m (set_history gm H) = sds_trial m gm := by
    unfold sds_trial
    rw [e]
    rfl
  have c : sds_Mtcrit m (set_history gm H) = sds_Mtcrit m gm := rfl
  have r : sds_rescaled m (set_history gm H) = sds_rescaled m gm := rfl
  rw [sds_eval, sds_eval, t, c, r]
  split_ifs
  · refine ⟨rfl, ?_⟩
    show ((integrate_history m (set_history gm H)).set _ _).getD _ 0 =
      ((integrate_history m gm).set _ _).getD _ 0
    rw [getD_set_self _ _ _ _ l1, getD_set_self _ _ _ _ l2]
  · exact ⟨rfl, e⟩

theorem marshall_step_reads_slot (m : GSM) (gm : GranularModel) (H : List ℚ)
    (hH : m.history_index < H.length) (hg : m.history_index < gm.history.length)
    (h : H.getD m.history_index 0 = gm.history.getD m.history_index 0) :
    (GSMTwistingMarshall.calculate_forces m (set_history gm H)).magtortwist =
        (GSMTwistingMarshall.calculate_forces m gm).magtortwist ∧
      (GSMTwistingMarshall.calculate_forces m (set_history gm H)).history.getD
          m.history_index 0 =
        (GSMTwistingMarshall.calculate_forces m gm).history.getD m.history_index 0 := by
  have e := integrate_history_slot m gm H hH hg h
  have l1 : m.history_index < (integrate_history m (set_history gm H)).length := by
    rw [integrate_history_length]; exact hH
  have l2 : m.history_index < (integrate_history m gm).length := by
    rw [integrate_history_length]; exact hg
  have t : marshall_trial m (set_history gm H) = marshall_trial m gm := by
    unfold marshall_trial
    rw [e]
    rfl
  have c : marshall_Mtcrit m (set_history gm H) = marshall_Mtcrit m gm := rfl
  have r : marshall_rescaled m (set_history gm H) = marshall_rescaled m gm := rfl
  rw [marshall_eval, marshall_eval, t, c, r]
  split_ifs
  · refine ⟨rfl, ?_⟩
    show ((integrate_history m (set_history gm H)).set _ _).getD _ 0 =
      ((integrate_history m gm).set _ _).getD _ 0
    rw [getD_set_self _ _ _ _ l1, getD_set_self _ _ _ _ l2]
  · exact ⟨rfl, e⟩

/-- C19: the twisting evaluation stays inside its history slice. For a twisting
submodel `m` (class `GSMTwistingSDS` or `GSMTwistingMarshall`, with the `size_history`
its constructor declares) the declared size is 3 and `history_index` lies in
`[history_index, history_index + size_history)`; both `calculate_forces` keep the length
of the history array and the value of every slot other than `history_index`; and they
read the array only at `history_index`: on another array `H` that agrees with the history
in that slot, the output torque and the new value of the slot are the same. -/
theorem twisting_history_slice (ext : Ext) (m : GSM) (gm : GranularModel) (H : List ℚ)
    (hcls : m.cls = .GSMTwistingSDS ∨ m.cls = .GSMTwistingMarshall)
    (hsz : m.size_history = (GSM.create ext m.cls).size_history)
    (hH : m.history_index < H.length) (hg : m.history_index < gm.history.length)
    (h : H.getD m.history_index 0 = gm.history.getD m.history_index 0) :
    m.size_history = 3 ∧
    ((m.history_index : Int) ≤ m.history_index ∧
      (m.history_index : Int) < m.history_index + m.size_history) ∧
    (GSMTwistingSDS.calculate_forces m gm).history.length = gm.history.length ∧
    (GSMTwistingMarshall.calculate_forces m gm).history.length = gm.history.length ∧
    (∀ j : Nat, j ≠ m.history_index →
      (GSMTwistingSDS.calculate_forces m gm).history.getD j 0 = gm.history.getD j 0 ∧
      (GSMTwistingMarshall.calculate_forces m gm).history.getD j 0 = gm.history.getD j 0) ∧
    ((GSMTwistingSDS.calculate_forces m (set_history gm H)).magtortwist =
        (GSMTwistingSDS.calculate_forces m gm).magtortwist ∧
      (GSMTwistingSDS.calculate_forces m (set_history gm H)).history.getD m.history_index 0 =
        (GSMTwistingSDS.calculate_forces m gm).history.getD m.history_index 0) ∧
    ((GSMTwistingMarshall.calculate_forces m (set_history gm H)).magtortwist =
        (GSMTwistingMarshall.calculate_forces m gm).magtortwist ∧
      (GSMTwistingMarshall.calculate_forces m (set_history gm H)).history.getD
          m.history_index 0 =
        (GSMTwistingMarshall.calculate_forces m gm).history.getD m.history_index 0) := by
  have h3 : m.size_history = 3 := by
    rw [hsz]
    rcases hcls with e | e <;> rw [e] <;> rfl
  refine ⟨h3, ⟨le_refl _, ?_⟩, sds_step_length m gm, marshall_step_length m gm,
    fun j hj => ⟨sds_step_other m gm j hj, marshall_step_other m gm j hj⟩,
    sds_step_reads_slot m gm H hH hg h, marshall_step_reads_slot m gm H hH hg h⟩
  rw [h3]
  omega

/-- C19 (witness): the SDS submodel `sdsModel` on `twistTurning`, compared with the
history `[5, 7, 9]` that differs from `[5, 0, 0]` outside slot 0. -/
theorem twisting_history_slice_witness :
    (GSMTwistingSDS.calculate_forces sdsModel (set_history twistTurning [5, 7, 9])).magtortwist
      = (GSMTwistingSDS.calculate_forces sdsModel twistTurning).magtortwist ∧
    (GSMTwistingSDS.calculate_forces sdsModel twistTurning).history.getD 1 0 = 0 ∧
    (GSMTwistingSDS.calculate_forces sdsModel twistTurning).history.getD 2 0 = 0 := by
  have hw := twisting_history_slice sampleExt sdsModel twistTurning [5, 7, 9] (Or.inl rfl) rfl
    (by decide) (by decide) rfl
  exact ⟨hw.2.2.2.2.2.1.1, (hw.2.2.2.2.1 1 (by decide)).1, (hw.2.2.2.2.1 2 (by decide)).1⟩

theorem sds_coeffs_to_local_eval (ext : Ext) (m : GSM) (hc : m.cls = .GSMTwistingSDS) :
    GSM.coeffs_to_local ext m =
      if m.coeffs.getD 0 0 < 0 ∨ m.coeffs.getD 2 0 < 0 ∨ m.coeffs.getD 1 0 < 0 then
        .error "Illegal SDS twisting model"
      else
        .ok { m with
          k := m.coeffs.getD 0 0, damp := m.coeffs.getD 1 0, mu := m.coeffs.getD 2 0 } := by
  unfold GSM.coeffs_to_local
  rw [hc]

/-- C27: `GSMTwistingMarshall::calculate_forces` is `GSMTwistingSDS::calculate_forces` run
with `k = 0.5 * k_tang * area^2`, `damp = 0.5 * (Tangential damp) * area^2` and
`mu = (2/3) * mu_tang * area` on the same history slot: the two leave the same state (the
same history and the same `magtortwist`); and `GSMTwistingMarshall::init` reads `k_tang`
and `mu_tang` from the Tangential submodel's `k` and `mu`. -/
theorem marshall_is_sds (ext : Ext) (m : GSM) (gm : GranularModel) :
    GSMTwistingMarshall.calculate_forces m gm =
      GSMTwistingSDS.calculate_forces (marshall_as_sds m gm) gm ∧
    (marshall_as_sds m gm).k = 0.5 * m.k_tang * gm.area ^ 2 ∧
    (marshall_as_sds m gm).damp = 0.5 * tangential_damp gm * gm.area ^ 2 ∧
    (marshall_as_sds m gm).mu = 2 / 3 * m.mu_tang * gm.area ∧
    (marshall_as_sds m gm).history_index = m.history_index ∧
    (∀ tm : GSM, m.cls = .GSMTwistingMarshall → gm.tangential_model = some tm →
      (sub_init ext gm m).k_tang = tm.k ∧ (sub_init ext gm m).mu_tang = tm.mu) := by
  refine ⟨rfl, ?_, ?_, rfl, rfl, fun tm hc ht => ?_⟩
  · show marshall_k m gm = _
    unfold marshall_k
    ring
  · show marshall_damp gm = _
    unfold marshall_damp
    ring
  · unfold sub_init
    rw [hc]
    simp only [ht, and_self]

/-- C27 (witness): `init` of the Marshall submodel on `marshallContact` reads `k_tang = 2`
and `mu_tang = 3`, and its evaluation is the SDS evaluation with the derived
coefficients. -/
theorem marshall_is_sds_witness :
    (sub_init sampleExt marshallContact marshallModel).k_tang = 2 ∧
      (sub_init sampleExt marshallContact marshallModel).mu_tang = 3 ∧
      GSMTwistingMarshall.calculate_forces marshallModel marshallContact =
        GSMTwistingSDS.calculate_forces (marshall_as_sds marshallModel marshallContact)
          marshallContact :=
  ⟨((marshall_is_sds sampleExt marshallModel marshallContact).2.2.2.2.2 _ rfl rfl).1,
    ((marshall_is_sds sampleExt marshallModel marshallContact).2.2.2.2.2 _ rfl rfl).2,
    (marshall_is_sds sampleExt marshallModel marshallContact).1⟩

/-- C29 (amended): whenever `GSMTwistingSDS::calculate_forces` yields with `Mtcrit > 0`,
`damp ≥ 0`, a nonzero twist rate and a stored twist that does not oppose the twist rate
(`k * history * magtwist ≥ 0`), the clamped output `-Mtcrit * sign(magtwist)` has the
same sign as the trial torque that it replaces. -/
theorem sds_yield_direction (m : GSM) (gm : GranularModel)
    (hy : |sds_trial m gm| > sds_Mtcrit m gm) (hM : 0 < sds_Mtcrit m gm)
    (hw : gm.magtwist ≠ 0) (hd : 0 ≤ m.damp)
    (hh : 0 ≤ m.k * (integrate_history m gm).getD m.history_index 0 * gm.magtwist) :
    (GSMTwistingSDS.calculate_forces m gm).magtortwist =
        -sds_Mtcrit m gm * signtwist gm.magtwist ∧
      (((GSMTwistingSDS.calculate_forces m gm).magtortwist < 0 ∧ sds_trial m gm < 0) ∨
        (0 < (GSMTwistingSDS.calculate_forces m gm).magtortwist ∧ 0 < sds_trial m gm)) := by
  have hne : sds_trial m gm ≠ 0 := by
    intro h0
    rw [h0, abs_zero] at hy
    exact absurd hM (not_lt.2 hy.le)
  rw [sds_yield m gm hy]
  refine ⟨rfl, ?_⟩
  show (-sds_Mtcrit m gm * signtwist gm.magtwist < 0 ∧ _) ∨
    (0 < -sds_Mtcrit m gm * signtwist gm.magtwist ∧ _)
  have ht : sds_trial m gm =
      -m.k * (integrate_history m gm).getD m.history_index 0 - m.damp * gm.magtwist := rfl
  rcases signtwist_cases gm.magtwist with ⟨hp, e⟩ | ⟨h0, -⟩ | ⟨hn, e⟩
  · left
    rw [e]
    refine ⟨by linarith, lt_of_le_of_ne ?_ hne⟩
    have h1 : 0 ≤ m.k * (integrate_history m gm).getD m.history_index 0 :=
      nonneg_of_mul_nonneg_left hh hp
    have h2 : 0 ≤ m.damp * gm.magtwist := mul_nonneg hd hp.le
    rw [ht]
    linarith
  · exact absurd h0 hw
  · right
    rw [e]
    refine ⟨by linarith, lt_of_le_of_ne ?_ (Ne.symm hne)⟩
    have h1 : m.k * (integrate_history m gm).getD m.history_index 0 ≤ 0 := by
      by_contra hc
      have := mul_neg_of_pos_of_neg (not_le.1 hc) hn
      linarith
    have h2 : m.damp * gm.magtwist ≤ 0 := mul_nonpos_of_nonneg_of_nonpos hd hn.le
    rw [ht]
    linarith

theorem twistBack_plain :
    sds_trial sdsModel twistBack = -5 ∧ sds_Mtcrit sdsModel twistBack = 1 ∧
      signtwist twistBack.magtwist = -1 := by
  obtain ⟨a1, a2, a3, a4, -⟩ := twistRest_facts
  have e1 : twistBack.history = [5, 0, 0] := rfl
  have e2 : twistBack.magtwist = -1 := rfl
  have e3 : Fncrit twistBack = 1 := rfl
  have e4 : twistBack.history_update = false := rfl
  simp only [sds_trial, sds_Mtcrit, integrate_history, a1, a2, a3, a4, e1, e2, e3, e4,
    signtwist]
  norm_num

/-- C29 (as stated, refuted): with stored twist 5, twist rate -1, `k = 1`, `damp = 0` and
`Mtcrit = 1` the trial torque is -5, the law yields, and the clamped output is +1: the
signs differ. -/
theorem sds_yield_direction_counterexample :
    |sds_trial sdsModel twistBack| > sds_Mtcrit sdsModel twistBack ∧
      sds_trial sdsModel twistBack = -5 ∧
      (GSMTwistingSDS.calculate_forces sdsModel twistBack).magtortwist = 1 := by
  obtain ⟨t1, t2, t3⟩ := twistBack_plain
  have hy : |sds_trial sdsModel twistBack| > sds_Mtcrit sdsModel twistBack := by
    rw [t1, t2]; norm_num
  refine ⟨hy, t1, ?_⟩
  rw [sds_yield _ _ hy]
  show -sds_Mtcrit sdsModel twistBack * signtwist twistBack.magtwist = 1
  rw [t2, t3]
  norm_num

/-- C29 (witness): with stored twist 5 and twist rate 1 the trial torque -5 and the
clamped output are both negative. -/
theorem sds_yield_direction_witness :
    ((GSMTwistingSDS.calculate_forces sdsModel twistTurning).magtortwist < 0 ∧
        sds_trial sdsModel twistTurning < 0) ∨
      (0 < (GSMTwistingSDS.calculate_forces sdsModel twistTurning).magtortwist ∧
        0 < sds_trial sdsModel twistTurning) :=
  (sds_yield_direction sdsModel twistTurning
    (by rw [twistTurning_plain.1, twistTurning_plain.2]; norm_num)
    (by rw [twistTurning_plain.2]; norm_num)
    (by show (1 : ℚ) ≠ 0; norm_num) (by show (0 : ℚ) ≤ 0; norm_num)
    (by
      have e1 : twistTurning.history = [5, 0, 0] := rfl
      have e4 : twistTurning.history_update = false := rfl
      have e2 : twistTurning.magtwist = 1 := rfl
      obtain ⟨a1, a2, -⟩ := twistRest_facts
      simp only [integrate_history, e1, e2, e4, a1, a2]
      norm_num)).2

/-- C25: the area heat law returns `conductivity * area * (Ti - Tj)`; it is 0 when
`Ti = Tj`, changes sign when the two temperatures are swapped, and is non-negative
whenever `Ti ≥ Tj` and `area ≥ 0`, because `HeatArea::coeffs_to_local` accepts only a
non-negative conductivity: it rejects every negative one. -/
theorem heat_area_law (h h2 : HeatArea) (contact : GranularModel)
    (hok : h.coeffs_to_local = .ok h2) :
    h2.conductivity = h.coeffs.getD 0 0 ∧ 0 ≤ h2.conductivity ∧
    h2.calculate_heat contact = h2.conductivity * contact.area * (contact.Ti - contact.Tj) ∧
    (contact.Ti = contact.Tj → h2.calculate_heat contact = 0) ∧
    h2.calculate_heat (swap_temperatures contact) = -h2.calculate_heat contact ∧
    (contact.Tj ≤ contact.Ti → 0 ≤ contact.area → 0 ≤ h2.calculate_heat contact) ∧
    (∀ g : HeatArea, g.coeffs.getD 0 0 < 0 →
      g.coeffs_to_local = .error "Illegal area heat model") := by
  have hc : ¬ h.coeffs.getD 0 0 < 0 ∧ h2 = { h with conductivity := h.coeffs.getD 0 0 } := by
    unfold HeatArea.coeffs_to_local at hok
    simp only at hok
    split_ifs at hok with hneg
    exact ⟨hneg, (Except.ok.inj hok).symm⟩
  obtain ⟨hneg, rfl⟩ := hc
  have h0 : (0 : ℚ) ≤ h.coeffs.getD 0 0 := not_lt.1 hneg
  refine ⟨rfl, h0, rfl, fun e => ?_, ?_, fun ht ha => ?_, fun g hg => ?_⟩
  · show h.coeffs.getD 0 0 * contact.area * (contact.Ti - contact.Tj) = 0
    rw [e, sub_self, mul_zero]
  · show h.coeffs.getD 0 0 * contact.area * (contact.Tj - contact.Ti) =
      -(h.coeffs.getD 0 0 * contact.area * (contact.Ti - contact.Tj))
    ring
  · show 0 ≤ h.coeffs.getD 0 0 * contact.area * (contact.Ti - contact.Tj)
    exact mul_nonneg (mul_nonneg h0 ha) (sub_nonneg.2 ht)
  · unfold HeatArea.coeffs_to_local
    exact if_pos hg

/-- C25 (witness): conductivity 2, area 3, temperatures 5 and 1 give the heat rate 24. -/
theorem heat_area_law_witness :
    heatSample.coeffs_to_local = .ok ⟨[2], 2⟩ ∧
      HeatArea.calculate_heat ⟨[2], 2⟩ heatContact = 24 ∧
      HeatArea.calculate_heat ⟨[2], 2⟩ (swap_temperatures heatContact) = -24 := by
  have hok : heatSample.coeffs_to_local = .ok ⟨[2], 2⟩ := rfl
  obtain ⟨-, -, h3, -, h5, -⟩ := heat_area_law heatSample ⟨[2], 2⟩ heatContact hok
  have e : HeatArea.calculate_heat ⟨[2], 2⟩ heatContact = 24 := by
    rw [h3]
    show (2 : ℚ) * 3 * (5 - 1) = 24
    norm_num
  exact ⟨hok, e, by rw [h5, e]⟩

theorem calculate_forces_kinematics (ext : Ext) (gm : GranularModel) :
    ∃ gm', calculate_forces ext gm = .ok gm' ∧
      gm'.r = contact_distance ext gm ∧ gm'.rinv = 1 / contact_distance ext gm ∧
      gm'.nx = scale3 (1 / contact_distance ext gm) gm.dx ∧
      gm'.vr = sub3 gm.vi gm.vj ∧
      gm'.vn = scale3 (dot3 gm'.vr gm'.nx) gm'.nx ∧
      gm'.vt = sub3 gm'.vr gm'.vn ∧
      gm'.Reff = gm.Reff ∧
      (gm.rolling_defined ≠ 0 →
        gm'.relrot = sub3 gm.omegai gm.omegaj ∧
        gm'.vrl = scale3 gm.Reff (cross3 gm'.relrot gm'.nx)) := by
  obtain ⟨fr, history, magtortwist, dq, h⟩ := calculate_forces_final ext gm
  refine ⟨_, h, ?_, ?_, ?_, ?_, ?_, ?_, ?_, fun hr => ⟨?_, ?_⟩⟩
  · show (normal_state ext gm).r = _
    simp only [normal_state, normal_forces, contact_area, kinematics, contact_distance]
  · show (normal_state ext gm).rinv = _
    simp only [normal_state, normal_forces, contact_area, kinematics, contact_distance]
  · show (normal_state ext gm).nx = _
    simp only [normal_state, normal_forces, contact_area, kinematics, contact_distance]
  · show (normal_state ext gm).vr = _
    simp only [normal_state, normal_forces, contact_area, kinematics, contact_distance]
  · show (normal_state ext gm).vn =
      scale3 (dot3 (normal_state ext gm).vr (normal_state ext gm).nx) (normal_state ext gm).nx
    simp only [normal_state, normal_forces, contact_area, kinematics, contact_distance]
  · show (normal_state ext gm).vt = sub3 (normal_state ext gm).vr (normal_state ext gm).vn
    simp only [normal_state, normal_forces, contact_area, kinematics, contact_distance]
  · show (normal_state ext gm).Reff = _
    simp only [normal_state, normal_forces, contact_area, kinematics, contact_distance]
  · show (normal_state ext gm).relrot = _
    simp only [normal_state, normal_forces, contact_area, kinematics, contact_distance, hr,
      ne_eq, not_false_eq_true, true_or, if_true]
  · show (normal_state ext gm).vrl =
      scale3 gm.Reff (cross3 (normal_state ext gm).relrot (normal_state ext gm).nx)
    simp only [normal_state, normal_forces, contact_area, kinematics, contact_distance, hr,
      ne_eq, not_false_eq_true, true_or, if_true, scale3, cross3]

/-- C21 (as stated, refuted): `init()` succeeds on `sampleModel`; for two spheres of radius
1 with coincident centres `check_contact` returns true (`rsq = 0 < 4`), and
`calculate_forces` then divides by `r = 0` in `rinv = 1 / r`. -/
theorem calculate_forces_error_free_counterexample :
    init sampleExt sampleModel = .ok sampleInit ∧
      (check_contact sampleExt coincident).touch = true ∧
      ∃ gm', calculate_forces sampleExt (check_contact sampleExt coincident) = .ok gm' ∧
        gm'.rinv = 1 / gm'.r ∧ gm'.r = 0 := by
  have ht : (check_contact sampleExt coincident).touch = true := by
    rw [check_contact_eq]
    show decide ((contact_geometry coincident).rsq <
      (contact_geometry coincident).radsum * (contact_geometry coincident).radsum) = true
    have e1 : (contact_geometry coincident).rsq = 0 := by
      show lensq3 (sub3 Vec3.zero Vec3.zero) = 0
      simp [lensq3, sub3, Vec3.zero]
    have e2 : (contact_geometry coincident).radsum = 1 + 1 := rfl
    rw [e1, e2]
    norm_num
  refine ⟨rfl, ht, ?_⟩
  obtain ⟨gm', h, k1, k2, -⟩ :=
    calculate_forces_kinematics sampleExt (check_contact sampleExt coincident)
  have hc : contact_distance sampleExt (check_contact sampleExt coincident) = 0 := by
    have e1 : (check_contact sampleExt coincident).contact_type = .PAIR := by decide
    have e2 : (check_contact sampleExt coincident).rsq = 0 := by
      show lensq3 (sub3 Vec3.zero Vec3.zero) = 0
      simp [lensq3, sub3, Vec3.zero]
    rw [contact_distance, e1, e2]
    simp [sampleExt]
  exact ⟨gm', h, by rw [k2, k1], by rw [k1, hc]⟩

theorem set_coeffs_set_coeffs (m : GSM) (a b : List ℚ) :
    (m.set_coeffs a).set_coeffs b = m.set_coeffs b := rfl

theorem set_coeffs_coeffs (m : GSM) (a : List ℚ) : (m.set_coeffs a).coeffs = a := rfl

theorem read_coeffs_succ (u : Utils) (arg : List String) (iarg i n : Nat) (m : GSM) :
    read_coeffs u arg iarg i (n + 1) m =
      if token arg (iarg + i) = "NULL" then
        read_coeffs u arg iarg (i + 1) n (m.set_coeffs (m.coeffs.set i (-1)))
      else
        match u.numeric (token arg (iarg + i)) with
        | .error e => .error e
        | .ok x => read_coeffs u arg iarg (i + 1) n (m.set_coeffs (m.coeffs.set i x)) := rfl

/-- What one successful pass of the coefficient loop stores in slot `i`. -/
theorem read_coeffs_step (u : Utils) (arg : List String) (iarg i n : Nat) (m m1 : GSM)
    (h : read_coeffs u arg iarg i (n + 1) m = .ok m1) :
    ∃ x, read_coeffs u arg iarg (i + 1) n (m.set_coeffs (m.coeffs.set i x)) = .ok m1 ∧
      ((token arg (iarg + i) = "NULL" ∧ x = -1) ∨
        (token arg (iarg + i) ≠ "NULL" ∧ u.numeric (token arg (iarg + i)) = .ok x)) := by
  rw [read_coeffs_succ] at h
  split_ifs at h with hnull
  · exact ⟨-1, h, Or.inl ⟨hnull, rfl⟩⟩
  · cases hx : u.numeric (token arg (iarg + i)) with
    | error e => rw [hx] at h; cases h
    | ok x =>
      rw [hx] at h
      exact ⟨x, h, Or.inr ⟨hnull, rfl⟩⟩

/-- The coefficient loop changes only the coefficient array, keeps its length and the
slots before `i`, and stores in every slot `i ≤ j < i + n` of the array the value of the
token `arg[iarg + j]`: -1 for `NULL`, its numeric value otherwise. -/
theorem read_coeffs_spec (u : Utils) (arg : List String) (iarg : Nat) :
    ∀ (n i : Nat) (m m1 : GSM), read_coeffs u arg iarg i n m = .ok m1 →
      m1 = m.set_coeffs m1.coeffs ∧ m1.coeffs.length = m.coeffs.length ∧
      (∀ j, j < i → m1.coeffs.getD j 0 = m.coeffs.getD j 0) ∧
      (∀ j, i ≤ j → j < i + n → j < m.coeffs.length →
        (token arg (iarg + j) = "NULL" ∧ m1.coeffs.getD j 0 = -1) ∨
        (token arg (iarg + j) ≠ "NULL" ∧
          u.numeric (token arg (iarg + j)) = .ok (m1.coeffs.getD j 0)))
  | 0, i, m, m1, h => by
      cases h
      exact ⟨rfl, rfl, fun _ _ => rfl, fun j h1 h2 _ => absurd h2 (by omega)⟩
  | n + 1, i, m, m1, h => by
      obtain ⟨x, hx, htok⟩ := read_coeffs_step u arg iarg i n m m1 h
      obtain ⟨e1, e2, e3, e4⟩ := read_coeffs_spec u arg iarg n (i + 1) _ m1 hx
      rw [set_coeffs_set_coeffs] at e1
      rw [set_coeffs_coeffs, List.length_set] at e2
      rw [set_coeffs_coeffs] at e3
      refine ⟨e1, e2, fun j hj => ?_, fun j h1 h2 h3 => ?_⟩
      · rw [e3 j (by omega), getD_set_ne _ _ _ _ _ (by omega)]
      · rcases Nat.eq_or_lt_of_le h1 with hij | hij
        · subst hij
          rw [e3 i (by omega), getD_set_self _ _ _ _ h3]
          rcases htok with ⟨a, b⟩ | ⟨a, b⟩
          · exact Or.inl ⟨a, b⟩
          · exact Or.inr ⟨a, b⟩
        · exact e4 j (by omega) (by omega) (by rw [set_coeffs_coeffs, List.length_set]; exact h3)

/-- The coefficient loop reads only the tokens `arg[iarg + i .. iarg + i + n - 1]`. -/
theorem read_coeffs_congr (u : Utils) (arg arg2 : List String) (iarg : Nat) :
    ∀ (n i : Nat) (m : GSM),
      (∀ j, i ≤ j → j < i + n → token arg2 (iarg + j) = token arg (iarg + j)) →
      read_coeffs u arg2 iarg i n m = read_coeffs u arg iarg i n m
  | 0, _, _, _ => rfl
  | n + 1, i, m, h => by
      rw [read_coeffs_succ, read_coeffs_succ, h i (le_refl _) (by omega)]
      have ih : ∀ m2, read_coeffs u arg2 iarg (i + 1) n m2 = read_coeffs u arg iarg (i + 1) n m2 :=
        fun m2 => read_coeffs_congr u arg arg2 iarg n (i + 1) m2
          (fun j h1 h2 => h j (by omega) (by omega))
      simp only [ih]

theorem coeffs_to_local_num_coeffs (ext : Ext) (m m2 : GSM)
    (h : GSM.coeffs_to_local ext m = .ok m2) : m2.num_coeffs = m.num_coeffs := by
  unfold GSM.coeffs_to_local at h
  split at h
  · simp only at h
    split_ifs at h
    cases h
    rfl
  · cases h
    rfl
  · cases hl : ext.coeffs_to_local m.cls m.coeffs with
    | error e => rw [hl] at h; cases h
    | ok l =>
      rw [hl] at h
      cases h
      rfl

/-- The method `init_submodel` when the name is registered for the category. -/
theorem init_submodel_of_class (ext : Ext) (u : Utils) (arg : List String) (iarg narg : Nat)
    (t : SubmodelType) (gm : GranularModel) (v : Variant)
    (hv : select_class (token arg iarg) t = .ok v) (hi : iarg < narg) :
    init_submodel ext u arg iarg narg t gm =
      if iarg + 1 + (classInfo ext v).num_coeffs > narg then
        .error ("Insufficient arguments provided for " ++ token arg iarg ++ " model")
      else
        match read_coeffs u arg (iarg + 1) 0 (classInfo ext v).num_coeffs
            (GSM.named ext v (token arg iarg)) with
        | .error e => .error e
        | .ok m1 =>
            match GSM.coeffs_to_local ext m1 with
            | .error e => .error e
            | .ok m2 =>
                .ok (iarg + 1 + (classInfo ext v).num_coeffs,
                  set_sub_model (set_sub_model (set_defined gm t (token arg iarg)) t
                    (GSM.named ext v (token arg iarg))) t m2) := by
  unfold init_submodel
  rw [if_neg (not_le.2 hi), construct_submodel_of_class ext _ t gm v hv]
  simp only [sub_models_set_same]
  rfl

theorem init_submodel_spec (ext : Ext) (u : Utils) (arg : List String) (iarg narg : Nat)
    (t : SubmodelType) (gm gm' : GranularModel) (ret : Nat)
    (h : init_submodel ext u arg iarg narg t gm = .ok (ret, gm')) :
    iarg < narg ∧ ∃ v m1 m2, select_class (token arg iarg) t = .ok v ∧
      iarg + 1 + (classInfo ext v).num_coeffs ≤ narg ∧
      read_coeffs u arg (iarg + 1) 0 (classInfo ext v).num_coeffs
        (GSM.named ext v (token arg iarg)) = .ok m1 ∧
      GSM.coeffs_to_local ext m1 = .ok m2 ∧
      ret = iarg + 1 + (classInfo ext v).num_coeffs ∧
      gm' = set_sub_model (set_sub_model (set_defined gm t (token arg iarg)) t
        (GSM.named ext v (token arg iarg))) t m2 := by
  have hi : iarg < narg := by
    by_contra hc
    unfold init_submodel at h
    rw [if_pos (not_lt.1 hc)] at h
    cases h
  refine ⟨hi, ?_⟩
  cases hv : select_class (token arg iarg) t with
  | error e =>
    unfold init_submodel at h
    rw [if_neg (not_le.2 hi)] at h
    simp only [construct_submodel, hv] at h
    cases h
  | ok v =>
    rw [init_submodel_of_class ext u arg iarg narg t gm v hv hi] at h
    split_ifs at h with hfit
    cases h1 : read_coeffs u arg (iarg + 1) 0 (classInfo ext v).num_coeffs
        (GSM.named ext v (token arg iarg)) with
    | error e => rw [h1] at h; cases h
    | ok m1 =>
      rw [h1] at h
      simp only at h
      cases h2 : GSM.coeffs_to_local ext m1 with
      | error e => rw [h2] at h; cases h
      | ok m2 =>
        rw [h2] at h
        cases h
        exact ⟨v, m1, m2, rfl, not_lt.1 hfit, h1, h2, rfl, rfl⟩

theorem named_coeffs_length (ext : Ext) (v : Variant) (name : String) :
    (GSM.named ext v name).coeffs.length = (classInfo ext v).num_coeffs := by
  simp [GSM.named, GSM.create]

/-- C24 (amended): whenever `init_submodel` succeeds from position `iarg`, it has read
exactly the model-name token `arg[iarg]` and the `num_coeffs` parameter tokens after it
(storing -1 for a `NULL` token and the token's numeric value otherwise), and its return
value is the position of the first token after them, `iarg + 1 + num_coeffs`: the
starting position plus the number of tokens consumed. -/
theorem init_submodel_consumes (ext : Ext) (u : Utils) (arg : List String) (iarg narg : Nat)
    (t : SubmodelType) (gm gm' : GranularModel) (ret : Nat)
    (h : init_submodel ext u arg iarg narg t gm = .ok (ret, gm')) :
    iarg < narg ∧ ret ≤ narg ∧
    ∃ m, sub_models gm' t = some m ∧ m.name = token arg iarg ∧
      ret = iarg + (1 + m.num_coeffs) ∧
      (∀ i, i < m.num_coeffs →
        (token arg (iarg + 1 + i) = "NULL" ∧ m.coeffs.getD i 0 = -1) ∨
        (token arg (iarg + 1 + i) ≠ "NULL" ∧
          u.numeric (token arg (iarg + 1 + i)) = .ok (m.coeffs.getD i 0))) ∧
      (∀ arg2 : List String,
        (∀ p, iarg ≤ p → p < iarg + (1 + m.num_coeffs) → token arg2 p = token arg p) →
        init_submodel ext u arg2 iarg narg t gm = .ok (ret, gm')) := by
  obtain ⟨hi, v, m1, m2, hv, hfit, h1, h2, hret, hgm⟩ :=
    init_submodel_spec ext u arg iarg narg t gm gm' ret h
  obtain ⟨e1, -, -, e4⟩ := read_coeffs_spec u arg (iarg + 1) _ 0 _ m1 h1
  obtain ⟨c1, c2⟩ := coeffs_to_local_ok ext m1 m2 h2
  have c3 := coeffs_to_local_num_coeffs ext m1 m2 h2
  have hn1 : m1.num_coeffs = (classInfo ext v).num_coeffs := by rw [e1]; rfl
  have hn : m2.num_coeffs = (classInfo ext v).num_coeffs := c3.trans hn1
  have hname : m2.name = token arg iarg := by rw [c1, e1]; rfl
  refine ⟨hi, by omega, m2, by rw [hgm]; exact sub_models_set_same _ _ _, hname,
    by omega, fun i hlt => ?_, fun arg2 hagree => ?_⟩
  · rw [c2]
    exact e4 i (Nat.zero_le _) (by omega) (by rw [named_coeffs_length]; omega)
  · have ht : token arg2 iarg = token arg iarg := hagree iarg (le_refl _) (by omega)
    have hv2 : select_class (token arg2 iarg) t = .ok v := by rw [ht]; exact hv
    rw [init_submodel_of_class ext u arg2 iarg narg t gm v hv2 hi, if_neg (not_lt.2 hfit), ht,
      read_coeffs_congr u arg arg2 (iarg + 1) _ 0 _
        (fun j _ hj => hagree (iarg + 1 + j) (by omega) (by omega)), h1]
    simp only
    rw [h2, hret, hgm]

/-- C24 (as stated, refuted): on `pair_coeff * hooke 1000 50` from position 2,
`init_submodel` consumes the name and 2 coefficients, 3 tokens, and returns 5. -/
theorem init_submodel_consumes_counterexample :
    ∃ gm' m, init_submodel sampleExt sampleUtils sampleArgs 2 5 .NORMAL GranularModel.new =
        .ok (5, gm') ∧
      sub_models gm' .NORMAL = some m ∧ m.num_coeffs = 2 ∧ m.coeffs = [1000, 50] ∧
      (5 : Nat) ≠ 1 + m.num_coeffs :=
  ⟨_, _, rfl, rfl, rfl, rfl, by decide⟩

/-- C24 (witness): the same call returns `2 + (1 + 2)` and stores the name `hooke`. -/
theorem init_submodel_consumes_witness :
    ∃ gm' m, init_submodel sampleExt sampleUtils sampleArgs 2 5 .NORMAL GranularModel.new =
        .ok (5, gm') ∧
      sub_models gm' .NORMAL = some m ∧ m.name = "hooke" ∧ 5 = 2 + (1 + m.num_coeffs) := by
  have h : init_submodel sampleExt sampleUtils sampleArgs 2 5 .NORMAL GranularModel.new =
      .ok (5, (match init_submodel sampleExt sampleUtils sampleArgs 2 5 .NORMAL
        GranularModel.new with
        | .ok r => r.2
        | .error _ => GranularModel.new)) := rfl
  obtain ⟨-, -, m, h1, h2, h3, -⟩ :=
    init_submodel_consumes sampleExt sampleUtils sampleArgs 2 5 .NORMAL GranularModel.new _ 5 h
  exact ⟨_, m, h, h1, h2, h3⟩

theorem classic_legal_bounds (v : ClassicArgs) (h : ¬ classic_illegal v) :
    0 ≤ v.kn ∧ 0 ≤ v.kt ∧ 0 ≤ v.gamman ∧ 0 ≤ classic_gammat v ∧ 0 ≤ v.xmu ∧
      v.xmu ≤ 10000 ∧ 0 ≤ v.dampflag ∧ v.dampflag ≤ 1 := by
  simp only [classic_illegal, not_or, not_lt, gt_iff_lt] at h
  exact h

theorem getD_nonneg (l : List ℚ) (i : Nat) (h : ∀ c ∈ l, 0 ≤ c) : 0 ≤ l.getD i 0 := by
  rw [List.getD_eq_getElem?_getD]
  cases hi : l[i]? with
  | none => exact le_refl _
  | some x => exact h x (List.getElem?_mem hi)

theorem set_nonneg (l : List ℚ) (i : Nat) (x : ℚ) (h : ∀ c ∈ l, 0 ≤ c) (hx : 0 ≤ x) :
    ∀ c ∈ l.set i x, 0 ≤ c := by
  intro c hc
  rcases List.mem_or_eq_of_mem_set hc with h1 | h1
  · exact h c h1
  · rw [h1]; exact hx

theorem named_coeffs_nonneg (ext : Ext) (v : Variant) (name : String) :
    ∀ c ∈ (GSM.named ext v name).coeffs, 0 ≤ c := by
  intro c hc
  have hc2 : c ∈ List.replicate (classInfo ext v).num_coeffs (0 : ℚ) := hc
  rw [List.eq_of_mem_replicate hc2]

/-- When the hooks of the absent classes accept every coefficient array without negative
entry, so does `coeffs_to_local` of every class. -/
theorem coeffs_to_local_accepts (ext : Ext)
    (hacc : ∀ v cs, (∀ c ∈ cs, (0 : ℚ) ≤ c) → ∃ l, ext.coeffs_to_local v cs = .ok l)
    (m : GSM) (hm : ∀ c ∈ m.coeffs, 0 ≤ c) :
    ∃ m2, GSM.coeffs_to_local ext m = .ok m2 ∧ m2.coeffs = m.coeffs ∧ m2.name = m.name := by
  unfold GSM.coeffs_to_local
  split
  · simp only
    rw [if_neg]
    · exact ⟨_, rfl, rfl, rfl⟩
    · simp only [not_or, not_lt]
      exact ⟨getD_nonneg _ _ hm, getD_nonneg _ _ hm, getD_nonneg _ _ hm⟩
  · exact ⟨_, rfl, rfl, rfl⟩
  · obtain ⟨l, hl⟩ := hacc m.cls m.coeffs hm
    rw [hl]
    exact ⟨_, rfl, rfl, rfl⟩

theorem classic_choice_cases (name : String) (c : ClassicChoice)
    (h : classic_choice name = .ok c) :
    (name = "hooke" ∧ c = ⟨"hooke", "linear_nohistory", "mass_velocity", false⟩) ∨
    (name = "hooke/history" ∧
      c = ⟨"hooke", "linear_history_classic", "mass_velocity", false⟩) ∨
    (name = "hertz/history" ∧ c = ⟨"hertz", "mindlin", "viscoelastic", true⟩) := by
  unfold classic_choice at h
  split_ifs at h with h1 h2 h3
  · exact Or.inl ⟨h1, (Except.ok.inj h).symm⟩
  · exact Or.inr (Or.inl ⟨h2, (Except.ok.inj h).symm⟩)
  · exact Or.inr (Or.inr ⟨h3, (Except.ok.inj h).symm⟩)

theorem classic_choice_known (name : String) :
    (∃ c, classic_choice name = .ok c) ↔
      name ∈ ["hooke", "hooke/history", "hertz/history"] := by
  unfold classic_choice
  simp only [List.mem_cons, List.mem_singleton, List.not_mem_nil, or_false]
  split_ifs <;> simp_all

theorem construct_all_cons (ext : Ext) (name : String) (t : SubmodelType) (v : Variant)
    (rest : List (String × SubmodelType)) (gm : GranularModel)
    (h : select_class name t = .ok v) :
    construct_all ext ((name, t) :: rest) gm =
      construct_all ext rest (construct_as ext name t v gm) := by
  simp only [construct_all, construct_submodel_of_class ext name t gm v h, construct_as]

theorem sub_models_construct_same (ext : Ext) (gm : GranularModel) (t : SubmodelType)
    (name : String) (v : Variant) :
    sub_models (construct_as ext name t v gm) t = some (GSM.named ext v name) :=
  sub_models_set_same _ _ _

theorem sub_models_construct_other (ext : Ext) (gm : GranularModel) (t s : SubmodelType)
    (name : String) (v : Variant) (h : s ≠ t) :
    sub_models (construct_as ext name t v gm) s = sub_models gm s := by
  unfold construct_as
  rw [sub_models_set_other _ _ _ _ h, sub_models_set_defined]

theorem construct_classic_model (ext : Ext) (gm : GranularModel) (t : SubmodelType)
    (name : String) (v : Variant) :
    (construct_as ext name t v gm).classic_model = gm.classic_model := by
  cases t <;> rfl

theorem classic_choice_classes (name : String) (c : ClassicChoice)
    (h : classic_choice name = .ok c) :
    ∃ vn vt vd, select_class c.normal .NORMAL = .ok vn ∧
      select_class c.tangential .TANGENTIAL = .ok vt ∧
      select_class c.damping .DAMPING = .ok vd := by
  rcases classic_choice_cases name c h with ⟨-, rfl⟩ | ⟨-, rfl⟩ | ⟨-, rfl⟩
  · exact ⟨.GSMNormalHooke, .GSMTangentialLinearNoHistory, .GSMDampingMassVelocity,
      rfl, rfl, rfl⟩
  · exact ⟨.GSMNormalHooke, .GSMTangentialLinearHistoryClassic, .GSMDampingMassVelocity,
      rfl, rfl, rfl⟩
  · exact ⟨.GSMNormalHertz, .GSMTangentialMindlin, .GSMDampingViscoelastic,
      rfl, rfl, rfl⟩

/-- The six constructions of `init_classic_model` succeed and leave fresh Normal,
Tangential and Damping objects of the classes registered for the three names. -/
theorem construct_all_classic (ext : Ext) (name : String) (c : ClassicChoice)
    (gm : GranularModel) (h : classic_choice name = .ok c) :
    ∃ vn vt vd gm1, select_class c.normal .NORMAL = .ok vn ∧
      select_class c.tangential .TANGENTIAL = .ok vt ∧
      select_class c.damping .DAMPING = .ok vd ∧
      construct_all ext (classic_calls c) gm = .ok gm1 ∧
      gm1.normal_model = some (GSM.named ext vn c.normal) ∧
      gm1.tangential_model = some (GSM.named ext vt c.tangential) ∧
      gm1.damping_model = some (GSM.named ext vd c.damping) ∧
      gm1.classic_model = gm.classic_model := by
  obtain ⟨vn, vt, vd, s1, s2, s3⟩ := classic_choice_classes name c h
  have r1 : select_class "none" .ROLLING = .ok .GSMRollingNone := rfl
  have r2 : select_class "none" .TWISTING = .ok .GSMTwistingNone := rfl
  have r3 : select_class "none" .HEAT = .ok .GSMHeatNone := rfl
  refine ⟨vn, vt, vd,
    construct_as ext "none" .HEAT .GSMHeatNone
      (construct_as ext "none" .TWISTING .GSMTwistingNone
        (construct_as ext "none" .ROLLING .GSMRollingNone
          (construct_as ext c.damping .DAMPING vd
            (construct_as ext c.tangential .TANGENTIAL vt
              (construct_as ext c.normal .NORMAL vn gm))))),
    s1, s2, s3, ?_, ?_, ?_, ?_, ?_⟩
  · unfold classic_calls
    rw [construct_all_cons ext _ _ vn _ _ s1, construct_all_cons ext _ _ vt _ _ s2,
      construct_all_cons ext _ _ vd _ _ s3, construct_all_cons ext _ _ _ _ _ r1,
      construct_all_cons ext _ _ _ _ _ r2, construct_all_cons ext _ _ _ _ _ r3]
    rfl
  · show sub_models _ .NORMAL = _
    rw [sub_models_construct_other _ _ _ _ _ _ (by decide),
      sub_models_construct_other _ _ _ _ _ _ (by decide),
      sub_models_construct_other _ _ _ _ _ _ (by decide),
      sub_models_construct_other _ _ _ _ _ _ (by decide),
      sub_models_construct_other _ _ _ _ _ _ (by decide), sub_models_construct_same]
  · show sub_models _ .TANGENTIAL = _
    rw [sub_models_construct_other _ _ _ _ _ _ (by decide),
      sub_models_construct_other _ _ _ _ _ _ (by decide),
      sub_models_construct_other _ _ _ _ _ _ (by decide),
      sub_models_construct_other _ _ _ _ _ _ (by decide), sub_models_construct_same]
  · show sub_models _ .DAMPING = _
    rw [sub_models_construct_other _ _ _ _ _ _ (by decide),
      sub_models_construct_other _ _ _ _ _ _ (by decide),
      sub_models_construct_other _ _ _ _ _ _ (by decide), sub_models_construct_same]
  · rw [construct_classic_model, construct_classic_model, construct_classic_model,
      construct_classic_model, construct_classic_model, construct_classic_model]

theorem classic_coeffs_ok (ext : Ext) (kn kt gamman gammat xmu : ℚ) (gm : GranularModel)
    (nm tm dm nm2 tm2 dm2 : GSM) (h1 : gm.normal_model = some nm)
    (h2 : gm.tangential_model = some tm) (h3 : gm.damping_model = some dm)
    (c1 : GSM.coeffs_to_local ext (classic_normal nm kn gamman) = .ok nm2)
    (c2 : GSM.coeffs_to_local ext (classic_tangential tm kt gammat gamman xmu) = .ok tm2)
    (c3 : GSM.coeffs_to_local ext dm = .ok dm2) :
    classic_coeffs ext kn kt gamman gammat xmu gm = .ok (set_classic gm nm2 tm2 dm2) := by
  unfold classic_coeffs
  rw [h1, h2, h3]
  simp only [c1, c2, c3]

theorem classic_scale_nonneg (u : Utils) (c : ClassicChoice) (x : ℚ) (hx : 0 ≤ x)
    (hn : 0 ≤ u.nktv2p) : 0 ≤ classic_scale u c x := by
  unfold classic_scale
  split_ifs
  · exact div_nonneg hx hn
  · exact hx

theorem init_classic_model_of_values (ext : Ext) (u : Utils) (arg : List String)
    (iarg narg : Nat) (gm : GranularModel) (v : ClassicArgs) (h6 : iarg + 6 < narg)
    (hv : classic_values u arg iarg = .ok v) :
    init_classic_model ext u arg iarg narg gm =
      if classic_illegal v then .error "Illegal classic gran model command"
      else
        match classic_choice (token arg iarg) with
        | .error e => .error e
        | .ok c =>
            match construct_all ext (classic_calls c) (mark_classic gm) with
            | .error e => .error e
            | .ok gm1 =>
                match classic_coeffs ext (classic_scale u c v.kn) (classic_scale u c v.kt)
                    v.gamman (classic_gammat v) v.xmu gm1 with
                | .error e => .error e
                | .ok gm2 => .ok (iarg + 7, gm2) := by
  unfold init_classic_model
  rw [if_neg (not_le.2 h6), hv]

/-- The classic configuration is accepted when the values pass the validation, the name
is a classic model name, and the hooks accept coefficient arrays without negative
entry; the coefficient arrays of the Normal and Tangential objects are the fresh arrays
with the five assignments made. -/
theorem init_classic_model_accepts (ext : Ext) (u : Utils) (arg : List String)
    (iarg narg : Nat) (gm : GranularModel) (v : ClassicArgs) (c : ClassicChoice)
    (h6 : iarg + 6 < narg) (hv : classic_values u arg iarg = .ok v)
    (hl : ¬ classic_illegal v) (hc : classic_choice (token arg iarg) = .ok c)
    (hacc : ∀ w cs, (∀ x ∈ cs, (0 : ℚ) ≤ x) → ∃ l, ext.coeffs_to_local w cs = .ok l)
    (hn : 0 ≤ u.nktv2p) :
    ∃ gm' vn vt nm tm, init_classic_model ext u arg iarg narg gm = .ok (iarg + 7, gm') ∧
      gm'.classic_model = 1 ∧
      select_class c.normal .NORMAL = .ok vn ∧ select_class c.tangential .TANGENTIAL = .ok vt ∧
      gm'.normal_model = some nm ∧ gm'.tangential_model = some tm ∧
      nm.name = c.normal ∧ tm.name = c.tangential ∧
      nm.coeffs = ((List.replicate (classInfo ext vn).num_coeffs 0).set 0
        (classic_scale u c v.kn)).set 1 v.gamman ∧
      tm.coeffs = (((List.replicate (classInfo ext vt).num_coeffs 0).set 0
        (classic_scale u c v.kt)).set 1 (classic_gammat v / v.gamman)).set 2 v.xmu := by
  obtain ⟨b1, b2, b3, b4, b5, -⟩ := classic_legal_bounds v hl
  obtain ⟨vn, vt, vd, gm1, s1, s2, s3, hall, g1, g2, g3, g4⟩ :=
    construct_all_classic ext (token arg iarg) c (mark_classic gm) hc
  obtain ⟨nm2, n1, n2, n3⟩ := coeffs_to_local_accepts ext hacc
    (classic_normal (GSM.named ext vn c.normal) (classic_scale u c v.kn) v.gamman)
    (set_nonneg _ _ _ (set_nonneg _ _ _ (named_coeffs_nonneg ext vn _)
      (classic_scale_nonneg u c _ b1 hn)) b3)
  obtain ⟨tm2, t1, t2, t3⟩ := coeffs_to_local_accepts ext hacc
    (classic_tangential (GSM.named ext vt c.tangential) (classic_scale u c v.kt)
      (classic_gammat v) v.gamman v.xmu)
    (set_nonneg _ _ _ (set_nonneg _ _ _ (set_nonneg _ _ _ (named_coeffs_nonneg ext vt _)
      (classic_scale_nonneg u c _ b2 hn)) (div_nonneg b4 b3)) b5)
  obtain ⟨dm2, d1, -, -⟩ := coeffs_to_local_accepts ext hacc (GSM.named ext vd c.damping)
    (named_coeffs_nonneg ext vd _)
  refine ⟨set_classic gm1 nm2 tm2 dm2, vn, vt, nm2, tm2, ?_, g4, s1, s2, rfl, rfl, n3, t3,
    n2, t2⟩
  rw [init_classic_model_of_values ext u arg iarg narg gm v h6 hv, if_neg hl, hc]
  simp only [hall]
  rw [classic_coeffs_ok ext _ _ _ _ _ gm1 _ _ _ nm2 tm2 dm2 g1 g2 g3 n1 t1 d1]

theorem classic_values_of (u : Utils) (arg : List String) (iarg : Nat)
    (kn kt gamman gammat xmu : ℚ) (dampflag : Int)
    (h1 : u.numeric (token arg (iarg + 1)) = .ok kn)
    (h2 : numeric_or u (token arg (iarg + 2)) (kn * 2 / 7) = .ok kt)
    (h3 : u.numeric (token arg (iarg + 3)) = .ok gamman)
    (h4 : numeric_or u (token arg (iarg + 4)) (0.5 * gamman) = .ok gammat)
    (h5 : u.numeric (token arg (iarg + 5)) = .ok xmu)
    (h6 : u.inumeric (token arg (iarg + 6)) = .ok dampflag) :
    classic_values u arg iarg = .ok ⟨kn, kt, gamman, gammat, xmu, dampflag⟩ := by
  unfold classic_values
  simp only [h1, h2, h3, h4, h5, h6]

theorem numeric_or_null (u : Utils) (tok : String) (dflt : ℚ) (h : tok = "NULL") :
    numeric_or u tok dflt = .ok dflt := by
  unfold numeric_or
  rw [if_pos h]

theorem classic_gammat_neg_iff (v : ClassicArgs) :
    classic_gammat v < 0 ↔ v.gammat < 0 ∧ v.dampflag ≠ 0 := by
  unfold classic_gammat
  split_ifs with h
  · simp [h]
  · simp [h]

theorem set2_getD (l : List ℚ) (a b : ℚ) (h : 2 ≤ l.length) :
    ((l.set 0 a).set 1 b).getD 0 0 = a ∧ ((l.set 0 a).set 1 b).getD 1 0 = b := by
  refine ⟨?_, ?_⟩
  · rw [getD_set_ne _ _ _ _ _ (by decide), getD_set_self _ _ _ _ (by omega)]
  · rw [getD_set_self _ _ _ _ (by rw [List.length_set]; omega)]

theorem set3_getD (l : List ℚ) (a b c : ℚ) (h : 3 ≤ l.length) :
    (((l.set 0 a).set 1 b).set 2 c).getD 0 0 = a ∧
      (((l.set 0 a).set 1 b).set 2 c).getD 1 0 = b ∧
      (((l.set 0 a).set 1 b).set 2 c).getD 2 0 = c := by
  refine ⟨?_, ?_, ?_⟩
  · rw [getD_set_ne _ _ _ _ _ (by decide), getD_set_ne _ _ _ _ _ (by decide),
      getD_set_self _ _ _ _ (by omega)]
  · rw [getD_set_ne _ _ _ _ _ (by decide),
      getD_set_self _ _ _ _ (by rw [List.length_set]; omega)]
  · rw [getD_set_self _ _ _ _ (by rw [List.length_set, List.length_set]; omega)]

theorem sampleExt_accepts (v : Variant) (cs : List ℚ) (h : ∀ x ∈ cs, (0 : ℚ) ≤ x) :
    ∃ l, classicExt.coeffs_to_local v cs = .ok l := by
  show ∃ l, (if cs.any (fun c => decide (c < 0)) then .error "Illegal model"
    else .ok ⟨cs.getD 0 0, cs.getD 1 0, cs.getD 2 0⟩ : Except String Locals) = .ok l
  rw [if_neg]
  · exact ⟨_, rfl⟩
  · simp only [List.any_eq_true, decide_eq_true_eq, not_exists, not_and, not_lt]
    exact h

/-- C22 (amended): for every classic argument list with `kt` and `gammat` given as `NULL`
and `dampflag = 1` that is accepted, `init_classic_model` derives `kt = kn * 2 / 7` and
`gammat = 0.5 * gamman` and configures the submodels with Normal coefficients
`(kn, gamman)`, Tangential stiffness coefficient `kn * 2 / 7` (both stiffnesses divided
by `nktv2p` for `hertz/history`), Tangential damping coefficient `gammat / gamman`, the
ratio of the derived `gammat` to `gamman`, and friction coefficient `xmu`. -/
theorem init_classic_model_defaults (ext : Ext) (u : Utils) (arg : List String)
    (iarg narg : Nat) (gm : GranularModel) (kn gamman xmu : ℚ) (c : ClassicChoice)
    (h6 : iarg + 6 < narg)
    (hkn : u.numeric (token arg (iarg + 1)) = .ok kn) (hkt : token arg (iarg + 2) = "NULL")
    (hgn : u.numeric (token arg (iarg + 3)) = .ok gamman)
    (hgt : token arg (iarg + 4) = "NULL")
    (hxmu : u.numeric (token arg (iarg + 5)) = .ok xmu)
    (hflag : u.inumeric (token arg (iarg + 6)) = .ok 1)
    (hb : 0 ≤ kn ∧ 0 ≤ gamman ∧ 0 ≤ xmu ∧ xmu ≤ 10000)
    (hc : classic_choice (token arg iarg) = .ok c)
    (hacc : ∀ w cs, (∀ x ∈ cs, (0 : ℚ) ≤ x) → ∃ l, ext.coeffs_to_local w cs = .ok l)
    (hn : 0 ≤ u.nktv2p) :
    classic_values u arg iarg = .ok ⟨kn, kn * 2 / 7, gamman, 0.5 * gamman, xmu, 1⟩ ∧
    (c.convert = false → classic_scale u c kn = kn ∧
      classic_scale u c (kn * 2 / 7) = kn * 2 / 7) ∧
    ∃ gm' vn vt nm tm, init_classic_model ext u arg iarg narg gm = .ok (iarg + 7, gm') ∧
      select_class c.normal .NORMAL = .ok vn ∧ select_class c.tangential .TANGENTIAL = .ok vt ∧
      gm'.normal_model = some nm ∧ gm'.tangential_model = some tm ∧
      nm.coeffs.length = (classInfo ext vn).num_coeffs ∧
      tm.coeffs.length = (classInfo ext vt).num_coeffs ∧
      (2 ≤ nm.coeffs.length →
        nm.coeffs.getD 0 0 = classic_scale u c kn ∧ nm.coeffs.getD 1 0 = gamman) ∧
      (3 ≤ tm.coeffs.length →
        tm.coeffs.getD 0 0 = classic_scale u c (kn * 2 / 7) ∧
        tm.coeffs.getD 1 0 = 0.5 * gamman / gamman ∧ tm.coeffs.getD 2 0 = xmu) := by
  obtain ⟨b1, b2, b3, b4⟩ := hb
  have hv := classic_values_of u arg iarg kn (kn * 2 / 7) gamman (0.5 * gamman) xmu 1 hkn
    (numeric_or_null u _ _ hkt) hgn (numeric_or_null u _ _ hgt) hxmu hflag
  have hg : classic_gammat ⟨kn, kn * 2 / 7, gamman, 0.5 * gamman, xmu, 1⟩ = 0.5 * gamman := by
    unfold classic_gammat
    exact if_neg (show ¬ ((1 : Int) = 0) by decide)
  have hl : ¬ classic_illegal ⟨kn, kn * 2 / 7, gamman, 0.5 * gamman, xmu, 1⟩ := by
    simp only [classic_illegal, hg, not_or, not_lt, gt_iff_lt]
    refine ⟨b1, by positivity, b2, by positivity, b3, b4, by decide, by decide⟩
  obtain ⟨gm', vn, vt, nm, tm, hok, -, s1, s2, g1, g2, -, -, cn, ct⟩ :=
    init_classic_model_accepts ext u arg iarg narg gm _ c h6 hv hl hc hacc hn
  rw [hg] at ct
  refine ⟨hv, fun hconv => ?_, gm', vn, vt, nm, tm, hok, s1, s2, g1, g2, ?_, ?_,
    fun hlen => ?_, fun hlen => ?_⟩
  · unfold classic_scale
    rw [hconv]
    exact ⟨rfl, rfl⟩
  · rw [cn, List.length_set, List.length_set, List.length_replicate]
  · rw [ct, List.length_set, List.length_set, List.length_set, List.length_replicate]
  · rw [cn] at hlen ⊢
    rw [List.length_set, List.length_set] at hlen
    exact set2_getD _ _ _ hlen
  · rw [ct] at hlen ⊢
    rw [List.length_set, List.length_set, List.length_set] at hlen
    exact set3_getD _ _ _ _ hlen

theorem sample_numeric_half : sampleUtils.numeric "0.5" = .ok (1 / 2) := by
  have h : sampleUtils.numeric "0.5" =
      .ok (((0 : ℕ) : ℚ) + ((5 : ℕ) : ℚ) / ((10 ^ 1 : ℕ) : ℚ)) := rfl
  rw [h]
  norm_num

theorem classicArgs_values :
    classic_values sampleUtils classicArgs 0 = .ok ⟨100, 100 * 2 / 7, 5, 0.5 * 5, 1 / 2, 1⟩ :=
  classic_values_of sampleUtils classicArgs 0 100 _ 5 _ (1 / 2) 1 rfl
    (numeric_or_null _ _ _ rfl) rfl (numeric_or_null _ _ _ rfl) sample_numeric_half rfl

theorem classicNoDamp_values :
    classic_values sampleUtils classicNoDamp 0 = .ok ⟨100, 100 * 2 / 7, 5, -1, 1 / 2, 0⟩ :=
  classic_values_of sampleUtils classicNoDamp 0 100 _ 5 (-1) (1 / 2) 0 rfl
    (numeric_or_null _ _ _ rfl) rfl rfl sample_numeric_half rfl

theorem classicZero_values :
    classic_values sampleUtils classicZero 0 = .ok ⟨100, 100 * 2 / 7, 0, 0.5 * 0, 1 / 2, 1⟩ :=
  classic_values_of sampleUtils classicZero 0 100 _ 0 _ (1 / 2) 1 rfl
    (numeric_or_null _ _ _ rfl) rfl (numeric_or_null _ _ _ rfl) sample_numeric_half rfl

/-- The classic model `hooke` on the sample instance: the run is accepted and the two
coefficient arrays are `[kn, gamman]` and `[kt, gammat / gamman, xmu]`. -/
theorem classic_sample_run (arg : List String) (v : ClassicArgs)
    (hv : classic_values sampleUtils arg 0 = .ok v) (hl : ¬ classic_illegal v)
    (hname : token arg 0 = "hooke") :
    ∃ gm' nm tm, init_classic_model classicExt sampleUtils arg 0 7 GranularModel.new =
        .ok (7, gm') ∧
      gm'.normal_model = some nm ∧ gm'.tangential_model = some tm ∧
      nm.coeffs = [v.kn, v.gamman] ∧
      tm.coeffs = [v.kt, classic_gammat v / v.gamman, v.xmu] := by
  have hc : classic_choice (token arg 0) = .ok hookeChoice := by rw [hname]; rfl
  obtain ⟨gm', vn, vt, nm, tm, hok, -, s1, s2, g1, g2, -, -, cn, ct⟩ :=
    init_classic_model_accepts classicExt sampleUtils arg 0 7 GranularModel.new v hookeChoice
      (by decide) hv hl hc sampleExt_accepts (by show (0 : ℚ) ≤ 1; norm_num)
  have e1 : vn = .GSMNormalHooke := (Except.ok.inj s1).symm
  have e2 : vt = .GSMTangentialLinearNoHistory := (Except.ok.inj s2).symm
  subst e1 e2
  exact ⟨gm', nm, tm, hok, g1, g2, cn, ct⟩

theorem classicArgs_legal :
    ¬ classic_illegal ⟨100, 100 * 2 / 7, 5, 0.5 * 5, 1 / 2, 1⟩ := by
  have hg : classic_gammat ⟨100, 100 * 2 / 7, 5, 0.5 * 5, 1 / 2, 1⟩ = 0.5 * 5 :=
    if_neg (show ¬ ((1 : Int) = 0) by decide)
  simp only [classic_illegal, hg, not_or, not_lt, gt_iff_lt]
  norm_num

/-- C22 (as stated, refuted): on `hooke 100 NULL 5 NULL 0.5 1` the derived values are
`kt = 100 * 2 / 7` and `gammat = 0.5 * 5 = 5/2`, and the Tangential damping coefficient
that is configured is `gammat / gamman = 1/2`, not `gammat`. -/
theorem init_classic_model_defaults_counterexample :
    classic_values sampleUtils classicArgs 0 = .ok ⟨100, 100 * 2 / 7, 5, 0.5 * 5, 1 / 2, 1⟩ ∧
    ∃ gm' tm, init_classic_model classicExt sampleUtils classicArgs 0 7 GranularModel.new =
        .ok (7, gm') ∧
      gm'.tangential_model = some tm ∧ tm.coeffs.length = 3 ∧
      tm.coeffs.getD 1 0 = 1 / 2 ∧ tm.coeffs.getD 1 0 ≠ 0.5 * 5 := by
  refine ⟨classicArgs_values, ?_⟩
  obtain ⟨gm', nm, tm, hok, -, g2, -, ct⟩ :=
    classic_sample_run classicArgs _ classicArgs_values classicArgs_legal rfl
  have hg : classic_gammat ⟨100, 100 * 2 / 7, 5, 0.5 * 5, 1 / 2, 1⟩ = 0.5 * 5 :=
    if_neg (show ¬ ((1 : Int) = 0) by decide)
  have h1 : tm.coeffs.getD 1 0 = 1 / 2 := by
    rw [ct, hg]
    show (0.5 * 5 / 5 : ℚ) = 1 / 2
    norm_num
  refine ⟨gm', tm, hok, g2, by rw [ct]; rfl, h1, ?_⟩
  rw [h1]
  norm_num

/-- C22 (witness): on `hooke 100 NULL 5 NULL 0.5 1` the Normal coefficients are
`(100, 5)` and the Tangential coefficients `100 * 2 / 7`, `0.5 * 5 / 5` and `1/2`. -/
theorem init_classic_model_defaults_witness :
    ∃ gm' nm tm, init_classic_model classicExt sampleUtils classicArgs 0 7 GranularModel.new =
        .ok (7, gm') ∧
      gm'.normal_model = some nm ∧ gm'.tangential_model = some tm ∧
      nm.coeffs.getD 0 0 = 100 ∧ nm.coeffs.getD 1 0 = 5 ∧
      tm.coeffs.getD 0 0 = 100 * 2 / 7 ∧ tm.coeffs.getD 1 0 = 0.5 * 5 / 5 ∧
      tm.coeffs.getD 2 0 = 1 / 2 := by
  obtain ⟨-, -, gm', vn, vt, nm, tm, hok, s1, s2, g1, g2, l1, l2, cn, ct⟩ :=
    init_classic_model_defaults classicExt sampleUtils classicArgs 0 7 GranularModel.new
      100 5 (1 / 2) hookeChoice (by decide) rfl rfl rfl rfl sample_numeric_half rfl
      (by norm_num) rfl sampleExt_accepts (by show (0 : ℚ) ≤ 1; norm_num)
  have e1 : vn = .GSMNormalHooke := (Except.ok.inj s1).symm
  have e2 : vt = .GSMTangentialLinearNoHistory := (Except.ok.inj s2).symm
  subst e1 e2
  obtain ⟨n0, n1⟩ := cn (by rw [l1]; decide)
  obtain ⟨t0, t1, t2⟩ := ct (by rw [l2]; decide)
  exact ⟨gm', nm, tm, hok, g1, g2, n0, n1, t0, t1, t2⟩

/-- C23 (amended): on a list with seven tokens from `iarg` whose six values are numbers,
`init_classic_model` raises "Illegal classic gran model command" whenever the normal
stiffness, the tangential stiffness or the normal damping is negative, the tangential
damping is negative while the damping flag is not 0 (with the flag 0 the tangential
damping is replaced by 0 before the check), the friction coefficient lies outside
`[0, 10000]`, or the damping flag is neither 0 nor 1; and it accepts every such list
with a known classic model name that violates none of these bounds, the hooks of the
submodels accepting coefficient arrays without negative entry. -/
theorem init_classic_model_validation (ext : Ext) (u : Utils) (arg : List String)
    (iarg narg : Nat) (gm : GranularModel) (v : ClassicArgs)
    (h6 : iarg + 6 < narg) (hv : classic_values u arg iarg = .ok v) :
    ((v.kn < 0 ∨ v.kt < 0 ∨ v.gamman < 0 ∨ (v.gammat < 0 ∧ v.dampflag ≠ 0) ∨
        v.xmu < 0 ∨ v.xmu > 10000 ∨ v.dampflag < 0 ∨ v.dampflag > 1) →
      init_classic_model ext u arg iarg narg gm =
        .error "Illegal classic gran model command") ∧
    (¬ (v.kn < 0 ∨ v.kt < 0 ∨ v.gamman < 0 ∨ (v.gammat < 0 ∧ v.dampflag ≠ 0) ∨
        v.xmu < 0 ∨ v.xmu > 10000 ∨ v.dampflag < 0 ∨ v.dampflag > 1) →
      token arg iarg ∈ ["hooke", "hooke/history", "hertz/history"] →
      (∀ w cs, (∀ x ∈ cs, (0 : ℚ) ≤ x) → ∃ l, ext.coeffs_to_local w cs = .ok l) →
      0 ≤ u.nktv2p →
      ∃ gm', init_classic_model ext u arg iarg narg gm = .ok (iarg + 7, gm')) := by
  have hiff : classic_illegal v ↔
      (v.kn < 0 ∨ v.kt < 0 ∨ v.gamman < 0 ∨ (v.gammat < 0 ∧ v.dampflag ≠ 0) ∨
        v.xmu < 0 ∨ v.xmu > 10000 ∨ v.dampflag < 0 ∨ v.dampflag > 1) := by
    unfold classic_illegal
    rw [classic_gammat_neg_iff]
  refine ⟨fun hbad => ?_, fun hgood hname hacc hn => ?_⟩
  · rw [init_classic_model_of_values ext u arg iarg narg gm v h6 hv, if_pos (hiff.2 hbad)]
  · obtain ⟨c, hc⟩ := (classic_choice_known (token arg iarg)).2 hname
    obtain ⟨gm', -, -, -, -, hok, -⟩ :=
      init_classic_model_accepts ext u arg iarg narg gm v c h6 hv
        (fun hi => hgood (hiff.1 hi)) hc hacc hn
    exact ⟨gm', hok⟩

/-- C23 (as stated, refuted): on `hooke 100 NULL 5 -1 0.5 0` the given tangential damping
is -1, negative, and `init_classic_model` accepts the list: the damping flag 0 replaces
the tangential damping by 0 before the check. -/
theorem init_classic_model_validation_counterexample :
    classic_values sampleUtils classicNoDamp 0 = .ok ⟨100, 100 * 2 / 7, 5, -1, 1 / 2, 0⟩ ∧
    ∃ gm', init_classic_model classicExt sampleUtils classicNoDamp 0 7 GranularModel.new =
      .ok (7, gm') := by
  refine ⟨classicNoDamp_values, ?_⟩
  have hg : classic_gammat ⟨100, 100 * 2 / 7, 5, -1, 1 / 2, 0⟩ = 0 := if_pos rfl
  have hl : ¬ classic_illegal ⟨100, 100 * 2 / 7, 5, -1, 1 / 2, 0⟩ := by
    simp only [classic_illegal, hg, not_or, not_lt, gt_iff_lt]
    norm_num
  obtain ⟨gm', -, -, hok, -⟩ := classic_sample_run classicNoDamp _ classicNoDamp_values hl rfl
  exact ⟨gm', hok⟩

/-- C23 (witness): the list `hooke 100 NULL 5 NULL 0.5 1` violates no bound and is
accepted. -/
theorem init_classic_model_validation_witness :
    ∃ gm', init_classic_model classicExt sampleUtils classicArgs 0 7 GranularModel.new =
      .ok (7, gm') :=
  (init_classic_model_validation classicExt sampleUtils classicArgs 0 7 GranularModel.new _
    (by decide) classicArgs_values).2 (by norm_num) (by decide) sampleExt_accepts
    (by show (0 : ℚ) ≤ 1; norm_num)

set_option maxRecDepth 100000 in
/-- Values of the binary64 operations at known points: `0.1 + 0.2` is
`0.30000000000000004`, `1.0 / 3.0` is `0.3333333333333333`, `sqrt(2.0)` is
`1.4142135623730951`, the largest double times 2 is an infinity, the smallest positive
double divided by 2 is zero (a tie, rounded to even) and 3 times it times `0.5` is twice
it, `0.0 / 0.0` and `inf - inf` are NaN, and `-0.0 == 0.0`. -/
theorem Dbl.known_values :
    Dbl.add (Dbl.div (Dbl.ofInt 1) (Dbl.ofInt 10)) (Dbl.div (Dbl.ofInt 2) (Dbl.ofInt 10)) =
      .fin false 1351079888211149 (-52) ∧
    Dbl.div (Dbl.ofInt 1) (Dbl.ofInt 3) = .fin false 6004799503160661 (-54) ∧
    Dbl.sqrt (Dbl.ofInt 2) = .fin false 6369051672525773 (-52) ∧
    Dbl.mul (.fin false 9007199254740991 971) (Dbl.ofInt 2) = .inf false ∧
    Dbl.div (.fin false 1 (-1074)) (Dbl.ofInt 2) = Dbl.zero ∧
    Dbl.mul (Dbl.mul (Dbl.ofInt 3) (.fin false 1 (-1074))) Dbl.half = .fin false 1 (-1073) ∧
    Dbl.div Dbl.zero Dbl.zero = .nan ∧
    Dbl.sub (.inf false) (.inf false) = .nan ∧
    Dbl.beq (Dbl.neg Dbl.zero) Dbl.zero = true := by
  decide

theorem Dbl.zero_le_of_not_lt (x : Dbl) (hn : x ≠ .nan) (h : Dbl.lt x Dbl.zero = false) :
    Dbl.le Dbl.zero x = true := by
  cases x with
  | nan => exact absurd rfl hn
  | inf n => cases n <;> simp_all [Dbl.lt, Dbl.le, Dbl.zero]
  | fin n m e =>
    simp only [Dbl.lt, Dbl.zero, decide_eq_false_iff_not, not_lt] at h
    simp only [Dbl.le, Dbl.zero, decide_eq_true_eq]
    rw [min_comm 0 e]
    simpa [Dbl.sval] using h

theorem Dbl.zero_le_ne_nan (x : Dbl) (h : Dbl.le Dbl.zero x = true) : x ≠ .nan := by
  intro e
  rw [e] at h
  cases h

/-- C10 (amended): after `calculate_forces` the net normal force `Fntot` is `Fne + Fdamp`,
the results of the Normal and the Damping submodel, except that it is 0 when
`limit_damping` is set and `Fne + Fdamp < 0` (the statements after the clip do not write
`Fntot`); in the code's double arithmetic, with `limit_damping` set, `Fntot >= 0` holds
exactly on the inputs on which `Fne + Fdamp` is not a NaN. -/
theorem calculate_forces_Fntot (ext : Ext) (gm : GranularModel) (h : Hooks64)
    (c : Contact64) :
    (∃ gm', calculate_forces ext gm = .ok gm' ∧
      gm'.Fntot =
        (if gm.limit_damping ≠ 0 ∧
            ext.normal_forces (contact_area ext (kinematics ext gm)) +
              ext.damping_forces (contact_area ext (kinematics ext gm)) < 0
          then 0
          else ext.normal_forces (contact_area ext (kinematics ext gm)) +
            ext.damping_forces (contact_area ext (kinematics ext gm)))) ∧
    (Binary64.normal_state h c).Fntot =
      (if c.limit_damping ≠ 0 ∧
          Dbl.lt (Dbl.add (h.normal_forces (Binary64.contact_area h (Binary64.kinematics c)))
            (h.damping_forces (Binary64.contact_area h (Binary64.kinematics c))))
            Dbl.zero = true
        then Dbl.zero
        else Dbl.add (h.normal_forces (Binary64.contact_area h (Binary64.kinematics c)))
          (h.damping_forces (Binary64.contact_area h (Binary64.kinematics c)))) ∧
    (c.limit_damping ≠ 0 →
      (Dbl.le Dbl.zero (Binary64.normal_state h c).Fntot = true ↔
        Dbl.add (h.normal_forces (Binary64.contact_area h (Binary64.kinematics c)))
          (h.damping_forces (Binary64.contact_area h (Binary64.kinematics c))) ≠ .nan)) := by
  have e : (Binary64.normal_state h c).Fntot =
      (if c.limit_damping ≠ 0 ∧
          Dbl.lt (Dbl.add (h.normal_forces (Binary64.contact_area h (Binary64.kinematics c)))
            (h.damping_forces (Binary64.contact_area h (Binary64.kinematics c))))
            Dbl.zero = true
        then Dbl.zero
        else Dbl.add (h.normal_forces (Binary64.contact_area h (Binary64.kinematics c)))
          (h.damping_forces (Binary64.contact_area h (Binary64.kinematics c)))) := rfl
  refine ⟨⟨_, rfl, ?_⟩, e, fun hl => ?_⟩
  · rw [heat_flow_Fntot, sum_contributions_Fntot, submodel_forces_Fntot]
    simp only [normal_forces, contact_area_limit_damping]
  · rw [e]
    generalize Dbl.add (h.normal_forces (Binary64.contact_area h (Binary64.kinematics c)))
      (h.damping_forces (Binary64.contact_area h (Binary64.kinematics c))) = x
    by_cases hx : Dbl.lt x Dbl.zero = true
    · rw [if_pos ⟨hl, hx⟩]
      refine ⟨fun _ hn => ?_, fun _ => by decide⟩
      rw [hn] at hx
      cases hx
    · rw [if_neg fun hc => hx hc.2]
      exact ⟨Dbl.zero_le_ne_nan x,
        fun hn => Dbl.zero_le_of_not_lt x hn (Bool.eq_false_iff.2 hx)⟩

/-- C10 (as stated, refuted): two spheres of radius 1 with coincident centres and
`limit_damping` set pass the distance test of `check_contact` (`rsq = 0 < 4`); in
`calculate_forces` `rinv = 1.0 / 0.0` is an infinity, `nx` and `vnnr` are NaN, the damping
force `-50 * vnnr` is a NaN, so is `Fne + Fdamp`, the test `Fntot < 0.0` is false and
`Fntot` stays a NaN: `Fntot >= 0` does not hold. -/
theorem calculate_forces_Fntot_counterexample :
    coincident64.limit_damping = 1 ∧
    Dbl.lt (Binary64.contact_geometry coincident64).rsq
      (Dbl.mul (Binary64.contact_geometry coincident64).radsum
        (Binary64.contact_geometry coincident64).radsum) = true ∧
    (Binary64.kinematics (Binary64.contact_geometry coincident64)).rinv = .inf false ∧
    (Binary64.kinematics (Binary64.contact_geometry coincident64)).vnnr = .nan ∧
    (Binary64.normal_state sampleHooks64 (Binary64.contact_geometry coincident64)).Fntot
      = .nan ∧
    Dbl.le Dbl.zero
      (Binary64.normal_state sampleHooks64 (Binary64.contact_geometry coincident64)).Fntot
      = false := by
  decide

theorem clipContact_sum :
    sampleExt.normal_forces (contact_area sampleExt (kinematics sampleExt clipContact)) +
      sampleExt.damping_forces (contact_area sampleExt (kinematics sampleExt clipContact)) =
        -500 := by
  show (1000 : ℚ) * ((1 + 1) - sampleExt.sqrt (lensq3 (sub3 ⟨1, 0, 0⟩ Vec3.zero))) +
    (-(50 : ℚ)) * dot3 (sub3 ⟨30, 0, 0⟩ Vec3.zero)
      (scale3 (1 / sampleExt.sqrt (lensq3 (sub3 ⟨1, 0, 0⟩ Vec3.zero)))
        (sub3 ⟨1, 0, 0⟩ Vec3.zero)) = -500
  simp [sampleExt, lensq3, sub3, Vec3.zero, dot3, scale3]
  norm_num

set_option maxRecDepth 100000 in
/-- C10 (witness): the clip is taken. On `clipContact` the sum `Fne + Fdamp` is
`1000 - 1500 = -500` and `Fntot` is 0; on the contact `clip64` the sum of the doubles is
`-1357.1428571428569` and `Fntot` is `0.0`, which is `>= 0`. -/
theorem calculate_forces_Fntot_witness :
    (∃ gm', calculate_forces sampleExt clipContact = .ok gm' ∧ gm'.Fntot = 0) ∧
    Dbl.add
      (sampleHooks64.normal_forces (Binary64.contact_area sampleHooks64
        (Binary64.kinematics (Binary64.contact_geometry clip64))))
      (sampleHooks64.damping_forces (Binary64.contact_area sampleHooks64
        (Binary64.kinematics (Binary64.contact_geometry clip64)))) =
      .fin true 746097175990857 (-39) ∧
    (Binary64.normal_state sampleHooks64 (Binary64.contact_geometry clip64)).Fntot =
      Dbl.zero ∧
    Dbl.le Dbl.zero
      (Binary64.normal_state sampleHooks64 (Binary64.contact_geometry clip64)).Fntot =
      true := by
  obtain ⟨⟨gm', h1, h2⟩, -, h4⟩ :=
    calculate_forces_Fntot sampleExt clipContact sampleHooks64
      (Binary64.contact_geometry clip64)
  refine ⟨⟨gm', h1, ?_⟩, by decide, by decide, (h4 (by decide)).2 (by decide)⟩
  rw [h2, clipContact_sum, if_pos ⟨by decide, by norm_num⟩]

theorem sds64_eval (s : Twist64) :
    Binary64.GSMTwistingSDS.calculate_forces s =
      if Dbl.lt (Binary64.sds_Mtcrit s) (Dbl.abs (Binary64.sds_trial s)) = true then
        { s with
          history := (Binary64.integrate_history s).set s.history_index
            (Binary64.sds_rescaled s)
          magtortwist :=
            Dbl.mul (Dbl.neg (Binary64.sds_Mtcrit s)) (Binary64.signtwist s.magtwist) }
      else { s with history := Binary64.integrate_history s, magtortwist := Binary64.sds_trial s } :=
  rfl

theorem integrate_history64_off (s : Twist64) (hu : s.history_update = false) :
    Binary64.integrate_history s = s.history := by
  unfold Binary64.integrate_history
  rw [hu]
  rfl

/-- The input value of `magtortwist` is not read by the SDS law. -/
theorem sds64_output_unread (s : Twist64) (t : Dbl) :
    Binary64.GSMTwistingSDS.calculate_forces { s with magtortwist := t } =
      Binary64.GSMTwistingSDS.calculate_forces s := by
  rw [sds64_eval, sds64_eval]
  rfl

theorem sds64_yield (s : Twist64)
    (hy : Dbl.lt (Binary64.sds_Mtcrit s) (Dbl.abs (Binary64.sds_trial s)) = true) :
    Binary64.GSMTwistingSDS.calculate_forces s =
      { s with
        history := (Binary64.integrate_history s).set s.history_index
          (Binary64.sds_rescaled s)
        magtortwist :=
          Dbl.mul (Dbl.neg (Binary64.sds_Mtcrit s)) (Binary64.signtwist s.magtwist) } := by
  rw [sds64_eval, if_pos hy]

theorem sds64_no_yield (s : Twist64)
    (hy : Dbl.lt (Binary64.sds_Mtcrit s) (Dbl.abs (Binary64.sds_trial s)) = false) :
    Binary64.GSMTwistingSDS.calculate_forces s =
      { s with history := Binary64.integrate_history s, magtortwist := Binary64.sds_trial s } := by
  rw [sds64_eval, if_neg (by rw [hy]; exact Bool.false_ne_true)]

/-- With `history_update` off, an SDS evaluation that does not yield changes nothing but
the output, and a second evaluation repeats the first. -/
theorem sds64_repeat_no_yield (s : Twist64) (hu : s.history_update = false)
    (hy : Dbl.lt (Binary64.sds_Mtcrit s) (Dbl.abs (Binary64.sds_trial s)) = false) :
    Binary64.GSMTwistingSDS.calculate_forces (Binary64.GSMTwistingSDS.calculate_forces s) =
      Binary64.GSMTwistingSDS.calculate_forces s := by
  have h1 : Binary64.GSMTwistingSDS.calculate_forces s =
      { s with magtortwist := Binary64.sds_trial s } := by
    rw [sds64_no_yield s hy, integrate_history64_off s hu]
  rw [h1, sds64_output_unread]
  exact h1

/-- With `history_update` off, the state after an SDS evaluation that yields. -/
theorem sds64_yield_off (s : Twist64) (hu : s.history_update = false)
    (hy : Dbl.lt (Binary64.sds_Mtcrit s) (Dbl.abs (Binary64.sds_trial s)) = true) :
    Binary64.GSMTwistingSDS.calculate_forces s =
      { s with
        history := s.history.set s.history_index (Binary64.sds_rescaled s)
        magtortwist :=
          Dbl.mul (Dbl.neg (Binary64.sds_Mtcrit s)) (Binary64.signtwist s.magtwist) } := by
  rw [sds64_yield s hy, integrate_history64_off s hu]

/-- With `history_update` off, an SDS evaluation that yields on a state which an
evaluation that yielded has left changes nothing. -/
theorem sds64_repeat_yield (s : Twist64) (hu : s.history_update = false)
    (hy : Dbl.lt (Binary64.sds_Mtcrit s) (Dbl.abs (Binary64.sds_trial s)) = true)
    (hy2 : Dbl.lt (Binary64.sds_Mtcrit (Binary64.GSMTwistingSDS.calculate_forces s))
      (Dbl.abs (Binary64.sds_trial (Binary64.GSMTwistingSDS.calculate_forces s))) = true) :
    Binary64.GSMTwistingSDS.calculate_forces (Binary64.GSMTwistingSDS.calculate_forces s) =
      Binary64.GSMTwistingSDS.calculate_forces s := by
  have h1 := sds64_yield_off s hu hy
  have hu1 : (Binary64.GSMTwistingSDS.calculate_forces s).history_update = false := by
    rw [h1]; exact hu
  rw [sds64_yield_off _ hu1 hy2]
  rw [h1]
  show ({ s with
      history := (s.history.set s.history_index (Binary64.sds_rescaled s)).set s.history_index
        (Binary64.sds_rescaled s)
      magtortwist :=
        Dbl.mul (Dbl.neg (Binary64.sds_Mtcrit s)) (Binary64.signtwist s.magtwist) } : Twist64) = _
  rw [List.set_set]

/-- With `history_update` off, an SDS evaluation that does not yield changes nothing but
the output, which is the trial torque. -/
theorem sds64_no_yield_off (s : Twist64) (hu : s.history_update = false)
    (hy : Dbl.lt (Binary64.sds_Mtcrit s) (Dbl.abs (Binary64.sds_trial s)) = false) :
    Binary64.GSMTwistingSDS.calculate_forces s =
      { s with magtortwist := Binary64.sds_trial s } := by
  rw [sds64_no_yield s hy, integrate_history64_off s hu]

theorem sds64_history_update (s : Twist64) :
    (Binary64.GSMTwistingSDS.calculate_forces s).history_update = s.history_update := by
  rw [sds64_eval]
  split_ifs <;> rfl

/-- C18 (amended): for every SDS twisting state, evaluating
`GSMTwistingSDS::calculate_forces` in succession with `history_update = false` (and so with
the same `magtwist` and `Fncrit`) leaves after the second evaluation the history that the
first left, and a third evaluation leaves the state, history and output torque, as the
second left it. The second output torque is the first one when the first evaluation does
not yield, and when both the first and the second yield; when the first yields and the
second does not, the second output is the trial torque `-k * h - damp * magtwist` on the
rescaled history `h`, which need not be the first output. All operations are those of the
code's double arithmetic. -/
theorem sds_idempotent_output (s : Twist64) (hu : s.history_update = false) :
    Binary64.GSMTwistingSDS.calculate_forces
        (Binary64.GSMTwistingSDS.calculate_forces
          (Binary64.GSMTwistingSDS.calculate_forces s)) =
      Binary64.GSMTwistingSDS.calculate_forces
        (Binary64.GSMTwistingSDS.calculate_forces s) ∧
    (Binary64.GSMTwistingSDS.calculate_forces
        (Binary64.GSMTwistingSDS.calculate_forces s)).history =
      (Binary64.GSMTwistingSDS.calculate_forces s).history ∧
    (Dbl.lt (Binary64.sds_Mtcrit s) (Dbl.abs (Binary64.sds_trial s)) = false →
      (Binary64.GSMTwistingSDS.calculate_forces s).history = s.history ∧
      (Binary64.GSMTwistingSDS.calculate_forces
          (Binary64.GSMTwistingSDS.calculate_forces s)).magtortwist =
        (Binary64.GSMTwistingSDS.calculate_forces s).magtortwist) ∧
    (Dbl.lt (Binary64.sds_Mtcrit s) (Dbl.abs (Binary64.sds_trial s)) = true →
      (Binary64.GSMTwistingSDS.calculate_forces s).history =
        s.history.set s.history_index (Binary64.sds_rescaled s) ∧
      Binary64.sds_trial (Binary64.GSMTwistingSDS.calculate_forces s) =
        Dbl.sub
          (Dbl.mul (Dbl.neg s.k)
            ((s.history.set s.history_index (Binary64.sds_rescaled s)).getD s.history_index
              Dbl.zero))
          (Dbl.mul s.damp s.magtwist) ∧
      (Dbl.lt (Binary64.sds_Mtcrit s)
          (Dbl.abs (Binary64.sds_trial (Binary64.GSMTwistingSDS.calculate_forces s))) = true →
        (Binary64.GSMTwistingSDS.calculate_forces
            (Binary64.GSMTwistingSDS.calculate_forces s)).magtortwist =
          (Binary64.GSMTwistingSDS.calculate_forces s).magtortwist) ∧
      (Dbl.lt (Binary64.sds_Mtcrit s)
          (Dbl.abs (Binary64.sds_trial (Binary64.GSMTwistingSDS.calculate_forces s))) = false →
        (Binary64.GSMTwistingSDS.calculate_forces
            (Binary64.GSMTwistingSDS.calculate_forces s)).magtortwist =
          Binary64.sds_trial (Binary64.GSMTwistingSDS.calculate_forces s))) := by
  have hu1 : (Binary64.GSMTwistingSDS.calculate_forces s).history_update = false :=
    (sds64_history_update s).trans hu
  have hu2 : (Binary64.GSMTwistingSDS.calculate_forces
      (Binary64.GSMTwistingSDS.calculate_forces s)).history_update = false :=
    (sds64_history_update _).trans hu1
  cases hy : Dbl.lt (Binary64.sds_Mtcrit s) (Dbl.abs (Binary64.sds_trial s))
  · -- the first evaluation does not yield
    have r1 := sds64_repeat_no_yield s hu hy
    refine ⟨by rw [r1, r1], by rw [r1], fun _ => ⟨?_, by rw [r1]⟩, fun h => by cases h⟩
    rw [sds64_no_yield_off s hu hy]
  · -- the first evaluation yields
    have h1 := sds64_yield_off s hu hy
    have hM : Binary64.sds_Mtcrit (Binary64.GSMTwistingSDS.calculate_forces s) =
        Binary64.sds_Mtcrit s := by
      rw [h1]; rfl
    have ht : Binary64.sds_trial (Binary64.GSMTwistingSDS.calculate_forces s) =
        Dbl.sub
          (Dbl.mul (Dbl.neg s.k)
            ((s.history.set s.history_index (Binary64.sds_rescaled s)).getD s.history_index
              Dbl.zero))
          (Dbl.mul s.damp s.magtwist) := by
      unfold Binary64.sds_trial
      rw [integrate_history64_off _ hu1, h1]
    cases hy2 : Dbl.lt (Binary64.sds_Mtcrit (Binary64.GSMTwistingSDS.calculate_forces s))
        (Dbl.abs (Binary64.sds_trial (Binary64.GSMTwistingSDS.calculate_forces s)))
    · -- the second evaluation does not yield
      have r2 := sds64_repeat_no_yield _ hu1 hy2
      have n2 := sds64_no_yield_off _ hu1 hy2
      refine ⟨r2, by rw [n2], (fun h => by cases h), fun _ => ⟨by rw [h1], ht, fun h => ?_,
        fun _ => by rw [n2]⟩⟩
      rw [hM] at hy2
      rw [hy2] at h
      cases h
    · -- the second evaluation yields as well
      have r2 := sds64_repeat_yield s hu hy hy2
      refine ⟨by rw [r2, r2], by rw [r2], (fun h => by cases h), fun _ => ⟨by rw [h1], ht,
        fun _ => by rw [r2], fun h => ?_⟩⟩
      rw [hM] at hy2
      rw [hy2] at h
      cases h

/-- C18 (as stated, refuted): with `k = 49 > 0`, no damping, `Mtcrit = 1 >= 0`, twist rate
1, the history 1 and `history_update = false`, the first evaluation yields and returns
`-1.0`, storing the history `1.0 / 49.0`; the second evaluation, on the same `magtwist` and
`Fncrit`, returns `-49.0 * (1.0 / 49.0) = -0.9999999999999999`, another torque. -/
theorem sds_idempotent_output_counterexample :
    round64.history_update = false ∧ Dbl.lt Dbl.zero round64.k = true ∧
    Dbl.le Dbl.zero (Binary64.sds_Mtcrit round64) = true ∧
    (Binary64.GSMTwistingSDS.calculate_forces round64).magtortwist = .fin true 1 0 ∧
    (Binary64.GSMTwistingSDS.calculate_forces round64).history =
      [.fin false 5882252574524729 (-58), Dbl.zero, Dbl.zero] ∧
    (Binary64.GSMTwistingSDS.calculate_forces round64).magtwist = round64.magtwist ∧
    (Binary64.GSMTwistingSDS.calculate_forces round64).Fncrit = round64.Fncrit ∧
    (Binary64.GSMTwistingSDS.calculate_forces
      (Binary64.GSMTwistingSDS.calculate_forces round64)).magtortwist =
        .fin true 9007199254740991 (-53) ∧
    (Binary64.GSMTwistingSDS.calculate_forces
      (Binary64.GSMTwistingSDS.calculate_forces round64)).magtortwist ≠
        (Binary64.GSMTwistingSDS.calculate_forces round64).magtortwist := by
  decide

/-- C18 (witness): on `round64` the first evaluation yields and the second does not: the
second output is the trial torque on the rescaled history, and the third evaluation
changes nothing. -/
theorem sds_idempotent_output_witness :
    Binary64.GSMTwistingSDS.calculate_forces
        (Binary64.GSMTwistingSDS.calculate_forces
          (Binary64.GSMTwistingSDS.calculate_forces round64)) =
      Binary64.GSMTwistingSDS.calculate_forces
        (Binary64.GSMTwistingSDS.calculate_forces round64) ∧
    (Binary64.GSMTwistingSDS.calculate_forces
        (Binary64.GSMTwistingSDS.calculate_forces round64)).magtortwist =
      Binary64.sds_trial (Binary64.GSMTwistingSDS.calculate_forces round64) := by
  obtain ⟨h1, -, -, h4⟩ := sds_idempotent_output round64 rfl
  exact ⟨h1, (h4 (by decide)).2.2.2 (by decide)⟩

theorem bitlen_fuel_zero (f : Nat) : bitlen_fuel f 0 = 0 := by
  cases f <;> simp [bitlen_fuel]

theorem bitlen_fuel_bound : ∀ (f n : Nat), 0 < n → n < 2 ^ f → 2 ^ bitlen_fuel f n ≤ 2 * n := by
  intro f
  induction f with
  | zero =>
    intro n h0 h1
    simp at h1
    omega
  | succ f ih =>
    intro n h0 h1
    have hne : n ≠ 0 := by omega
    simp only [bitlen_fuel, hne, if_false]
    rw [pow_succ]
    by_cases h2 : n / 2 = 0
    · rw [h2, bitlen_fuel_zero]
      simp
      omega
    · have h3 : n / 2 < 2 ^ f := by
        rw [pow_succ] at h1
        omega
      have := ih (n / 2) (by omega) h3
      omega

theorem bitlen_pos (n : Nat) (h : 0 < n) : 0 < bitlen n := by
  unfold bitlen
  cases n with
  | zero => omega
  | succ k => simp [bitlen_fuel]

/-- A number of `bitlen n` digits is at least `2^(bitlen n - 1)`. -/
theorem bitlen_pow_le (n : Nat) (h : 0 < n) : 2 ^ (bitlen n - 1) ≤ n := by
  have h1 : 2 ^ bitlen n ≤ 2 * n := bitlen_fuel_bound n n h (Nat.lt_two_pow n)
  have h2 := bitlen_pos n h
  obtain ⟨b, hb⟩ : ∃ b, bitlen n = b + 1 := ⟨bitlen n - 1, by omega⟩
  rw [hb] at h1 ⊢
  rw [pow_succ] at h1
  simp only [Nat.add_sub_cancel]
  omega

theorem isqrt_iter_pos (n : Nat) (hn : 0 < n) :
    ∀ (fuel x : Nat), 0 < x → 0 < isqrt_iter n fuel x := by
  intro fuel
  induction fuel with
  | zero => intro x hx; exact hx
  | succ f ih =>
    intro x hx
    simp only [isqrt_iter]
    split_ifs with h
    · exact hx
    · apply ih
      by_cases h1 : x = 1
      · subst h1
        simp only [Nat.div_one]
        omega
      · generalize n / x = t
        omega

theorem isqrt_pos (n : Nat) (hn : 0 < n) : 0 < isqrt n := by
  unfold isqrt
  rw [if_neg (by omega)]
  exact isqrt_iter_pos n hn _ _ (by positivity)

theorem Dbl.canon_isZero (neg : Bool) (m : Nat) (e : Int) (hm : 0 < m) :
    (Dbl.canon neg m e).isZero = false := by
  unfold Dbl.canon
  rw [if_neg (by omega)]
  have hg : 0 < Nat.gcd m (2 ^ bitlen m) := Nat.gcd_pos_of_pos_left _ hm
  have hle : Nat.gcd m (2 ^ bitlen m) ≤ m := Nat.gcd_le_left _ hm
  have : 0 < m / Nat.gcd m (2 ^ bitlen m) := Nat.div_pos hle hg
  simp only [Dbl.isZero, decide_eq_false_iff_not]
  omega

/-- Rounding does not give zero for a number that is at least `2^-1074`. -/
theorem Dbl.round_isZero (neg : Bool) (m : Nat) (e : Int) (sticky : Bool) (hm : 0 < m)
    (he : -1073 ≤ e + bitlen m) : (Dbl.round neg m e sticky).isZero = false := by
  have hb := bitlen_pos m hm
  have hp := bitlen_pow_le m hm
  have hs : (max (e + (bitlen m : Int) - 53) (-1074) - e).toNat ≤ bitlen m - 1 := by omega
  have hq : 0 < m / 2 ^ (max (e + (bitlen m : Int) - 53) (-1074) - e).toNat := by
    apply Nat.div_pos _ (by positivity)
    exact le_trans (Nat.pow_le_pow_right (by norm_num) hs) hp
  unfold Dbl.round
  rw [if_neg (by omega)]
  simp only
  split_ifs
  all_goals first
    | rfl
    | (apply Dbl.canon_isZero; omega)

/-- The square root of a double is zero exactly when the double is zero. -/
theorem Dbl.sqrt_isZero (x : Dbl) (hv : x.valid = true) :
    (Dbl.sqrt x).isZero = x.isZero := by
  cases x with
  | nan => rfl
  | inf n => cases n <;> rfl
  | fin n m e =>
    by_cases hm : m = 0
    · subst hm
      simp [Dbl.sqrt, Dbl.isZero]
    · have hm0 : 0 < m := Nat.pos_of_ne_zero hm
      have he : -1074 ≤ e := by
        simp only [Dbl.valid, decide_eq_true_eq] at hv
        omega
      have hx : (Dbl.fin n m e).isZero = false := by
        simp [Dbl.isZero, hm]
      rw [hx]
      unfold Dbl.sqrt
      simp only [hm, if_false]
      cases n
      · simp only [Bool.false_eq_true, if_false]
        apply Dbl.round_isZero
        · exact isqrt_pos _ (by positivity)
        · have := bitlen_pos _ (isqrt_pos (m * 2 ^ (120 + ((e - 120) % 2).toNat)) (by positivity))
          omega
      · rfl

theorem bitlen_fuel_lt : ∀ (f n : Nat), n < 2 ^ f → n < 2 ^ bitlen_fuel f n := by
  intro f
  induction f with
  | zero =>
    intro n h1
    simp at h1
    subst h1
    simp [bitlen_fuel]
  | succ f ih =>
    intro n h1
    by_cases hne : n = 0
    · subst hne
      simp [bitlen_fuel]
    · simp only [bitlen_fuel, hne, if_false]
      have h3 : n / 2 < 2 ^ f := by
        rw [pow_succ] at h1
        omega
      have := ih (n / 2) h3
      rw [pow_succ]
      omega

/-- The number `bitlen n` is the number of binary digits of `n`. -/
theorem bitlen_spec (n : Nat) (h : 0 < n) : 2 ^ (bitlen n - 1) ≤ n ∧ n < 2 ^ bitlen n :=
  ⟨bitlen_pow_le n h, bitlen_fuel_lt n n (Nat.lt_two_pow n)⟩

theorem isqrt_step (n x : Nat) (hx : 0 < x) :
    n < ((x + n / x) / 2 + 1) * ((x + n / x) / 2 + 1) := by
  have h1 : n < x * (n / x + 1) := Nat.lt_mul_div_succ n hx
  have h2 : x + n / x + 1 ≤ 2 * ((x + n / x) / 2 + 1) := by omega
  have h3 : 4 * x * (n / x + 1) ≤ (x + (n / x + 1)) ^ 2 := four_mul_le_sq_add _ _
  have h4 : (x + (n / x + 1)) ^ 2 ≤ (2 * ((x + n / x) / 2 + 1)) ^ 2 :=
    Nat.pow_le_pow_left (by omega) 2
  generalize (x + n / x) / 2 = m at h2 h4 ⊢
  generalize n / x = t at h1 h2 h3 h4
  nlinarith

theorem isqrt_iter_spec (n : Nat) (hn : 0 < n) :
    ∀ (fuel x : Nat), 0 < x → n < (x + 1) * (x + 1) → x ≤ fuel + Nat.sqrt n →
      isqrt_iter n fuel x = Nat.sqrt n := by
  intro fuel
  induction fuel with
  | zero =>
    intro x hx h1 h2
    simp only [isqrt_iter]
    have : Nat.sqrt n ≤ x := by
      have := Nat.sqrt_lt.2 h1
      omega
    omega
  | succ f ih =>
    intro x hx h1 h2
    simp only [isqrt_iter]
    split_ifs with h
    · have h3 : x ≤ n / x := by omega
      have h4 : x * x ≤ n := (Nat.le_div_iff_mul_le hx).1 h3
      have h5 : x ≤ Nat.sqrt n := Nat.le_sqrt.2 h4
      have h6 : Nat.sqrt n ≤ x := by
        have := Nat.sqrt_lt.2 h1
        omega
      omega
    · apply ih
      · by_cases hx1 : x = 1
        · subst hx1
          simp only [Nat.div_one]
          omega
        · generalize n / x = t
          omega
      · exact isqrt_step n x hx
      · omega

/-- The function `isqrt` is the integer square root. -/
theorem isqrt_spec (n : Nat) : isqrt n = Nat.sqrt n := by
  unfold isqrt
  split_ifs with h
  · subst h
    simp
  · have hn : 0 < n := Nat.pos_of_ne_zero h
    obtain ⟨hb1, hb2⟩ := bitlen_spec n hn
    have hpos := bitlen_pos n hn
    apply isqrt_iter_spec n hn
    · positivity
    · -- n < 2^bitlen n ≤ (2^((bitlen n - 1)/2 + 1))^2
      have e : bitlen n ≤ 2 * ((bitlen n - 1) / 2 + 1) := by omega
      have h2 : 2 ^ bitlen n ≤ 2 ^ (2 * ((bitlen n - 1) / 2 + 1)) :=
        Nat.pow_le_pow_right (by norm_num) e
      rw [pow_mul'] at h2
      generalize 2 ^ ((bitlen n - 1) / 2 + 1) = y at h2 ⊢
      nlinarith
    · -- the start is at most 2 * n
      have e : (bitlen n - 1) / 2 ≤ bitlen n - 1 := Nat.div_le_self _ _
      have h2 : 2 ^ ((bitlen n - 1) / 2) ≤ 2 ^ (bitlen n - 1) :=
        Nat.pow_le_pow_right (by norm_num) e
      rw [pow_succ]
      omega

/-- C20 (the code at the failing input): the coefficient vector `[0, 1, 1]`, with stiffness
`k = 0`, is accepted by `GSMTwistingSDS::coeffs_to_local`, which tests `k < 0.0` only; on
the accepted parameters, with `Fncrit = 1`, the history 5 and twist rate 3, the trial
torque `-0.0 * 5.0 - 1.0 * 3.0 = -3.0` exceeds `Mtcrit = 1.0` and
`GSMTwistingSDS::calculate_forces` stores the history `(1.0 - 3.0) / 0.0`, minus
infinity. -/
theorem sds_zero_stiffness :
    sdsZero.coeffs = [0, 1, 1] ∧
    (∃ m2 : GSM, GSM.coeffs_to_local sampleExt sdsZero = .ok m2 ∧ m2.k = 0) ∧
    Binary64.GSMTwistingSDS.coeffs_to_local [Dbl.zero, Dbl.one, Dbl.one] =
      .ok (Dbl.zero, Dbl.one, Dbl.one) ∧
    (zeroStiff64.k, zeroStiff64.damp, zeroStiff64.mu) = (Dbl.zero, Dbl.one, Dbl.one) ∧
    Binary64.sds_trial zeroStiff64 = .fin true 3 0 ∧
    Binary64.sds_Mtcrit zeroStiff64 = Dbl.one ∧
    (Binary64.GSMTwistingSDS.calculate_forces zeroStiff64).history =
      [.inf true, Dbl.zero, Dbl.zero] := by
  refine ⟨rfl, ?_, rfl, by decide, by decide, by decide, by decide⟩
  rw [sds_coeffs_to_local_eval sampleExt sdsZero rfl, if_neg (by decide)]
  exact ⟨_, rfl, rfl⟩

/-- C30 (the code at the failing input): the list `hooke 100 NULL 0 NULL 0.5 1` passes the
validation of `init_classic_model`, which tests `gamman < 0.0` only, and is accepted with
the divisor `gamman = 0`; in the code's double arithmetic `gammat = 0.5 * 0.0` and the
coefficient `gammat / gamman = 0.0 / 0.0` stored in the Tangential submodel is a NaN. -/
theorem classic_zero_divisor :
    (∃ v, classic_values sampleUtils classicZero 0 = .ok v ∧ ¬ classic_illegal v ∧
      v.gamman = 0 ∧
      ∃ gm', init_classic_model classicExt sampleUtils classicZero 0 7 GranularModel.new =
        .ok (7, gm')) ∧
    Binary64.classic_illegal classicZero64 = false ∧
    classicZero64.gamman = Dbl.zero ∧
    Binary64.classic_gammat classicZero64 = Dbl.zero ∧
    Binary64.classic_damping_coeff classicZero64 = .ok .nan := by
  have hg : classic_gammat ⟨100, 100 * 2 / 7, 0, 0.5 * 0, 1 / 2, 1⟩ = 0.5 * 0 :=
    if_neg (show ¬ ((1 : Int) = 0) by decide)
  have hl : ¬ classic_illegal ⟨100, 100 * 2 / 7, 0, 0.5 * 0, 1 / 2, 1⟩ := by
    simp only [classic_illegal, hg, not_or, not_lt, gt_iff_lt]
    norm_num
  obtain ⟨gm', -, -, hok, -⟩ := classic_sample_run classicZero _ classicZero_values hl rfl
  exact ⟨⟨_, classicZero_values, hl, rfl, gm', hok⟩, by decide, by decide, by decide, rfl⟩

theorem lensq3_eq_zero (v : Vec3) : lensq3 v = 0 ↔ v = Vec3.zero := by
  constructor
  · intro h
    unfold lensq3 at h
    have hx := mul_self_nonneg v.x
    have hy := mul_self_nonneg v.y
    have hz := mul_self_nonneg v.z
    have ex : v.x * v.x = 0 := by linarith
    have ey : v.y * v.y = 0 := by linarith
    have ez : v.z * v.z = 0 := by linarith
    exact vec3_eq _ _ (mul_self_eq_zero.1 ex) (mul_self_eq_zero.1 ey) (mul_self_eq_zero.1 ez)
  · intro h
    rw [h]
    simp [lensq3, Vec3.zero]

theorem sub3_eq_zero (a b : Vec3) : sub3 a b = Vec3.zero ↔ a = b := by
  constructor
  · intro h
    have hx : a.x - b.x = 0 := congrArg Vec3.x h
    have hy : a.y - b.y = 0 := congrArg Vec3.y h
    have hz : a.z - b.z = 0 := congrArg Vec3.z h
    exact vec3_eq _ _ (sub_eq_zero.1 hx) (sub_eq_zero.1 hy) (sub_eq_zero.1 hz)
  · intro h
    rw [h]
    simp [sub3, Vec3.zero]

/-- C21 (amended): `calculate_forces` raises no error on any coordinator and contact, and
its one division is `rinv = 1 / r`, with `r` the square root of `rsq` (the supplied
distance for a wall-region contact). In the code's double arithmetic the divisor `r` is
zero exactly when `rsq` is zero, so that nothing is divided by zero on a contact with
`rsq` not zero; and `rsq`, which `check_contact` sets to the squared length of
`dx = xi - xj` (of the supplied `dx` for a wall contact), is zero in exact arithmetic
exactly when the two centres coincide (when `dx` is zero), a case that `check_contact`
does not exclude. -/
theorem calculate_forces_error_free (ext : Ext) (gm : GranularModel) (c : Contact64)
    (hv : c.rsq.valid = true) :
    (∃ gm', calculate_forces ext (check_contact ext gm) = .ok gm' ∧
      gm'.rinv = 1 / gm'.r ∧ gm'.r = contact_distance ext (check_contact ext gm)) ∧
    (gm.contact_type = .PAIR → ((check_contact ext gm).rsq = 0 ↔ gm.xi = gm.xj)) ∧
    (gm.contact_type = .WALL → ((check_contact ext gm).rsq = 0 ↔ gm.dx = Vec3.zero)) ∧
    (Binary64.kinematics c).rinv = Dbl.div Dbl.one (Binary64.kinematics c).r ∧
    (c.contact_type = .WALLREGION → (Binary64.kinematics c).r = c.r) ∧
    (c.contact_type ≠ .WALLREGION →
      (Binary64.kinematics c).r = Dbl.sqrt c.rsq ∧
      (Binary64.kinematics c).r.isZero = c.rsq.isZero) := by
  obtain ⟨gm', h, k1, k2, -⟩ := calculate_forces_kinematics ext (check_contact ext gm)
  refine ⟨⟨gm', h, by rw [k2, k1], k1⟩, fun hp => ?_, fun hw => ?_, rfl, fun hw => ?_,
    fun hw => ?_⟩
  · have e : (check_contact ext gm).rsq = lensq3 (sub3 gm.xi gm.xj) := by
      rw [check_contact_eq]
      unfold contact_geometry
      rw [hp]
    rw [e, lensq3_eq_zero, sub3_eq_zero]
  · have e : (check_contact ext gm).rsq = lensq3 gm.dx := by
      rw [check_contact_eq]
      unfold contact_geometry
      rw [hw]
    rw [e, lensq3_eq_zero]
  · show (if c.contact_type ≠ .WALLREGION then Dbl.sqrt c.rsq else c.r) = c.r
    rw [if_neg (not_not.2 hw)]
  · have e : (Binary64.kinematics c).r = Dbl.sqrt c.rsq := by
      show (if c.contact_type ≠ .WALLREGION then Dbl.sqrt c.rsq else c.r) = _
      rw [if_pos hw]
    exact ⟨e, by rw [e]; exact Dbl.sqrt_isZero c.rsq hv⟩

set_option maxRecDepth 100000 in
/-- C21 (witness): on the contact `pair64`, with `rsq = 49`, the divisor is `r = 7`, not
zero; on `apart` the centres differ and `rsq` is not 0. -/
theorem calculate_forces_error_free_witness :
    (Binary64.contact_geometry pair64).rsq = Dbl.ofInt 49 ∧
    (Binary64.kinematics (Binary64.contact_geometry pair64)).r = Dbl.ofInt 7 ∧
    (Binary64.kinematics (Binary64.contact_geometry pair64)).r.isZero = false ∧
    (check_contact sampleExt apart).rsq ≠ 0 := by
  obtain ⟨-, h2, -, -, -, h6⟩ :=
    calculate_forces_error_free sampleExt apart (Binary64.contact_geometry pair64)
      (by decide)
  obtain ⟨e1, e2⟩ := h6 (by decide)
  refine ⟨by decide, e1.trans (by decide), e2.trans (by decide), fun h => ?_⟩
  have := (h2 (by decide)).1 h
  revert this
  decide

end Granular
